import Mathlib

/-!
# Upgrade state machine of the Pravega operator

A shallow embedding of `pkg/controller/pravegacluster/upgrade.go`.

* The cluster resource `p` that the Go code mutates in place is threaded
  explicitly through a `State`, together with the trace of the client calls
  issued so far.
* Everything the Go code reads from outside itself during one reconciliation
  (the clock, the platform objects, the outcome of every write, and the helper
  packages `util` and `pravega` whose sources are not part of this development)
  is collected in an `Env`; every theorem quantifies over it.
* A Go `error` is an `Option String` (`none` is `nil`), a run-time panic is
  `Outcome.panic`.
* A Go `time.Time` is an integer: the nanoseconds since the zero `time.Time`.
* When `client.Get` fails the object read into is still the zero value, so the
  name printed in the error message is empty.
* The clock is read once per reconciliation: every `time.Now()` of one tick
  yields `Env.now`.
-/

namespace Pravega

/-! ## Data model -/

/-- Go's `time.Second`, in nanoseconds. -/
def Second : Int := 1000000000

/-- Go's `time.Minute`, in nanoseconds. -/
def Minute : Int := 60 * Second

/-- The three values of `corev1.ConditionStatus`. -/
inductive ConditionStatus where
  | ConditionTrue
  | ConditionFalse
  | ConditionUnknown
deriving DecidableEq, Repr

/-- The condition types recognised in the cluster status. -/
inductive ClusterConditionType where
  | ClusterConditionPodsReady
  | ClusterConditionUpgrading
  | ClusterConditionError
deriving DecidableEq, Repr

/-- One named status condition of the cluster resource. -/
structure ClusterCondition where
  Type_ : ClusterConditionType
  Status : ConditionStatus
  Reason : String
  Message : String
  LastUpdateTime : String
  LastTransitionTime : String
deriving DecidableEq, Repr

/-- The version-relevant part of `ClusterStatus`. -/
structure ClusterStatus where
  Conditions : List ClusterCondition
  CurrentVersion : String
  TargetVersion : String
deriving DecidableEq, Repr

/-- The version-relevant part of `ClusterSpec`: the declared version. -/
structure ClusterSpec where
  Version : String
deriving DecidableEq, Repr

/-- The cluster resource `PravegaCluster`. -/
structure PravegaCluster where
  Name : String
  Namespace : String
  Spec : ClusterSpec
  Status : ClusterStatus
deriving DecidableEq, Repr

/-- A label map, as an association list. -/
abbrev Labels := List (String × String)

/-- A container of a pod template; only its image is read. -/
structure Container where
  Image : String
deriving DecidableEq, Repr

/-- The `Spec` of a pod template: its containers. -/
structure PodSpec where
  Containers : List Container
deriving DecidableEq, Repr

/-- A pod template: labels and pod spec. -/
structure PodTemplateSpec where
  Labels : Labels
  Spec : PodSpec
deriving DecidableEq, Repr

/-- The `Spec` of a StatefulSet or Deployment: the pod template. -/
structure WorkloadSpec where
  Template : PodTemplateSpec
deriving DecidableEq, Repr

/-- The `Status` replica counters of a StatefulSet (Go `int32`). -/
structure StatefulSetStatus where
  Replicas : Int
  UpdatedReplicas : Int
  ReadyReplicas : Int
deriving DecidableEq, Repr

/-- A StatefulSet as far as the upgrade code reads or writes it. -/
structure StatefulSet where
  Name : String
  Namespace : String
  Spec : WorkloadSpec
  Status : StatefulSetStatus
deriving DecidableEq, Repr

/-- The type of a deployment condition; only `Progressing` is looked at. -/
inductive DeploymentConditionType where
  | DeploymentAvailable
  | DeploymentProgressing
  | DeploymentReplicaFailure
deriving DecidableEq, Repr

/-- One reported condition of a Deployment. -/
structure DeploymentCondition where
  Type_ : DeploymentConditionType
  Status : ConditionStatus
  Reason : String
deriving DecidableEq, Repr

/-- The `Status` of a Deployment: replica counters and conditions. -/
structure DeploymentStatus where
  Replicas : Int
  UpdatedReplicas : Int
  ReadyReplicas : Int
  Conditions : List DeploymentCondition
deriving DecidableEq, Repr

/-- A Deployment as far as the upgrade code reads or writes it. -/
structure Deployment where
  Name : String
  Namespace : String
  Spec : WorkloadSpec
  Status : DeploymentStatus
deriving DecidableEq, Repr

/-- A unit instance. The upgrade code never reads a pod's fields itself except
`Name` (for logging); version, readiness and fault are obtained through the
`util` helpers of `Env`. The remaining fields are the signals those helpers
look at. -/
structure Pod where
  Name : String
  Version : String
  Ready : Bool
  Fault : Option String
deriving DecidableEq, Repr

/-- A configuration object produced by the builders of package `pravega`. -/
structure ConfigMap where
  Name : String
  Data : List (String × String)
  Owner : Option String
deriving DecidableEq, Repr

/-- A compiled label selector. -/
structure Selector where
  Requirements : Labels
deriving DecidableEq, Repr

/-- The calls made on the platform client, plus two bookkeeping events written
by the orchestrator loop: `invoke name` right before it calls the driver of
component `name`, and `returned name synced err` right after that driver
returned. The bookkeeping events influence nothing. -/
inductive Event where
  | getStatefulSet (ns name : String)
  | getDeployment (ns name : String)
  | listPods (ns : String) (selector : Selector)
  | updateConfigMap (cm : ConfigMap)
  | updateStatefulSet (sts : StatefulSet)
  | updateDeployment (deploy : Deployment)
  | updateCluster (p : PravegaCluster)
  | updateStatus (p : PravegaCluster)
  | deletePod (pod : Pod)
  | invoke (name : String)
  | returned (name : String) (synced : Bool) (err : Option String)
deriving DecidableEq, Repr

deriving instance DecidableEq for Except

/-- The result of running Go code that may panic. -/
inductive Outcome (α : Type) where
  | ret (a : α)
  | panic
deriving DecidableEq, Repr

/-- Everything outside `upgrade.go` that one reconciliation depends on. -/
structure Env where
  /-- Go's `time.Now()` -/
  now : Int
  /-- Go's `time.Parse(time.RFC3339, ·)`; `none` when it reports an error -/
  Parse : String → Option Int
  /-- Go's `(·).Format(time.RFC3339)` -/
  Format : Int → String
  /-- The last-transition time that the condition setter of package `v1alpha1`
  stores when it merges a new value into a stored condition, given the stored
  condition, the new value and the formatted current time. The setter is not
  part of the sources at hand and the specification gives no rule for this
  field, so no rule is assumed. -/
  TransitionTime : ClusterCondition → ClusterCondition → String → String
  UpgradingBookkeeperReason : String
  UpgradingSegmentstoreReason : String
  UpgradingControllerReason : String
  StatefulSetNameForBookie : String → String
  StatefulSetNameForSegmentstore : String → String
  DeploymentNameForController : String → String
  BookkeeperTargetImage : PravegaCluster → Except String String
  PravegaTargetImage : PravegaCluster → Except String String
  GetPodVersion : Pod → String
  IsPodReady : Pod → Bool
  IsPodFaulty : Pod → Bool × Option String
  MakeBookieConfigMap : PravegaCluster → ConfigMap
  MakeBookiePodTemplate : PravegaCluster → PodTemplateSpec
  MakeSegmentstoreConfigMap : PravegaCluster → ConfigMap
  MakeSegmentStorePodTemplate : PravegaCluster → PodTemplateSpec
  MakeControllerConfigMap : PravegaCluster → ConfigMap
  MakeControllerPodTemplate : PravegaCluster → PodTemplateSpec
  SetControllerReference : PravegaCluster → ConfigMap → ConfigMap
  LabelSelectorAsSelector : Labels → Except String Selector
  /-- The result of `client.Get` of a StatefulSet by namespace and name -/
  getStatefulSet : String → String → Except String StatefulSet
  /-- The result of `client.Get` of a Deployment by namespace and name -/
  getDeployment : String → String → Except String Deployment
  /-- The result of `client.List` of the pods of a namespace matching a selector -/
  listPods : String → Selector → Except String (List Pod)
  /-- The error, if any, with which the platform answers a write -/
  writeErr : Event → Option String

/-- The cluster resource being reconciled and the calls issued so far
(oldest first). -/
structure State where
  p : PravegaCluster
  trace : List Event
deriving DecidableEq, Repr

/-- Record one more event. -/
def State.log (s : State) (e : Event) : State :=
  { s with trace := s.trace ++ [e] }

/-- Replace the status of the cluster resource. -/
def State.setStatus (s : State) (st : ClusterStatus) : State :=
  { s with p := { s.p with Status := st } }

/-! ## Status helpers (package `v1alpha1`) -/

/-- Modelled from the spec: `ClusterStatus.GetClusterCondition` is not part of
the sources at hand. The conditions are "a set of named status conditions";
the lookup returns the condition of the requested name, or nothing (Go `nil`)
when there is none. The position that the Go function also returns is ignored
by every caller. -/
def ClusterStatus.GetClusterCondition (ps : ClusterStatus) (t : ClusterConditionType) :
    Option ClusterCondition :=
  ps.Conditions.find? (fun c => decide (c.Type_ = t))

/-- Modelled from the spec: the merge of a new value into a stored condition.
Status, reason and message are overwritten; the last-update time is reset to
now when any of them changed. The last-transition time is whatever
`transition` says: no rule is assumed for it. -/
def mergeCondition (transition : ClusterCondition → ClusterCondition → String → String)
    (now : String) (old new : ClusterCondition) : ClusterCondition :=
  { Type_ := old.Type_
    Status := new.Status
    Reason := new.Reason
    Message := new.Message
    LastUpdateTime :=
      if old.Status ≠ new.Status ∨ old.Reason ≠ new.Reason ∨ old.Message ≠ new.Message
      then now else old.LastUpdateTime
    LastTransitionTime := transition old new now }

/-- Modelled from the spec: the setter shared by the three `Set…Condition…`
helpers, which are not part of the sources at hand. The condition of the same
name is updated where it stands; when there is none the new condition is
added, stamped with the current time. -/
def setClusterCondition (transition : ClusterCondition → ClusterCondition → String → String)
    (now : String) (new : ClusterCondition) :
    List ClusterCondition → List ClusterCondition
  | [] => [{ new with LastUpdateTime := now, LastTransitionTime := now }]
  | c :: cs =>
    if c.Type_ = new.Type_ then mergeCondition transition now c new :: cs
    else c :: setClusterCondition transition now new cs

/-- A condition value with empty time stamps. -/
def newClusterCondition (t : ClusterConditionType) (status : ConditionStatus)
    (reason message : String) : ClusterCondition :=
  { Type_ := t, Status := status, Reason := reason, Message := message,
    LastUpdateTime := "", LastTransitionTime := "" }

/-- Modelled from the spec: `SetUpgradingConditionTrue(reason, message)` sets
`Upgrading=true` with the given reason and message. -/
def ClusterStatus.SetUpgradingConditionTrue (ps : ClusterStatus) (env : Env)
    (reason message : String) : ClusterStatus :=
  { ps with
    Conditions := setClusterCondition env.TransitionTime (env.Format env.now)
      (newClusterCondition .ClusterConditionUpgrading .ConditionTrue reason message)
      ps.Conditions }

/-- Modelled from the spec: `SetUpgradingConditionFalse()` sets
`Upgrading=false`, with empty reason and message. -/
def ClusterStatus.SetUpgradingConditionFalse (ps : ClusterStatus) (env : Env) : ClusterStatus :=
  { ps with
    Conditions := setClusterCondition env.TransitionTime (env.Format env.now)
      (newClusterCondition .ClusterConditionUpgrading .ConditionFalse "" "")
      ps.Conditions }

/-- Modelled from the spec: `SetErrorConditionTrue(reason, message)` sets
`Error=true` with the failure reason and message. -/
def ClusterStatus.SetErrorConditionTrue (ps : ClusterStatus) (env : Env)
    (reason message : String) : ClusterStatus :=
  { ps with
    Conditions := setClusterCondition env.TransitionTime (env.Format env.now)
      (newClusterCondition .ClusterConditionError .ConditionTrue reason message)
      ps.Conditions }

/-! ## The watchdog, the inspector and the observer -/

/-- The watchdog `checkUpgradeCondition`. A missing `Upgrading` condition makes
the Go code dereference `nil`. -/
def checkUpgradeCondition (env : Env) (p : PravegaCluster) (reason : String)
    (updatedReplicas : Int) : Outcome (Option String) × PravegaCluster :=
  match p.Status.GetClusterCondition .ClusterConditionUpgrading with
  | none => (.panic, p)
  | some lastCondition =>
    if lastCondition.Reason = reason ∧ lastCondition.Message = toString updatedReplicas then
      -- the parse error is dropped; a failed parse yields the zero time
      let parsedTime : Int := (env.Parse lastCondition.LastUpdateTime).getD 0
      if env.now > parsedTime + 10 * Minute then
        (.ret (some "progress deadline exceeded"), p)
      else
        (.ret none, p)
    else
      (.ret none,
        { p with Status :=
            p.Status.SetUpgradingConditionTrue env reason (toString updatedReplicas) })

/-- The inspector loop `checkUpdatedPods`: the first unready pod decides. -/
def checkUpdatedPods (env : Env) (pods : List Pod) (version : String) : Bool × Option String :=
  match pods with
  | [] => (true, none)
  | pod :: rest =>
    if !env.IsPodReady pod then
      if (env.IsPodFaulty pod).1 then (false, (env.IsPodFaulty pod).2)
      else (false, none)
    else checkUpdatedPods env rest version

/-- The loop of `getOneOutdatedPod` over the listed items. -/
def firstOutdatedPod (env : Env) (version : String) : List Pod → Option Pod
  | [] => none
  | podItem :: rest =>
    if env.GetPodVersion podItem = version then firstOutdatedPod env version rest
    else some podItem

/-- The observer `getOneOutdatedPod`: `.ok none` is the Go result `(nil, nil)`. -/
def getOneOutdatedPod (env : Env) (s : State) (sts : StatefulSet) (version : String) :
    Except String (Option Pod) × State :=
  match env.LabelSelectorAsSelector sts.Spec.Template.Labels with
  | .error err => (.error ("failed to convert label selector: " ++ err), s)
  | .ok selector =>
    let s := s.log (.listPods sts.Namespace selector)
    match env.listPods sts.Namespace selector with
    | .error err => (.error err, s)
    | .ok items => (.ok (firstOutdatedPod env version items), s)

/-- The loop of `getPodsWithVersion`: `pods` is the slice appended to. -/
def appendPodsWithVersion (env : Env) (version : String) : List Pod → List Pod → List Pod
  | [], pods => pods
  | podItem :: rest, pods =>
    if env.GetPodVersion podItem ≠ version then appendPodsWithVersion env version rest pods
    else appendPodsWithVersion env version rest (pods ++ [podItem])

/-- The observer `getPodsWithVersion`. -/
def getPodsWithVersion (env : Env) (s : State) (selector : Selector)
    (ns version : String) : Except String (List Pod) × State :=
  let s := s.log (.listPods ns selector)
  match env.listPods ns selector with
  | .error err => (.error err, s)
  | .ok items => (.ok (appendPodsWithVersion env version items []), s)

/-- The observer `getStsPodsWithVersion`. -/
def getStsPodsWithVersion (env : Env) (s : State) (sts : StatefulSet) (version : String) :
    Except String (List Pod) × State :=
  match env.LabelSelectorAsSelector sts.Spec.Template.Labels with
  | .error err => (.error ("failed to convert label selector: " ++ err), s)
  | .ok selector => getPodsWithVersion env s selector sts.Namespace version

/-- The observer `getDeployPodsWithVersion`. -/
def getDeployPodsWithVersion (env : Env) (s : State) (deploy : Deployment) (version : String) :
    Except String (List Pod) × State :=
  match env.LabelSelectorAsSelector deploy.Spec.Template.Labels with
  | .error err => (.error ("failed to convert label selector: " ++ err), s)
  | .ok selector => getPodsWithVersion env s selector deploy.Namespace version

/-! ## The tier drivers

Where the Go code receives several results from a call, the translation binds
the pair and reads its components: the first is what the call returned, the
second the state it left behind. -/

/-- What a driver hands back: `(synced, err)`, unless it panics. -/
abbrev DriverResult := Outcome (Bool × Option String)

/-- The driver `syncControllerVersion` (Deployment-shaped tier). -/
def syncControllerVersion (env : Env) (s : State) : DriverResult × State :=
  let name := env.DeploymentNameForController s.p.Name
  let s := s.log (.getDeployment s.p.Namespace name)
  match env.getDeployment s.p.Namespace name with
  | .error err => (.ret (false, some ("failed to get deployment (): " ++ err)), s)
  | .ok deploy =>
  match env.PravegaTargetImage s.p with
  | .error err => (.ret (false, some err), s)
  | .ok targetImage =>
  match deploy.Spec.Template.Spec.Containers with
  | [] => (.panic, s)
  | c0 :: _ =>
  if c0.Image ≠ targetImage then
    -- need to update the pod template
    let configMap := env.SetControllerReference s.p (env.MakeControllerConfigMap s.p)
    let s := s.log (.updateConfigMap configMap)
    match env.writeErr (.updateConfigMap configMap) with
    | some err => (.ret (false, some err), s)
    | none =>
    let deploy := { deploy with Spec := { Template := env.MakeControllerPodTemplate s.p } }
    let s := s.log (.updateDeployment deploy)
    match env.writeErr (.updateDeployment deploy) with
    | some err => (.ret (false, some err), s)
    | none =>
    (.ret (false, none),
      s.setStatus (s.p.Status.SetUpgradingConditionTrue env env.UpgradingControllerReason "0"))
  else if deploy.Status.UpdatedReplicas ≠ deploy.Status.Replicas ∨
      deploy.Status.UpdatedReplicas ≠ deploy.Status.ReadyReplicas then
    -- update still in progress
    match deploy.Status.Conditions.find? (fun v =>
        decide (v.Type_ = .DeploymentProgressing ∧ v.Status = .ConditionFalse ∧
          v.Reason = "ProgressDeadlineExceeded")) with
    | some v =>
      (.ret (false, some ("updating deployment (" ++ deploy.Name ++ ") failed due to " ++
        v.Reason)), s)
    | none =>
    let l := getDeployPodsWithVersion env s deploy s.p.Status.TargetVersion
    let s := l.2
    match l.1 with
    | .error err => (.ret (false, some err), s)
    | .ok pods =>
    match (checkUpdatedPods env pods s.p.Status.TargetVersion).2 with
    | some err => (.ret (false, some err), s)
    | none => (.ret (false, none), s)
  else
    -- deployment update completed
    (.ret (true, none), s)

/-- The driver `syncSegmentStoreVersion` (StatefulSet-shaped tier). -/
def syncSegmentStoreVersion (env : Env) (s : State) : DriverResult × State :=
  let name := env.StatefulSetNameForSegmentstore s.p.Name
  let s := s.log (.getStatefulSet s.p.Namespace name)
  match env.getStatefulSet s.p.Namespace name with
  | .error err => (.ret (false, some ("failed to get statefulset (): " ++ err)), s)
  | .ok sts =>
  match env.PravegaTargetImage s.p with
  | .error err => (.ret (false, some err), s)
  | .ok targetImage =>
  match sts.Spec.Template.Spec.Containers with
  | [] => (.panic, s)
  | c0 :: _ =>
  if c0.Image ≠ targetImage then
    -- need to update the pod template
    let configMap := env.SetControllerReference s.p (env.MakeSegmentstoreConfigMap s.p)
    let s := s.log (.updateConfigMap configMap)
    match env.writeErr (.updateConfigMap configMap) with
    | some err => (.ret (false, some err), s)
    | none =>
    let sts := { sts with Spec := { Template := env.MakeSegmentStorePodTemplate s.p } }
    let s := s.log (.updateStatefulSet sts)
    match env.writeErr (.updateStatefulSet sts) with
    | some err => (.ret (false, some err), s)
    | none =>
    (.ret (false, none),
      s.setStatus (s.p.Status.SetUpgradingConditionTrue env env.UpgradingSegmentstoreReason "0"))
  else if sts.Status.UpdatedReplicas = sts.Status.Replicas ∧
      sts.Status.UpdatedReplicas = sts.Status.ReadyReplicas then
    -- StatefulSet upgrade completed
    (.ret (true, none), s)
  else
    -- upgrade still in progress: has there been progress within the timeout?
    let w := checkUpgradeCondition env s.p env.UpgradingSegmentstoreReason sts.Status.UpdatedReplicas
    let s : State := { s with p := w.2 }
    match w.1 with
    | .panic => (.panic, s)
    | .ret (some err) =>
      (.ret (false, some ("updating statefulset (" ++ sts.Name ++ ") failed due to " ++ err)), s)
    | .ret none =>
    let l := getStsPodsWithVersion env s sts s.p.Status.TargetVersion
    let s := l.2
    match l.1 with
    | .error err => (.ret (false, some err), s)
    | .ok pods =>
    let c := checkUpdatedPods env pods s.p.Status.TargetVersion
    match c.2 with
    | some err => (.ret (false, some err), s)
    | none =>
    if c.1 then
      let o := getOneOutdatedPod env s sts s.p.Status.TargetVersion
      let s := o.2
      match o.1 with
      | .error err => (.ret (false, some err), s)
      | .ok none => (.ret (false, some "could not obtain outdated pod"), s)
      | .ok (some pod) =>
      let s := s.log (.deletePod pod)
      match env.writeErr (.deletePod pod) with
      | some err => (.ret (false, some err), s)
      | none => (.ret (false, none), s)
    else
      -- wait until the next reconcile iteration
      (.ret (false, none), s)

/-- The driver `syncBookkeeperVersion` (StatefulSet-shaped tier). -/
def syncBookkeeperVersion (env : Env) (s : State) : DriverResult × State :=
  let name := env.StatefulSetNameForBookie s.p.Name
  let s := s.log (.getStatefulSet s.p.Namespace name)
  match env.getStatefulSet s.p.Namespace name with
  | .error err => (.ret (false, some ("failed to get statefulset (): " ++ err)), s)
  | .ok sts =>
  match env.BookkeeperTargetImage s.p with
  | .error err => (.ret (false, some err), s)
  | .ok targetImage =>
  match sts.Spec.Template.Spec.Containers with
  | [] => (.panic, s)
  | c0 :: _ =>
  if c0.Image ≠ targetImage then
    -- need to update the pod template
    let configMap := env.SetControllerReference s.p (env.MakeBookieConfigMap s.p)
    let s := s.log (.updateConfigMap configMap)
    match env.writeErr (.updateConfigMap configMap) with
    | some err => (.ret (false, some err), s)
    | none =>
    let sts := { sts with Spec := { Template := env.MakeBookiePodTemplate s.p } }
    let s := s.log (.updateStatefulSet sts)
    match env.writeErr (.updateStatefulSet sts) with
    | some err => (.ret (false, some err), s)
    | none =>
    (.ret (false, none),
      s.setStatus (s.p.Status.SetUpgradingConditionTrue env env.UpgradingBookkeeperReason "0"))
  else if sts.Status.UpdatedReplicas = sts.Status.Replicas ∧
      sts.Status.UpdatedReplicas = sts.Status.ReadyReplicas then
    -- StatefulSet upgrade completed
    (.ret (true, none), s)
  else
    -- upgrade still in progress: has there been progress within the timeout?
    let w := checkUpgradeCondition env s.p env.UpgradingBookkeeperReason sts.Status.UpdatedReplicas
    let s : State := { s with p := w.2 }
    match w.1 with
    | .panic => (.panic, s)
    | .ret (some err) =>
      (.ret (false, some ("updating statefulset (" ++ sts.Name ++ ") failed due to " ++ err)), s)
    | .ret none =>
    let l := getStsPodsWithVersion env s sts s.p.Status.TargetVersion
    let s := l.2
    match l.1 with
    | .error err => (.ret (false, some err), s)
    | .ok pods =>
    let c := checkUpdatedPods env pods s.p.Status.TargetVersion
    match c.2 with
    | some err => (.ret (false, some err), s)
    | none =>
    if c.1 then
      let o := getOneOutdatedPod env s sts s.p.Status.TargetVersion
      let s := o.2
      match o.1 with
      | .error err => (.ret (false, some err), s)
      | .ok none => (.ret (false, some "could not obtain outdated pod"), s)
      | .ok (some pod) =>
      let s := s.log (.deletePod pod)
      match env.writeErr (.deletePod pod) with
      | some err => (.ret (false, some err), s)
      | none => (.ret (false, none), s)
    else
      -- wait until the next reconcile iteration
      (.ret (false, none), s)

/-! ## The orchestrator and the synchronizer -/

/-- A named driver, as iterated over by the orchestrator. -/
structure componentSyncVersionFun where
  name : String
  fn : State → DriverResult × State

/-- The `for` loop of `syncComponentsVersion`; falling out of the loop sets
`CurrentVersion` to `TargetVersion`. -/
def syncComponentsLoop : List componentSyncVersionFun → State → Outcome (Option String) × State
  | [], s =>
    (.ret none, s.setStatus { s.p.Status with CurrentVersion := s.p.Status.TargetVersion })
  | component :: rest, s =>
    let r := component.fn (s.log (.invoke component.name))
    match r.1 with
    | .panic => (.panic, r.2)
    | .ret (synced, err) =>
      let s := r.2.log (.returned component.name synced err)
      match err with
      | some e =>
        (.ret (some ("failed to sync " ++ component.name ++ " version. " ++ e)), s)
      | none =>
        if synced then syncComponentsLoop rest s
        else (.ret none, s)

/-- The slice of drivers that `syncComponentsVersion` iterates over. -/
def components (env : Env) : List componentSyncVersionFun :=
  [ { name := "bookkeeper", fn := syncBookkeeperVersion env },
    { name := "segmentstore", fn := syncSegmentStoreVersion env },
    { name := "controller", fn := syncControllerVersion env } ]

/-- The orchestrator `syncComponentsVersion`. -/
def syncComponentsVersion (env : Env) (s : State) : Outcome (Option String) × State :=
  syncComponentsLoop (components env) s

/-- The helper `clearUpgradeStatus`. After a successful `client.Update` the
status saved before the call is put back. -/
def clearUpgradeStatus (env : Env) (s : State) : Option String × State :=
  let s := s.setStatus (s.p.Status.SetUpgradingConditionFalse env)
  let s := s.setStatus { s.p.Status with TargetVersion := "" }
  let status := s.p.Status
  let s : State := { s with p := { s.p with Spec := { Version := s.p.Status.CurrentVersion } } }
  let s := s.log (.updateCluster s.p)
  match env.writeErr (.updateCluster s.p) with
  | some err => (some err, s)
  | none => (none, s.setStatus status)

/-- The body of `syncClusterVersion`, without the deferred status write. -/
def syncClusterVersionBody (env : Env) (s : State) : Outcome (Option String) × State :=
  match s.p.Status.GetClusterCondition .ClusterConditionUpgrading with
  | none =>
    -- first run
    let s := s.setStatus (s.p.Status.SetUpgradingConditionFalse env)
    (.ret none, s.setStatus { s.p.Status with CurrentVersion := s.p.Spec.Version })
  | some upgradeCondition =>
    if upgradeCondition.Status = .ConditionTrue then
      -- upgrade process already in progress
      if s.p.Status.TargetVersion = "" then
        let r := clearUpgradeStatus env s
        (.ret r.1, r.2)
      else if s.p.Status.TargetVersion = s.p.Status.CurrentVersion then
        let r := clearUpgradeStatus env s
        (.ret r.1, r.2)
      else
        let r := syncComponentsVersion env s
        let s := r.2
        match r.1 with
        | .panic => (.panic, s)
        | .ret (some err) =>
          let s := s.setStatus (s.p.Status.SetErrorConditionTrue env "UpgradeFailed" err)
          (.ret none, (clearUpgradeStatus env s).2)
        | .ret none => (.ret none, s)
    else if s.p.Spec.Version = s.p.Status.CurrentVersion then
      -- no intention to upgrade
      (.ret none, s)
    else
      match s.p.Status.GetClusterCondition .ClusterConditionPodsReady with
      | none => (.ret none, (clearUpgradeStatus env s).2)
      | some readyCondition =>
        if readyCondition.Status ≠ .ConditionTrue then
          (.ret none, (clearUpgradeStatus env s).2)
        else
          let s := s.setStatus { s.p.Status with TargetVersion := s.p.Spec.Version }
          (.ret none, s.setStatus (s.p.Status.SetUpgradingConditionTrue env "" ""))

/-- The synchronizer `syncClusterVersion`: the deferred `Status().Update` runs
on every exit, and its result is dropped. -/
def syncClusterVersion (env : Env) (s : State) : Outcome (Option String) × State :=
  let r := syncClusterVersionBody env s
  (r.1, r.2.log (.updateStatus r.2.p))

/-! ## Vocabulary of the statements -/

/-- Whether an event is a call on the platform client (a read or a write), as
opposed to a bookkeeping event of the orchestrator loop. -/
def Event.isCall : Event → Bool
  | .invoke _ => false
  | .returned _ _ _ => false
  | _ => true

/-- Whether an event is a write on the platform. -/
def Event.isWrite : Event → Bool
  | .updateConfigMap _ => true
  | .updateStatefulSet _ => true
  | .updateDeployment _ => true
  | .updateCluster _ => true
  | .updateStatus _ => true
  | .deletePod _ => true
  | _ => false

/-- The pod a deletion event asks to delete. -/
def Event.deleted : Event → Option Pod
  | .deletePod pod => some pod
  | _ => none

/-- The component whose driver an `invoke` event announces. -/
def Event.invoked : Event → Option String
  | .invoke name => some name
  | _ => none

/-- Whether an event records a driver that returned anything but
`(true, nil)`. -/
def Event.isStop : Event → Bool
  | .returned _ synced err => !(synced && err.isNone)
  | _ => false

/-- The shape of the events of one orchestration pass over the components
named `names`: each driver is announced, issues client calls only, and the
next driver is announced only after the previous one returned `(true, nil)`;
after any other return, or a panic, nothing follows. -/
inductive Sequenced : List String → List Event → Prop where
  | done : Sequenced [] []
  | panicked (n : String) (rest : List String) (cs : List Event) :
      (∀ e ∈ cs, e.isCall = true) → Sequenced (n :: rest) (.invoke n :: cs)
  | stopped (n : String) (rest : List String) (cs : List Event) (synced : Bool)
      (err : Option String) :
      (∀ e ∈ cs, e.isCall = true) → ¬ (synced = true ∧ err = none) →
      Sequenced (n :: rest) (.invoke n :: cs ++ [.returned n synced err])
  | next (n : String) (rest : List String) (cs tail : List Event) :
      (∀ e ∈ cs, e.isCall = true) → Sequenced rest tail →
      Sequenced (n :: rest) (.invoke n :: cs ++ .returned n true none :: tail)

/-- The events issued between a state `s` and a later state `s'`. -/
def newEvents (s s' : State) : List Event :=
  s'.trace.drop s.trace.length

/-- All events of the list are calls on the platform client. -/
def CallsOnly (evs : List Event) : Prop :=
  ∀ e ∈ evs, e.isCall = true

/-- What a driver may do to the cluster resource: nothing, or set the
`Upgrading` condition to true with some reason and message. -/
def StatusEffect (env : Env) (p p' : PravegaCluster) : Prop :=
  p' = p ∨ ∃ r m, p' = { p with Status := p.Status.SetUpgradingConditionTrue env r m }

/-- The pods whose deletion was requested, in the order of the requests. -/
def deletions (evs : List Event) : List Pod :=
  evs.filterMap Event.deleted

/-- The `client.List` call that an observer issues for a workload with the
given template labels and namespace: none when the selector cannot be built. -/
def listCalls (env : Env) (labels : Labels) (ns : String) : List Event :=
  match env.LabelSelectorAsSelector labels with
  | .error _ => []
  | .ok selector => [.listPods ns selector]

/-- Whether the `Upgrading` condition is present with status true. -/
def ClusterStatus.isUpgrading (ps : ClusterStatus) : Bool :=
  match ps.GetClusterCondition .ClusterConditionUpgrading with
  | some c => decide (c.Status = .ConditionTrue)
  | none => false

/-- The status invariant of the data model: `targetVersion` is non-empty if
and only if `Upgrading` is true. -/
def StatusInvariant (ps : ClusterStatus) : Prop :=
  ps.TargetVersion ≠ "" ↔ ps.isUpgrading = true

/-- The three drivers all returned `(true, nil)` in the pass that produced the
events `evs`. -/
def AllSynced (evs : List Event) : Prop :=
  Event.returned "bookkeeper" true none ∈ evs ∧
  Event.returned "segmentstore" true none ∈ evs ∧
  Event.returned "controller" true none ∈ evs

instance (ps : ClusterStatus) : Decidable (StatusInvariant ps) :=
  inferInstanceAs (Decidable (ps.TargetVersion ≠ "" ↔ ps.isUpgrading = true))

instance (evs : List Event) : Decidable (AllSynced evs) :=
  inferInstanceAs (Decidable (Event.returned "bookkeeper" true none ∈ evs ∧
    Event.returned "segmentstore" true none ∈ evs ∧
    Event.returned "controller" true none ∈ evs))

instance (evs : List Event) : Decidable (CallsOnly evs) :=
  inferInstanceAs (Decidable (∀ e ∈ evs, e.isCall = true))

/-- What the code below the synchronizer may do to the status: it keeps
`targetVersion`; it keeps every condition other than `Upgrading`; an
`Upgrading` condition found afterwards is true or is the one found before; and
an `Upgrading` condition that was true before is still there and still true. -/
def StatusFrame (ps ps' : ClusterStatus) : Prop :=
  ps'.TargetVersion = ps.TargetVersion ∧
  (∀ t, t ≠ .ClusterConditionUpgrading →
    ps'.GetClusterCondition t = ps.GetClusterCondition t) ∧
  (∀ u', ps'.GetClusterCondition .ClusterConditionUpgrading = some u' →
    u'.Status = .ConditionTrue ∨
      ps.GetClusterCondition .ClusterConditionUpgrading = some u') ∧
  (∀ u, ps.GetClusterCondition .ClusterConditionUpgrading = some u →
    u.Status = .ConditionTrue →
    ∃ u', ps'.GetClusterCondition .ClusterConditionUpgrading = some u' ∧
      u'.Type_ = u.Type_ ∧ u'.Status = .ConditionTrue)

/-- What the code below the synchronizer may do to the cluster resource: it
keeps the name, the namespace and the spec (so the declared version), and
treats the status as `StatusFrame` says. The current version is not covered
here. -/
def ClusterFrame (p p' : PravegaCluster) : Prop :=
  p'.Name = p.Name ∧ p'.Namespace = p.Namespace ∧ p'.Spec = p.Spec ∧
  StatusFrame p.Status p'.Status

/-- What distinguishes one StatefulSet-shaped tier from the other. -/
structure StsTier where
  workloadName : String → String
  targetImage : PravegaCluster → Except String String
  makeConfigMap : PravegaCluster → ConfigMap
  makePodTemplate : PravegaCluster → PodTemplateSpec
  reason : String

/-- The log tier (bookkeeper). -/
def bookieTier (env : Env) : StsTier :=
  { workloadName := env.StatefulSetNameForBookie
    targetImage := env.BookkeeperTargetImage
    makeConfigMap := env.MakeBookieConfigMap
    makePodTemplate := env.MakeBookiePodTemplate
    reason := env.UpgradingBookkeeperReason }

/-- The storage tier (segment store). -/
def segmentStoreTier (env : Env) : StsTier :=
  { workloadName := env.StatefulSetNameForSegmentstore
    targetImage := env.PravegaTargetImage
    makeConfigMap := env.MakeSegmentstoreConfigMap
    makePodTemplate := env.MakeSegmentStorePodTemplate
    reason := env.UpgradingSegmentstoreReason }

/-- The environment in which the tier-specific items of the log tier and of
the storage tier (workload name, target image, configuration and template
builders, upgrading reason) have changed places; everything else is as in
`env`. -/
def swapTiers (env : Env) : Env :=
  { env with
    UpgradingBookkeeperReason := env.UpgradingSegmentstoreReason
    UpgradingSegmentstoreReason := env.UpgradingBookkeeperReason
    StatefulSetNameForBookie := env.StatefulSetNameForSegmentstore
    StatefulSetNameForSegmentstore := env.StatefulSetNameForBookie
    BookkeeperTargetImage := env.PravegaTargetImage
    PravegaTargetImage := env.BookkeeperTargetImage
    MakeBookieConfigMap := env.MakeSegmentstoreConfigMap
    MakeSegmentstoreConfigMap := env.MakeBookieConfigMap
    MakeBookiePodTemplate := env.MakeSegmentStorePodTemplate
    MakeSegmentStorePodTemplate := env.MakeBookiePodTemplate }

/-- The five phases of the driver algorithm of a StatefulSet-shaped tier, as
the design describes them (trigger, completion, stall detection, health gate,
pacing), for an arbitrary tier. The two drivers translated from the source are
compared with it below. -/
def stsStep (env : Env) (t : StsTier) (s : State) : DriverResult × State :=
  let name := t.workloadName s.p.Name
  let s := s.log (.getStatefulSet s.p.Namespace name)
  match env.getStatefulSet s.p.Namespace name with
  | .error err => (.ret (false, some ("failed to get statefulset (): " ++ err)), s)
  | .ok sts =>
  match t.targetImage s.p with
  | .error err => (.ret (false, some err), s)
  | .ok targetImage =>
  match sts.Spec.Template.Spec.Containers with
  | [] => (.panic, s)
  | c0 :: _ =>
  if c0.Image ≠ targetImage then
    let configMap := env.SetControllerReference s.p (t.makeConfigMap s.p)
    let s := s.log (.updateConfigMap configMap)
    match env.writeErr (.updateConfigMap configMap) with
    | some err => (.ret (false, some err), s)
    | none =>
    let sts := { sts with Spec := { Template := t.makePodTemplate s.p } }
    let s := s.log (.updateStatefulSet sts)
    match env.writeErr (.updateStatefulSet sts) with
    | some err => (.ret (false, some err), s)
    | none =>
    (.ret (false, none),
      s.setStatus (s.p.Status.SetUpgradingConditionTrue env t.reason "0"))
  else if sts.Status.UpdatedReplicas = sts.Status.Replicas ∧
      sts.Status.UpdatedReplicas = sts.Status.ReadyReplicas then
    (.ret (true, none), s)
  else
    let w := checkUpgradeCondition env s.p t.reason sts.Status.UpdatedReplicas
    let s : State := { s with p := w.2 }
    match w.1 with
    | .panic => (.panic, s)
    | .ret (some err) =>
      (.ret (false, some ("updating statefulset (" ++ sts.Name ++ ") failed due to " ++ err)), s)
    | .ret none =>
    let l := getStsPodsWithVersion env s sts s.p.Status.TargetVersion
    let s := l.2
    match l.1 with
    | .error err => (.ret (false, some err), s)
    | .ok pods =>
    let c := checkUpdatedPods env pods s.p.Status.TargetVersion
    match c.2 with
    | some err => (.ret (false, some err), s)
    | none =>
    if c.1 then
      let o := getOneOutdatedPod env s sts s.p.Status.TargetVersion
      let s := o.2
      match o.1 with
      | .error err => (.ret (false, some err), s)
      | .ok none => (.ret (false, some "could not obtain outdated pod"), s)
      | .ok (some pod) =>
      let s := s.log (.deletePod pod)
      match env.writeErr (.deletePod pod) with
      | some err => (.ret (false, some err), s)
      | none => (.ret (false, none), s)
    else
      (.ret (false, none), s)

/-- The two StatefulSet-shaped drivers of the source, each with the tier it
serves. -/
def stsDrivers (env : Env) : List (StsTier × (State → DriverResult × State)) :=
  [ (bookieTier env, syncBookkeeperVersion env),
    (segmentStoreTier env, syncSegmentStoreVersion env) ]

/-- The run of the bookkeeper driver in the orchestration pass that starts in
state `s`: the driver is called on `s`, after it was announced. -/
def bookkeeperPass (env : Env) (s : State) : DriverResult × State :=
  syncBookkeeperVersion env (s.log (.invoke "bookkeeper"))

/-- The run of the segment-store driver in the orchestration pass that starts
in state `s`, once the bookkeeper driver has returned `(true, nil)`: it is
called on the state the bookkeeper driver left. -/
def segmentStorePass (env : Env) (s : State) : DriverResult × State :=
  syncSegmentStoreVersion env
    (((bookkeeperPass env s).2.log (.returned "bookkeeper" true none)).log
      (.invoke "segmentstore"))

/-- The run of the controller driver in the orchestration pass that starts in
state `s`, once the two drivers before it have returned `(true, nil)`: it is
called on the state the segment-store driver left. -/
def controllerPass (env : Env) (s : State) : DriverResult × State :=
  syncControllerVersion env
    (((segmentStorePass env s).2.log (.returned "segmentstore" true none)).log
      (.invoke "controller"))

/-- All three tier drivers return `synced=true` with no error in the
orchestration pass that starts in state `s`: a statement about the results of
`syncBookkeeperVersion`, `syncSegmentStoreVersion` and `syncControllerVersion`
themselves, each run on the state its predecessor left. -/
def DriversSynced (env : Env) (s : State) : Prop :=
  (bookkeeperPass env s).1 = .ret (true, none) ∧
  (segmentStorePass env s).1 = .ret (true, none) ∧
  (controllerPass env s).1 = .ret (true, none)

instance (env : Env) (s : State) : Decidable (DriversSynced env s) :=
  inferInstanceAs (Decidable ((bookkeeperPass env s).1 = .ret (true, none) ∧
    (segmentStorePass env s).1 = .ret (true, none) ∧
    (controllerPass env s).1 = .ret (true, none)))

/-- Every driver of the list returns `(true, nil)` when the drivers are run
one after the other from state `s`, each on the state its predecessor left. -/
def PassSynced : List componentSyncVersionFun → State → Prop
  | [], _ => True
  | c :: rest, s =>
    (c.fn (s.log (.invoke c.name))).1 = .ret (true, none) ∧
    PassSynced rest ((c.fn (s.log (.invoke c.name))).2.log (.returned c.name true none))

/-! ## Concrete clusters and platforms used in the examples -/

/-- The instant 2019-06-01T10:00:00Z, counted from Go's zero time. -/
def sampleTime : Int := 63694980000 * Second

/-- A platform on which nothing exists yet and every write succeeds. The
helpers of `util` and `pravega` are given their obvious readings; the
condition setter stamps the transition time whenever it changes a condition,
as the comment in `checkUpgradeCondition` has it. -/
def sampleEnv : Env where
  now := sampleTime
  Parse := fun t => if t = "2019-06-01T10:00:00Z" then some sampleTime else none
  Format := fun t => if t = sampleTime then "2019-06-01T10:00:00Z" else "2019-06-01T10:10:00Z"
  TransitionTime := fun old new now =>
    if old.Status ≠ new.Status ∨ old.Reason ≠ new.Reason ∨ old.Message ≠ new.Message
    then now else old.LastTransitionTime
  UpgradingBookkeeperReason := "Upgrading Bookkeeper"
  UpgradingSegmentstoreReason := "Upgrading Segmentstore"
  UpgradingControllerReason := "Upgrading Controller"
  StatefulSetNameForBookie := fun n => n ++ "-bookie"
  StatefulSetNameForSegmentstore := fun n => n ++ "-pravega-segmentstore"
  DeploymentNameForController := fun n => n ++ "-pravega-controller"
  BookkeeperTargetImage := fun p => .ok ("pravega/bookkeeper:" ++ p.Status.TargetVersion)
  PravegaTargetImage := fun p => .ok ("pravega/pravega:" ++ p.Status.TargetVersion)
  GetPodVersion := fun pod => pod.Version
  IsPodReady := fun pod => pod.Ready
  IsPodFaulty := fun pod => (pod.Fault.isSome, pod.Fault)
  MakeBookieConfigMap := fun p => { Name := p.Name ++ "-bookie", Data := [], Owner := none }
  MakeBookiePodTemplate := fun p =>
    { Labels := [("component", "bookie")],
      Spec := { Containers := [{ Image := "pravega/bookkeeper:" ++ p.Status.TargetVersion }] } }
  MakeSegmentstoreConfigMap := fun p =>
    { Name := p.Name ++ "-pravega-segmentstore", Data := [], Owner := none }
  MakeSegmentStorePodTemplate := fun p =>
    { Labels := [("component", "pravega-segmentstore")],
      Spec := { Containers := [{ Image := "pravega/pravega:" ++ p.Status.TargetVersion }] } }
  MakeControllerConfigMap := fun p =>
    { Name := p.Name ++ "-pravega-controller", Data := [], Owner := none }
  MakeControllerPodTemplate := fun p =>
    { Labels := [("component", "pravega-controller")],
      Spec := { Containers := [{ Image := "pravega/pravega:" ++ p.Status.TargetVersion }] } }
  SetControllerReference := fun p cm => { cm with Owner := some p.Name }
  LabelSelectorAsSelector := fun labels => .ok { Requirements := labels }
  getStatefulSet := fun _ _ => .error "not found"
  getDeployment := fun _ _ => .error "not found"
  listPods := fun _ _ => .ok []
  writeErr := fun _ => none

/-- A condition of the given type and status, last updated at `sampleTime`. -/
def sampleCondition (t : ClusterConditionType) (status : ConditionStatus)
    (reason message : String) : ClusterCondition :=
  { Type_ := t, Status := status, Reason := reason, Message := message,
    LastUpdateTime := "2019-06-01T10:00:00Z", LastTransitionTime := "2019-06-01T10:00:00Z" }

/-- A cluster named `pravega` with the given versions and conditions. -/
def sampleCluster (declared current target : String) (conds : List ClusterCondition) :
    PravegaCluster :=
  { Name := "pravega", Namespace := "default", Spec := { Version := declared },
    Status := { Conditions := conds, CurrentVersion := current, TargetVersion := target } }

/-- A cluster in the middle of the upgrade from 1.0 to 2.0, whose stall marker
says that one segment-store replica was updated at `sampleTime`. -/
def upgradingCluster : PravegaCluster :=
  sampleCluster "2.0" "1.0" "2.0"
    [ sampleCondition .ClusterConditionPodsReady .ConditionTrue "" "",
      sampleCondition .ClusterConditionUpgrading .ConditionTrue "Upgrading Segmentstore" "1" ]

/-- A healthy cluster running 1.0 whose declared version was just changed to
2.0: no upgrade in progress, `PodsReady` true. -/
def idleCluster : PravegaCluster :=
  sampleCluster "2.0" "1.0" ""
    [ sampleCondition .ClusterConditionPodsReady .ConditionTrue "" "",
      sampleCondition .ClusterConditionUpgrading .ConditionFalse "" "" ]

/-- A healthy cluster running 1.0 whose declared version is the empty string:
no upgrade in progress, `PodsReady` true. -/
def emptyDeclaredCluster : PravegaCluster :=
  sampleCluster "" "1.0" ""
    [ sampleCondition .ClusterConditionPodsReady .ConditionTrue "" "",
      sampleCondition .ClusterConditionUpgrading .ConditionFalse "" "" ]

/-- The platform of `sampleEnv`, exactly ten minutes after `sampleTime`. -/
def windowEnv : Env := { sampleEnv with now := sampleTime + 10 * Minute }

/-- The platform of `sampleEnv`, one second short of ten minutes after
`sampleTime`. -/
def earlyEnv : Env := { sampleEnv with now := sampleTime + 10 * Minute - Second }

/-- The platform of `sampleEnv`, one nanosecond past ten minutes after
`sampleTime`. -/
def lateEnv : Env := { sampleEnv with now := sampleTime + 10 * Minute + 1 }

/-- A segment-store pod at the target version that is ready. -/
def readyPod : Pod :=
  { Name := "pravega-pravega-segmentstore-2", Version := "2.0", Ready := true, Fault := none }

/-- A segment-store pod at the target version that is not ready yet, and not
faulty. -/
def slowPod : Pod :=
  { Name := "pravega-pravega-segmentstore-1", Version := "2.0", Ready := false, Fault := none }

/-- A segment-store pod at the target version that is not ready and faulty. -/
def faultyPod : Pod :=
  { Name := "pravega-pravega-segmentstore-0", Version := "2.0", Ready := false,
    Fault := some "pod pravega-pravega-segmentstore-0 update failed because of CrashLoopBackOff" }

/-- A ready segment-store pod still at the old version. -/
def oldPod : Pod :=
  { Name := "pravega-pravega-segmentstore-3", Version := "1.0", Ready := true, Fault := none }

/-- A segment-store StatefulSet whose template already carries the 2.0 image,
with the given replica counters. -/
def sampleSts (replicas updated ready : Int) : StatefulSet :=
  { Name := "pravega-pravega-segmentstore", Namespace := "default",
    Spec := { Template :=
      { Labels := [("component", "pravega-segmentstore")],
        Spec := { Containers := [{ Image := "pravega/pravega:2.0" }] } } },
    Status := { Replicas := replicas, UpdatedReplicas := updated, ReadyReplicas := ready } }

/-- The platform of `sampleEnv` with the given segment-store StatefulSet and
pods. -/
def rolloutEnv (sts : StatefulSet) (pods : List Pod) : Env :=
  { sampleEnv with
    getStatefulSet := fun ns name =>
      if ns = sts.Namespace ∧ name = sts.Name then .ok sts else .error "not found"
    listPods := fun ns selector =>
      if ns = sts.Namespace ∧ selector.Requirements = sts.Spec.Template.Labels then .ok pods
      else .ok [] }

/-- The platform of `rolloutEnv` on which every pod deletion is refused. -/
def deleteRefusedEnv (sts : StatefulSet) (pods : List Pod) : Env :=
  { rolloutEnv sts pods with
    writeErr := fun e =>
      match e with
      | .deletePod _ => some "the server is currently unable to handle the request"
      | _ => none }

/-- A bookkeeper StatefulSet whose template already carries the 2.0 image,
with the given replica counters. -/
def sampleBookieSts (replicas updated ready : Int) : StatefulSet :=
  { Name := "pravega-bookie", Namespace := "default",
    Spec := { Template :=
      { Labels := [("component", "bookie")],
        Spec := { Containers := [{ Image := "pravega/bookkeeper:2.0" }] } } },
    Status := { Replicas := replicas, UpdatedReplicas := updated, ReadyReplicas := ready } }

/-- A segment-store StatefulSet of three ready replicas whose template still
carries the 1.0 image. -/
def oldImageSts : StatefulSet :=
  { Name := "pravega-pravega-segmentstore", Namespace := "default",
    Spec := { Template :=
      { Labels := [("component", "pravega-segmentstore")],
        Spec := { Containers := [{ Image := "pravega/pravega:1.0" }] } } },
    Status := { Replicas := 3, UpdatedReplicas := 3, ReadyReplicas := 3 } }

/-- A controller Deployment whose template already carries the 2.0 image, with
one of two replicas updated and the given reported conditions. -/
def sampleDeployment (conds : List DeploymentCondition) : Deployment :=
  { Name := "pravega-pravega-controller", Namespace := "default",
    Spec := { Template :=
      { Labels := [("component", "pravega-controller")],
        Spec := { Containers := [{ Image := "pravega/pravega:2.0" }] } } },
    Status := { Replicas := 2, UpdatedReplicas := 1, ReadyReplicas := 1, Conditions := conds } }

/-- The platform of `sampleEnv` with the given controller Deployment. -/
def deployEnv (deploy : Deployment) : Env :=
  { sampleEnv with
    getDeployment := fun ns name =>
      if ns = deploy.Namespace ∧ name = deploy.Name then .ok deploy else .error "not found" }

/-- The conditions a Deployment reports once its rollout has exceeded the
progress deadline. -/
def deadlineConditions : List DeploymentCondition :=
  [ { Type_ := .DeploymentAvailable, Status := .ConditionTrue,
      Reason := "MinimumReplicasAvailable" },
    { Type_ := .DeploymentProgressing, Status := .ConditionFalse,
      Reason := "ProgressDeadlineExceeded" } ]

/-- A cluster whose upgrade to 2.0 has just been started by the synchronizer:
`Upgrading` is true with empty reason and message. -/
def startedCluster : PravegaCluster :=
  sampleCluster "2.0" "1.0" "2.0"
    [ sampleCondition .ClusterConditionPodsReady .ConditionTrue "" "",
      sampleCondition .ClusterConditionUpgrading .ConditionTrue "" "" ]

/-- A freshly created cluster at 1.0: it has no `Upgrading` condition yet. -/
def freshCluster : PravegaCluster :=
  sampleCluster "1.0" "" "" []

/-- A cluster running 1.0 with declared version 2.0, no upgrade in progress
and `PodsReady` false. -/
def unreadyCluster : PravegaCluster :=
  sampleCluster "2.0" "1.0" ""
    [ sampleCondition .ClusterConditionPodsReady .ConditionFalse "" "",
      sampleCondition .ClusterConditionUpgrading .ConditionFalse "" "" ]

/-- The start of a reconciliation of cluster `p`: nothing has been issued. -/
def startOf (p : PravegaCluster) : State :=
  { p := p, trace := [] }

/-- The cluster of `upgradingCluster` with a stall marker whose
`lastUpdateTime` is the empty string. -/
def unstampedCluster : PravegaCluster :=
  sampleCluster "2.0" "1.0" "2.0"
    [ sampleCondition .ClusterConditionPodsReady .ConditionTrue "" "",
      { sampleCondition .ClusterConditionUpgrading .ConditionTrue "Upgrading Segmentstore" "1"
        with LastUpdateTime := "" } ]

/-- The platform of `sampleEnv`, exactly ten minutes after Go's zero time. -/
def zeroWindowEnv : Env := { sampleEnv with now := 10 * Minute }

/-- A controller Deployment whose template carries the 2.0 image, with both
replicas updated and ready. -/
def convergedDeployment : Deployment :=
  { Name := "pravega-pravega-controller", Namespace := "default",
    Spec := { Template :=
      { Labels := [("component", "pravega-controller")],
        Spec := { Containers := [{ Image := "pravega/pravega:2.0" }] } } },
    Status := { Replicas := 2, UpdatedReplicas := 2, ReadyReplicas := 2, Conditions := [] } }

/-- The platform of `sampleEnv` on which the three workloads carry the 2.0
images and report every replica updated and ready. -/
def convergedEnv : Env :=
  { sampleEnv with
    getStatefulSet := fun ns name =>
      if ns = "default" ∧ name = "pravega-bookie" then .ok (sampleBookieSts 3 3 3)
      else if ns = "default" ∧ name = "pravega-pravega-segmentstore" then .ok (sampleSts 3 3 3)
      else .error "not found"
    getDeployment := fun ns name =>
      if ns = "default" ∧ name = "pravega-pravega-controller" then .ok convergedDeployment
      else .error "not found" }

/-- The platform of `convergedEnv`, except that the segment-store StatefulSet
reports one of its two replicas updated, its pods being `readyPod` and
`oldPod`. -/
def laggingEnv : Env :=
  { convergedEnv with
    getStatefulSet := fun ns name =>
      if ns = "default" ∧ name = "pravega-bookie" then .ok (sampleBookieSts 3 3 3)
      else if ns = "default" ∧ name = "pravega-pravega-segmentstore" then .ok (sampleSts 2 1 1)
      else .error "not found"
    listPods := fun ns selector =>
      if ns = "default" ∧ selector.Requirements = [("component", "pravega-segmentstore")]
      then .ok [readyPod, oldPod]
      else .ok [] }

/-! ## Theorems -/

/-- The bookkeeper driver is the generic StatefulSet step at the log tier. -/
theorem syncBookkeeperVersion_eq_stsStep (env : Env) (s : State) :
    syncBookkeeperVersion env s = stsStep env (bookieTier env) s := rfl

/-- The segment-store driver is the generic StatefulSet step at the storage
tier. -/
theorem syncSegmentStoreVersion_eq_stsStep (env : Env) (s : State) :
    syncSegmentStoreVersion env s = stsStep env (segmentStoreTier env) s := rfl

/-! ### State and trace bookkeeping -/

@[simp] theorem State.log_p (s : State) (e : Event) : (s.log e).p = s.p := rfl

@[simp] theorem State.log_trace (s : State) (e : Event) :
    (s.log e).trace = s.trace ++ [e] := rfl

@[simp] theorem State.setStatus_trace (s : State) (st : ClusterStatus) :
    (s.setStatus st).trace = s.trace := rfl

@[simp] theorem State.setStatus_p (s : State) (st : ClusterStatus) :
    (s.setStatus st).p = { s.p with Status := st } := rfl

@[simp] theorem Event.isCall_simps :
    (∀ a b, (Event.getStatefulSet a b).isCall = true) ∧
    (∀ a b, (Event.getDeployment a b).isCall = true) ∧
    (∀ a b, (Event.listPods a b).isCall = true) ∧
    (∀ a, (Event.updateConfigMap a).isCall = true) ∧
    (∀ a, (Event.updateStatefulSet a).isCall = true) ∧
    (∀ a, (Event.updateDeployment a).isCall = true) ∧
    (∀ a, (Event.updateCluster a).isCall = true) ∧
    (∀ a, (Event.updateStatus a).isCall = true) ∧
    (∀ a, (Event.deletePod a).isCall = true) ∧
    (∀ a, (Event.invoke a).isCall = false) ∧
    (∀ a b c, (Event.returned a b c).isCall = false) := by
  refine ⟨?_, ?_, ?_, ?_, ?_, ?_, ?_, ?_, ?_, ?_, ?_⟩ <;> intros <;> rfl

@[simp] theorem Event.deleted_simps :
    (∀ a b, (Event.getStatefulSet a b).deleted = none) ∧
    (∀ a b, (Event.getDeployment a b).deleted = none) ∧
    (∀ a b, (Event.listPods a b).deleted = none) ∧
    (∀ a, (Event.updateConfigMap a).deleted = none) ∧
    (∀ a, (Event.updateStatefulSet a).deleted = none) ∧
    (∀ a, (Event.updateDeployment a).deleted = none) ∧
    (∀ a, (Event.updateCluster a).deleted = none) ∧
    (∀ a, (Event.updateStatus a).deleted = none) ∧
    (∀ a, (Event.deletePod a).deleted = some a) ∧
    (∀ a, (Event.invoke a).deleted = none) ∧
    (∀ a b c, (Event.returned a b c).deleted = none) := by
  refine ⟨?_, ?_, ?_, ?_, ?_, ?_, ?_, ?_, ?_, ?_, ?_⟩ <;> intros <;> rfl

@[simp] theorem newEvents_append (s s' : State) (evs : List Event)
    (h : s'.trace = s.trace ++ evs) : newEvents s s' = evs := by
  simp [newEvents, h]

@[simp] theorem CallsOnly_nil : CallsOnly [] := by
  simp [CallsOnly]

@[simp] theorem CallsOnly_cons (e : Event) (l : List Event) :
    CallsOnly (e :: l) ↔ e.isCall = true ∧ CallsOnly l := by
  simp [CallsOnly]

@[simp] theorem CallsOnly_append (l l' : List Event) :
    CallsOnly (l ++ l') ↔ CallsOnly l ∧ CallsOnly l' := by
  simp only [CallsOnly, List.mem_append]
  constructor
  · intro h
    exact ⟨fun e he => h e (Or.inl he), fun e he => h e (Or.inr he)⟩
  · rintro ⟨h1, h2⟩ e (he | he)
    · exact h1 e he
    · exact h2 e he

@[simp] theorem listCalls_callsOnly (env : Env) (labels : Labels) (ns : String) :
    CallsOnly (listCalls env labels ns) := by
  unfold listCalls
  split <;> simp

@[simp] theorem deletions_nil : deletions [] = [] := rfl

@[simp] theorem deletions_cons (e : Event) (l : List Event) :
    deletions (e :: l) = e.deleted.toList ++ deletions l := by
  cases h : e.deleted <;> simp [deletions, List.filterMap_cons, h]

@[simp] theorem deletions_append (l l' : List Event) :
    deletions (l ++ l') = deletions l ++ deletions l' := by
  simp [deletions, List.filterMap_append]

@[simp] theorem listCalls_deletions (env : Env) (labels : Labels) (ns : String) :
    deletions (listCalls env labels ns) = [] := by
  unfold listCalls
  split <;> simp

theorem listCalls_of_ok (env : Env) (labels : Labels) (ns : String) (sel : Selector)
    (h : env.LabelSelectorAsSelector labels = .ok sel) :
    listCalls env labels ns = [.listPods ns sel] := by
  simp [listCalls, h]

/-! ### The status helpers -/

theorem find_setClusterCondition_same
    (tt : ClusterCondition → ClusterCondition → String → String) (now : String)
    (new : ClusterCondition)
    (cs : List ClusterCondition) :
    ∃ c, (setClusterCondition tt now new cs).find? (fun c => decide (c.Type_ = new.Type_)) =
        some c ∧
      c.Status = new.Status ∧ c.Reason = new.Reason ∧ c.Message = new.Message := by
  induction cs with
  | nil => simp [setClusterCondition]
  | cons c cs ih =>
    by_cases h : c.Type_ = new.Type_
    · simp [setClusterCondition, h, mergeCondition]
    · simpa [setClusterCondition, h] using ih

theorem find_setClusterCondition_other
    (tt : ClusterCondition → ClusterCondition → String → String) (now : String)
    (new : ClusterCondition)
    (t : ClusterConditionType) (ht : new.Type_ ≠ t) (cs : List ClusterCondition) :
    (setClusterCondition tt now new cs).find? (fun c => decide (c.Type_ = t)) =
      cs.find? (fun c => decide (c.Type_ = t)) := by
  induction cs with
  | nil => simp [setClusterCondition, ht]
  | cons c cs ih =>
    by_cases h : c.Type_ = new.Type_
    · have h' : ¬ c.Type_ = t := fun e => ht (h ▸ e)
      simp [setClusterCondition, h, mergeCondition, h', ht, List.find?]
    · rw [setClusterCondition, if_neg h]
      by_cases h2 : c.Type_ = t
      · simp [h2, List.find?]
      · simp [h2, List.find?, ih]

theorem get_SetUpgradingConditionTrue (ps : ClusterStatus) (env : Env) (r m : String) :
    ∃ c, (ps.SetUpgradingConditionTrue env r m).GetClusterCondition .ClusterConditionUpgrading
        = some c ∧
      c.Status = .ConditionTrue ∧ c.Reason = r ∧ c.Message = m :=
  find_setClusterCondition_same _ _
    (newClusterCondition .ClusterConditionUpgrading .ConditionTrue r m) _

theorem get_SetUpgradingConditionFalse (ps : ClusterStatus) (env : Env) :
    ∃ c, (ps.SetUpgradingConditionFalse env).GetClusterCondition .ClusterConditionUpgrading
        = some c ∧
      c.Status = .ConditionFalse ∧ c.Reason = "" ∧ c.Message = "" :=
  find_setClusterCondition_same _ _
    (newClusterCondition .ClusterConditionUpgrading .ConditionFalse "" "") _

theorem get_SetErrorConditionTrue (ps : ClusterStatus) (env : Env) (r m : String) :
    ∃ c, (ps.SetErrorConditionTrue env r m).GetClusterCondition .ClusterConditionError
        = some c ∧
      c.Status = .ConditionTrue ∧ c.Reason = r ∧ c.Message = m :=
  find_setClusterCondition_same _ _
    (newClusterCondition .ClusterConditionError .ConditionTrue r m) _

theorem get_SetUpgradingConditionTrue_other (ps : ClusterStatus) (env : Env) (r m : String)
    (t : ClusterConditionType) (ht : t ≠ .ClusterConditionUpgrading) :
    (ps.SetUpgradingConditionTrue env r m).GetClusterCondition t = ps.GetClusterCondition t :=
  find_setClusterCondition_other _ _ _ t (fun e => ht e.symm) _

theorem get_SetUpgradingConditionFalse_other (ps : ClusterStatus) (env : Env)
    (t : ClusterConditionType) (ht : t ≠ .ClusterConditionUpgrading) :
    (ps.SetUpgradingConditionFalse env).GetClusterCondition t = ps.GetClusterCondition t :=
  find_setClusterCondition_other _ _ _ t (fun e => ht e.symm) _

theorem get_SetErrorConditionTrue_other (ps : ClusterStatus) (env : Env) (r m : String)
    (t : ClusterConditionType) (ht : t ≠ .ClusterConditionError) :
    (ps.SetErrorConditionTrue env r m).GetClusterCondition t = ps.GetClusterCondition t :=
  find_setClusterCondition_other _ _ _ t (fun e => ht e.symm) _

@[simp] theorem SetUpgradingConditionTrue_versions (ps : ClusterStatus) (env : Env)
    (r m : String) :
    (ps.SetUpgradingConditionTrue env r m).TargetVersion = ps.TargetVersion ∧
    (ps.SetUpgradingConditionTrue env r m).CurrentVersion = ps.CurrentVersion :=
  ⟨rfl, rfl⟩

@[simp] theorem SetUpgradingConditionFalse_versions (ps : ClusterStatus) (env : Env) :
    (ps.SetUpgradingConditionFalse env).TargetVersion = ps.TargetVersion ∧
    (ps.SetUpgradingConditionFalse env).CurrentVersion = ps.CurrentVersion :=
  ⟨rfl, rfl⟩

@[simp] theorem SetErrorConditionTrue_versions (ps : ClusterStatus) (env : Env)
    (r m : String) :
    (ps.SetErrorConditionTrue env r m).TargetVersion = ps.TargetVersion ∧
    (ps.SetErrorConditionTrue env r m).CurrentVersion = ps.CurrentVersion :=
  ⟨rfl, rfl⟩

@[simp] theorem isUpgrading_SetUpgradingConditionTrue (ps : ClusterStatus) (env : Env)
    (r m : String) : (ps.SetUpgradingConditionTrue env r m).isUpgrading = true := by
  obtain ⟨c, h, hs, _⟩ := get_SetUpgradingConditionTrue ps env r m
  simp [ClusterStatus.isUpgrading, h, hs]

@[simp] theorem isUpgrading_SetUpgradingConditionFalse (ps : ClusterStatus) (env : Env) :
    (ps.SetUpgradingConditionFalse env).isUpgrading = false := by
  obtain ⟨c, h, hs, _⟩ := get_SetUpgradingConditionFalse ps env
  simp [ClusterStatus.isUpgrading, h, hs]

theorem isUpgrading_congr (ps ps' : ClusterStatus)
    (h : ps'.GetClusterCondition .ClusterConditionUpgrading =
      ps.GetClusterCondition .ClusterConditionUpgrading) :
    ps'.isUpgrading = ps.isUpgrading := by
  simp [ClusterStatus.isUpgrading, h]

/-! ### The observers and the watchdog leave the cluster resource alone -/

@[simp] theorem getPodsWithVersion_p (env : Env) (s : State) (sel : Selector) (ns v : String) :
    (getPodsWithVersion env s sel ns v).2.p = s.p := by
  unfold getPodsWithVersion
  simp only []
  split <;> rfl

@[simp] theorem getPodsWithVersion_trace (env : Env) (s : State) (sel : Selector)
    (ns v : String) :
    (getPodsWithVersion env s sel ns v).2.trace = s.trace ++ [.listPods ns sel] := by
  unfold getPodsWithVersion
  simp only []
  split <;> rfl

@[simp] theorem getStsPodsWithVersion_p (env : Env) (s : State) (sts : StatefulSet)
    (v : String) : (getStsPodsWithVersion env s sts v).2.p = s.p := by
  unfold getStsPodsWithVersion
  split <;> simp

@[simp] theorem getStsPodsWithVersion_trace (env : Env) (s : State) (sts : StatefulSet)
    (v : String) :
    (getStsPodsWithVersion env s sts v).2.trace =
      s.trace ++ listCalls env sts.Spec.Template.Labels sts.Namespace := by
  unfold getStsPodsWithVersion listCalls
  split <;> simp [*]

@[simp] theorem getDeployPodsWithVersion_p (env : Env) (s : State) (d : Deployment)
    (v : String) : (getDeployPodsWithVersion env s d v).2.p = s.p := by
  unfold getDeployPodsWithVersion
  split <;> simp

@[simp] theorem getDeployPodsWithVersion_trace (env : Env) (s : State) (d : Deployment)
    (v : String) :
    (getDeployPodsWithVersion env s d v).2.trace =
      s.trace ++ listCalls env d.Spec.Template.Labels d.Namespace := by
  unfold getDeployPodsWithVersion listCalls
  split <;> simp [*]

@[simp] theorem getOneOutdatedPod_p (env : Env) (s : State) (sts : StatefulSet) (v : String) :
    (getOneOutdatedPod env s sts v).2.p = s.p := by
  unfold getOneOutdatedPod
  split
  · rfl
  · simp only []
    split <;> rfl

@[simp] theorem getOneOutdatedPod_trace (env : Env) (s : State) (sts : StatefulSet)
    (v : String) :
    (getOneOutdatedPod env s sts v).2.trace =
      s.trace ++ listCalls env sts.Spec.Template.Labels sts.Namespace := by
  unfold getOneOutdatedPod listCalls
  split
  · simp [*]
  · simp only [*]
    split <;> simp

theorem checkUpgradeCondition_p (env : Env) (p : PravegaCluster) (reason : String) (n : Int) :
    (checkUpgradeCondition env p reason n).2 = p ∨
    (checkUpgradeCondition env p reason n).2 =
      { p with Status := p.Status.SetUpgradingConditionTrue env reason (toString n) } := by
  unfold checkUpgradeCondition
  split
  · simp
  · split
    · dsimp only
      split <;> simp
    · simp

@[simp] theorem checkUpgradeCondition_frame (env : Env) (p : PravegaCluster) (reason : String)
    (n : Int) :
    (checkUpgradeCondition env p reason n).2.Name = p.Name ∧
    (checkUpgradeCondition env p reason n).2.Namespace = p.Namespace ∧
    (checkUpgradeCondition env p reason n).2.Spec = p.Spec ∧
    (checkUpgradeCondition env p reason n).2.Status.TargetVersion = p.Status.TargetVersion ∧
    (checkUpgradeCondition env p reason n).2.Status.CurrentVersion =
      p.Status.CurrentVersion := by
  rcases checkUpgradeCondition_p env p reason n with h | h <;> rw [h] <;> simp

/-! ### What a driver may do -/

set_option maxHeartbeats 1000000 in
theorem stsStep_calls (env : Env) (t : StsTier) (s : State) :
    ∃ evs, (stsStep env t s).2.trace = s.trace ++ evs ∧ CallsOnly evs := by
  unfold stsStep
  simp only []
  repeat' split
  all_goals simp

set_option maxHeartbeats 1000000 in
theorem syncControllerVersion_calls (env : Env) (s : State) :
    ∃ evs, (syncControllerVersion env s).2.trace = s.trace ++ evs ∧
      CallsOnly evs := by
  unfold syncControllerVersion
  simp only []
  repeat' split
  all_goals simp

set_option maxHeartbeats 1000000 in
theorem stsStep_statusEffect (env : Env) (t : StsTier) (s : State) :
    StatusEffect env s.p (stsStep env t s).2.p := by
  have hw := checkUpgradeCondition_p env s.p
  unfold stsStep
  simp only []
  repeat' split
  all_goals simp [StatusEffect]
  all_goals first
    | exact Or.inr ⟨_, _, rfl⟩
    | (rcases hw t.reason _ with h | h
       · exact Or.inl h
       · exact Or.inr ⟨_, _, h⟩)

set_option maxHeartbeats 1000000 in
theorem syncControllerVersion_statusEffect (env : Env) (s : State) :
    StatusEffect env s.p (syncControllerVersion env s).2.p := by
  unfold syncControllerVersion
  simp only []
  repeat' split
  all_goals simp [StatusEffect]

theorem components_calls (env : Env) :
    ∀ c ∈ components env, ∀ st : State,
      ∃ evs, (c.fn st).2.trace = st.trace ++ evs ∧ CallsOnly evs := by
  intro c hc st
  simp only [components, List.mem_cons, List.mem_singleton, List.not_mem_nil, or_false] at hc
  rcases hc with rfl | rfl | rfl
  · exact stsStep_calls env (bookieTier env) st
  · exact stsStep_calls env (segmentStoreTier env) st
  · exact syncControllerVersion_calls env st

theorem components_statusEffect (env : Env) :
    ∀ c ∈ components env, ∀ st : State, StatusEffect env st.p (c.fn st).2.p := by
  intro c hc st
  simp only [components, List.mem_cons, List.mem_singleton, List.not_mem_nil, or_false] at hc
  rcases hc with rfl | rfl | rfl
  · exact stsStep_statusEffect env (bookieTier env) st
  · exact stsStep_statusEffect env (segmentStoreTier env) st
  · exact syncControllerVersion_statusEffect env st

/-! ### The orchestrator loop -/

theorem syncComponentsLoop_sequenced (cs : List componentSyncVersionFun)
    (hcs : ∀ c ∈ cs, ∀ st : State,
      ∃ evs, (c.fn st).2.trace = st.trace ++ evs ∧ CallsOnly evs)
    (s : State) :
    ∃ evs, (syncComponentsLoop cs s).2.trace = s.trace ++ evs ∧
      Sequenced (cs.map (fun c => c.name)) evs := by
  induction cs generalizing s with
  | nil => exact ⟨[], by simp [syncComponentsLoop], Sequenced.done⟩
  | cons c rest ih =>
    obtain ⟨evs, h1, h2⟩ := hcs c (List.mem_cons_self _ _) (s.log (.invoke c.name))
    have h2' : ∀ e ∈ evs, e.isCall = true := h2
    have ih' := ih (fun c' hc' => hcs c' (List.mem_cons_of_mem _ hc'))
    simp only [State.log_trace] at h1
    rw [syncComponentsLoop]
    simp only [List.map_cons]
    cases hr : (c.fn (s.log (.invoke c.name))).1 with
    | panic =>
      exact ⟨.invoke c.name :: evs, by simp [h1], Sequenced.panicked _ _ _ h2'⟩
    | ret a =>
      obtain ⟨synced, err⟩ := a
      cases err with
      | some e =>
        exact ⟨.invoke c.name :: evs ++ [.returned c.name synced (some e)], by simp [h1],
          Sequenced.stopped _ _ _ _ _ h2' (by simp)⟩
      | none =>
        cases synced with
        | false =>
          exact ⟨.invoke c.name :: evs ++ [.returned c.name false none], by simp [h1],
            Sequenced.stopped _ _ _ _ _ h2' (by simp)⟩
        | true =>
          obtain ⟨tail, ht, hseq⟩ := ih' ((c.fn (s.log (.invoke c.name))).2.log
            (.returned c.name true none))
          exact ⟨.invoke c.name :: evs ++ .returned c.name true none :: tail,
            by simp [ht, h1], Sequenced.next _ _ _ _ h2' hseq⟩

theorem filterMap_invoked_of_calls (cs : List Event) (h : ∀ e ∈ cs, e.isCall = true) :
    cs.filterMap Event.invoked = [] := by
  induction cs with
  | nil => rfl
  | cons e cs ih =>
    have he := h e (List.mem_cons_self _ _)
    have ih' := ih (fun e' he' => h e' (List.mem_cons_of_mem _ he'))
    cases e <;> simp_all [Event.invoked, Event.isCall]

theorem not_isStop_of_isCall (e : Event) (h : e.isCall = true) : e.isStop = false := by
  cases e <;> simp_all [Event.isStop, Event.isCall]

theorem Sequenced.invoked_order {names : List String} {evs : List Event}
    (h : Sequenced names evs) : evs.filterMap Event.invoked <+: names := by
  induction h with
  | done => simp
  | panicked n rest cs hc =>
    simp [Event.invoked, filterMap_invoked_of_calls cs hc, List.prefix_cons_inj]
  | stopped n rest cs synced err hc _ =>
    simp [Event.invoked, List.filterMap_append, filterMap_invoked_of_calls cs hc]
  | next n rest cs tail hc _ ih =>
    simpa [Event.invoked, List.filterMap_append, filterMap_invoked_of_calls cs hc,
      List.prefix_cons_inj] using ih

theorem split_skip {α : Type} (l tail pre post : List α) (e : α) (hne : e ∉ l)
    (h : l ++ tail = pre ++ e :: post) : ∃ pre', tail = pre' ++ e :: post := by
  induction l generalizing pre with
  | nil => exact ⟨pre, by simpa using h⟩
  | cons a l ih =>
    cases pre with
    | nil =>
      simp at h
      exact absurd h.1.symm (by intro e'; exact hne (e' ▸ List.mem_cons_self _ _))
    | cons b pre =>
      simp at h
      exact ih pre (fun hm => hne (List.mem_cons_of_mem _ hm)) h.2

theorem Sequenced.nothing_after_stop {names : List String} {evs : List Event}
    (h : Sequenced names evs) :
    ∀ pre e post, evs = pre ++ e :: post → e.isStop = true → post = [] := by
  induction h with
  | done => intro pre e post h; simp at h
  | panicked n rest cs hc =>
    intro pre e post h hs
    have hm : e ∈ Event.invoke n :: cs := by rw [h]; simp
    rcases List.mem_cons.1 hm with rfl | hm
    · simp [Event.isStop] at hs
    · simp [not_isStop_of_isCall e (hc e hm)] at hs
  | stopped n rest cs synced err hc _ =>
    intro pre e post h hs
    have hne : e ∉ Event.invoke n :: cs := by
      intro hm
      rcases List.mem_cons.1 hm with rfl | hm
      · simp [Event.isStop] at hs
      · simp [not_isStop_of_isCall e (hc e hm)] at hs
    obtain ⟨pre', hp⟩ := split_skip (Event.invoke n :: cs) [.returned n synced err] pre post e
      hne (by simpa using h)
    cases pre' with
    | nil =>
      simp at hp
      exact hp.2
    | cons a pre' => simp at hp
  | next n rest cs tail hc _ ih =>
    intro pre e post h hs
    have hne : e ∉ Event.invoke n :: cs ++ [.returned n true none] := by
      intro hm
      simp only [List.cons_append, List.mem_cons, List.mem_append, List.mem_singleton,
        List.not_mem_nil, or_false] at hm
      rcases hm with rfl | hm | rfl
      · simp [Event.isStop] at hs
      · simp [not_isStop_of_isCall e (hc e hm)] at hs
      · simp [Event.isStop] at hs
    obtain ⟨pre', hp⟩ := split_skip (Event.invoke n :: cs ++ [.returned n true none]) tail pre
      post e hne (by simpa using h)
    exact ih pre' e post hp hs

theorem StatusEffect.versions {env : Env} {p p' : PravegaCluster} (h : StatusEffect env p p') :
    p'.Status.TargetVersion = p.Status.TargetVersion ∧
    p'.Status.CurrentVersion = p.Status.CurrentVersion ∧
    p'.Spec = p.Spec ∧ p'.Name = p.Name ∧ p'.Namespace = p.Namespace := by
  rcases h with h | ⟨r, m, h⟩ <;> subst h <;> simp

theorem returned_not_mem_of_callsOnly (evs : List Event) (h : CallsOnly evs) (n : String)
    (b : Bool) (e : Option String) : Event.returned n b e ∉ evs := by
  intro hm
  simpa using h _ hm

theorem syncComponentsLoop_versions (env : Env) (cs : List componentSyncVersionFun)
    (hc : ∀ c ∈ cs, ∀ st : State, ∃ evs, (c.fn st).2.trace = st.trace ++ evs ∧ CallsOnly evs)
    (hs : ∀ c ∈ cs, ∀ st : State, StatusEffect env st.p (c.fn st).2.p)
    (hn : (cs.map (fun c => c.name)).Nodup) (s : State) :
    ∃ evs, (syncComponentsLoop cs s).2.trace = s.trace ++ evs ∧
      (syncComponentsLoop cs s).2.p.Status.TargetVersion = s.p.Status.TargetVersion ∧
      (((∀ n ∈ cs.map (fun c => c.name), Event.returned n true none ∈ evs) ∧
          (syncComponentsLoop cs s).2.p.Status.CurrentVersion = s.p.Status.TargetVersion) ∨
        ((∃ n ∈ cs.map (fun c => c.name), Event.returned n true none ∉ evs) ∧
          (syncComponentsLoop cs s).2.p.Status.CurrentVersion = s.p.Status.CurrentVersion)) := by
  induction cs generalizing s with
  | nil => exact ⟨[], by simp [syncComponentsLoop], by simp [syncComponentsLoop],
      Or.inl ⟨by simp, by simp [syncComponentsLoop]⟩⟩
  | cons c rest ih =>
    obtain ⟨evs, h1, h2⟩ := hc c (List.mem_cons_self _ _) (s.log (.invoke c.name))
    obtain ⟨v1, v2, -⟩ := (hs c (List.mem_cons_self _ _) (s.log (.invoke c.name))).versions
    have hnot := returned_not_mem_of_callsOnly evs h2
    simp only [List.map_cons, List.nodup_cons] at hn
    have ih' := ih (fun c' hc' => hc c' (List.mem_cons_of_mem _ hc'))
      (fun c' hc' => hs c' (List.mem_cons_of_mem _ hc')) hn.2
    simp only [State.log_trace, State.log_p] at h1 v1 v2
    rw [syncComponentsLoop]
    simp only [List.map_cons]
    cases hr : (c.fn (s.log (.invoke c.name))).1 with
    | panic =>
      exact ⟨.invoke c.name :: evs, by simp [h1], by simp [v1],
        Or.inr ⟨⟨c.name, by simp, by simp [hnot]⟩, by simp [v2]⟩⟩
    | ret a =>
      obtain ⟨synced, err⟩ := a
      cases err with
      | some e =>
        exact ⟨.invoke c.name :: evs ++ [.returned c.name synced (some e)], by simp [h1],
          by simp [v1], Or.inr ⟨⟨c.name, by simp, by simp [hnot]⟩, by simp [v2]⟩⟩
      | none =>
        cases synced with
        | false =>
          exact ⟨.invoke c.name :: evs ++ [.returned c.name false none], by simp [h1],
            by simp [v1], Or.inr ⟨⟨c.name, by simp, by simp [hnot]⟩, by simp [v2]⟩⟩
        | true =>
          obtain ⟨tail, ht, htv, hcases⟩ := ih' ((c.fn (s.log (.invoke c.name))).2.log
            (.returned c.name true none))
          simp only [State.log_p, v1, v2] at htv hcases
          refine ⟨.invoke c.name :: evs ++ .returned c.name true none :: tail,
            by simp [ht, h1], by simpa using htv, ?_⟩
          rcases hcases with ⟨hall, hcur⟩ | ⟨⟨n, hn1, hn2⟩, hcur⟩
          · refine Or.inl ⟨?_, by simpa using hcur⟩
            intro n hn'
            rcases List.mem_cons.1 hn' with rfl | hn'
            · simp
            · have := hall n hn'
              simp [this]
          · refine Or.inr ⟨⟨n, List.mem_cons_of_mem _ hn1, ?_⟩, by simpa using hcur⟩
            have hne : n ≠ c.name := fun e => hn.1 (e ▸ hn1)
            simp [hnot, hn2, hne]

theorem components_names (env : Env) :
    (components env).map (fun c => c.name) = ["bookkeeper", "segmentstore", "controller"] :=
  rfl

/-- C1 (sequencing). In one pass of `syncComponentsVersion` the trace only
grows, and the events added have the shape `Sequenced` for the order
bookkeeper, segmentstore, controller: a driver is announced only right after
the previous one returned `(true, nil)`. The drivers announced form a prefix
of that order. Nothing follows a driver that returned `synced=false` or an
error: no later driver is announced and no platform call is issued. In
particular, when the bookkeeper driver (or, after a synced bookkeeper tier,
the segment-store driver) returns anything but `(true, nil)`, the pass ends in
the state that driver left, with only its return recorded. -/
theorem syncComponentsVersion_sequencing (env : Env) (s : State) :
    (syncComponentsVersion env s).2.trace =
      s.trace ++ newEvents s (syncComponentsVersion env s).2 ∧
    Sequenced ["bookkeeper", "segmentstore", "controller"]
      (newEvents s (syncComponentsVersion env s).2) ∧
    (newEvents s (syncComponentsVersion env s).2).filterMap Event.invoked <+:
      ["bookkeeper", "segmentstore", "controller"] ∧
    (∀ pre e post, newEvents s (syncComponentsVersion env s).2 = pre ++ e :: post →
      e.isStop = true → post = []) ∧
    (∀ synced err,
      (syncBookkeeperVersion env (s.log (.invoke "bookkeeper"))).1 = .ret (synced, err) →
      ¬ (synced = true ∧ err = none) →
      (syncComponentsVersion env s).2 =
        (syncBookkeeperVersion env (s.log (.invoke "bookkeeper"))).2.log
          (.returned "bookkeeper" synced err)) ∧
    (∀ synced err,
      (syncBookkeeperVersion env (s.log (.invoke "bookkeeper"))).1 = .ret (true, none) →
      (syncSegmentStoreVersion env
        (((syncBookkeeperVersion env (s.log (.invoke "bookkeeper"))).2.log
          (.returned "bookkeeper" true none)).log (.invoke "segmentstore"))).1 =
        .ret (synced, err) →
      ¬ (synced = true ∧ err = none) →
      (syncComponentsVersion env s).2 =
        (syncSegmentStoreVersion env
          (((syncBookkeeperVersion env (s.log (.invoke "bookkeeper"))).2.log
            (.returned "bookkeeper" true none)).log (.invoke "segmentstore"))).2.log
          (.returned "segmentstore" synced err)) := by
  obtain ⟨evs, h, hseq⟩ :=
    syncComponentsLoop_sequenced (components env) (components_calls env) s
  rw [components_names] at hseq
  have hn : newEvents s (syncComponentsVersion env s).2 = evs := newEvents_append _ _ _ h
  rw [hn]
  refine ⟨h, hseq, hseq.invoked_order, hseq.nothing_after_stop, ?_, ?_⟩
  · intro synced err h1 h2
    cases err with
    | some e => simp [syncComponentsVersion, components, syncComponentsLoop, h1]
    | none =>
      cases synced with
      | false => simp [syncComponentsVersion, components, syncComponentsLoop, h1]
      | true => simp at h2
  · intro synced err h1 h1' h2
    cases err with
    | some e => simp [syncComponentsVersion, components, syncComponentsLoop, h1, h1']
    | none =>
      cases synced with
      | false => simp [syncComponentsVersion, components, syncComponentsLoop, h1, h1']
      | true => simp at h2

theorem syncComponentsLoop_passSynced (cs : List componentSyncVersionFun)
    (hc : ∀ c ∈ cs, ∀ st : State, ∃ evs, (c.fn st).2.trace = st.trace ++ evs ∧ CallsOnly evs)
    (hn : (cs.map (fun c => c.name)).Nodup) (s : State) :
    ∃ evs, (syncComponentsLoop cs s).2.trace = s.trace ++ evs ∧
      ((∀ n ∈ cs.map (fun c => c.name), Event.returned n true none ∈ evs) ↔ PassSynced cs s) ∧
      (PassSynced cs s → (syncComponentsLoop cs s).1 = .ret none) := by
  induction cs generalizing s with
  | nil => exact ⟨[], by simp [syncComponentsLoop], by simp [PassSynced],
      by simp [syncComponentsLoop]⟩
  | cons c rest ih =>
    obtain ⟨evs, h1, h2⟩ := hc c (List.mem_cons_self _ _) (s.log (.invoke c.name))
    have hnot := returned_not_mem_of_callsOnly evs h2
    simp only [List.map_cons, List.nodup_cons] at hn
    have ih' := ih (fun c' hc' => hc c' (List.mem_cons_of_mem _ hc')) hn.2
    simp only [State.log_trace] at h1
    rw [syncComponentsLoop, PassSynced]
    simp only [List.map_cons]
    cases hr : (c.fn (s.log (.invoke c.name))).1 with
    | panic =>
      refine ⟨.invoke c.name :: evs, by simp [h1], ?_, by simp⟩
      constructor
      · intro h
        have := h c.name (List.mem_cons_self _ _)
        simp [hnot] at this
      · intro h
        simp at h
    | ret a =>
      obtain ⟨synced, err⟩ := a
      cases err with
      | some e =>
        refine ⟨.invoke c.name :: evs ++ [.returned c.name synced (some e)], by simp [h1],
          ?_, by simp⟩
        constructor
        · intro h
          have := h c.name (List.mem_cons_self _ _)
          simp [hnot] at this
        · intro h
          simp at h
      | none =>
        cases synced with
        | false =>
          refine ⟨.invoke c.name :: evs ++ [.returned c.name false none], by simp [h1],
            ?_, by simp⟩
          constructor
          · intro h
            have := h c.name (List.mem_cons_self _ _)
            simp [hnot] at this
          · intro h
            simp at h
        | true =>
          obtain ⟨tail, ht, hiff, hres⟩ := ih' ((c.fn (s.log (.invoke c.name))).2.log
            (.returned c.name true none))
          refine ⟨.invoke c.name :: evs ++ .returned c.name true none :: tail,
            by simp [ht, h1], ?_, by simpa using hres⟩
          simp only [true_and, ← hiff]
          constructor
          · intro h n hn'
            have hne : n ≠ c.name := fun e => hn.1 (e ▸ hn')
            have := h n (List.mem_cons_of_mem _ hn')
            simpa [hnot, hne] using this
          · intro h n hn'
            rcases List.mem_cons.1 hn' with rfl | hn'
            · simp
            · have := h n hn'
              simp [this]

theorem driversSynced_iff_passSynced (env : Env) (s : State) :
    DriversSynced env s ↔ PassSynced (components env) s := by
  simp [DriversSynced, PassSynced, components, bookkeeperPass, segmentStorePass,
    controllerPass]

/-- C2 (monotonic convergence). After `syncComponentsVersion` the status
`currentVersion` is either unchanged or equal to the `targetVersion` held at
the start of the pass. When the three drivers `syncBookkeeperVersion`,
`syncSegmentStoreVersion` and `syncControllerVersion`, each run on the state
its predecessor left, all return `(true, nil)`, the orchestrator returns no
error and `currentVersion` is that `targetVersion`; when one of them returns
anything else, `currentVersion` is unchanged. The pass records three returns
`(true, nil)` exactly when the three drivers returned so; `targetVersion`
itself is never changed. -/
theorem syncComponentsVersion_convergence (env : Env) (s : State) :
    ((syncComponentsVersion env s).2.p.Status.CurrentVersion = s.p.Status.CurrentVersion ∨
      (syncComponentsVersion env s).2.p.Status.CurrentVersion = s.p.Status.TargetVersion) ∧
    (DriversSynced env s →
      (syncComponentsVersion env s).1 = .ret none ∧
      (syncComponentsVersion env s).2.p.Status.CurrentVersion = s.p.Status.TargetVersion) ∧
    (¬ DriversSynced env s →
      (syncComponentsVersion env s).2.p.Status.CurrentVersion = s.p.Status.CurrentVersion) ∧
    (AllSynced (newEvents s (syncComponentsVersion env s).2) ↔ DriversSynced env s) ∧
    (AllSynced (newEvents s (syncComponentsVersion env s).2) →
      (syncComponentsVersion env s).2.p.Status.CurrentVersion = s.p.Status.TargetVersion) ∧
    (¬ AllSynced (newEvents s (syncComponentsVersion env s).2) →
      (syncComponentsVersion env s).2.p.Status.CurrentVersion = s.p.Status.CurrentVersion) ∧
    (syncComponentsVersion env s).2.p.Status.TargetVersion = s.p.Status.TargetVersion := by
  obtain ⟨evs, h, ht, hcases⟩ := syncComponentsLoop_versions env (components env)
    (components_calls env) (components_statusEffect env)
    (by rw [components_names]; decide) s
  obtain ⟨evs', h', hiff, hres⟩ := syncComponentsLoop_passSynced (components env)
    (components_calls env) (by rw [components_names]; decide) s
  have he : evs' = evs := List.append_cancel_left (h'.symm.trans h)
  subst he
  have hn : newEvents s (syncComponentsVersion env s).2 = evs' := newEvents_append _ _ _ h
  rw [hn]
  rw [components_names] at hcases hiff
  rw [← driversSynced_iff_passSynced] at hiff hres
  simp only [List.mem_cons, List.mem_singleton, List.not_mem_nil, or_false, forall_eq_or_imp,
    forall_eq, exists_eq_or_imp, exists_eq_left] at hcases hiff
  have hall : AllSynced evs' ↔ DriversSynced env s := hiff
  have hto : AllSynced evs' →
      (syncComponentsVersion env s).2.p.Status.CurrentVersion = s.p.Status.TargetVersion := by
    intro ha
    rcases hcases with ⟨_, hcur⟩ | ⟨hex, _⟩
    · exact hcur
    · rcases hex with h1 | h2 | h3
      · exact absurd ha.1 h1
      · exact absurd ha.2.1 h2
      · exact absurd ha.2.2 h3
  have hkeep : ¬ AllSynced evs' →
      (syncComponentsVersion env s).2.p.Status.CurrentVersion = s.p.Status.CurrentVersion := by
    intro hna
    rcases hcases with ⟨ha, _⟩ | ⟨_, hcur⟩
    · exact absurd ha hna
    · exact hcur
  refine ⟨?_, fun hd => ⟨hres hd, hto (hall.2 hd)⟩, fun hd => hkeep (fun ha => hd (hall.1 ha)),
    hall, hto, hkeep, ht⟩
  by_cases ha : AllSynced evs'
  · exact Or.inr (hto ha)
  · exact Or.inl (hkeep ha)

/-- Witness for C2: on `convergedEnv` the three drivers return `(true, nil)`
and the pass moves `currentVersion` from 1.0 to the target 2.0; on
`laggingEnv` the bookkeeper driver returns `(true, nil)`, the segment-store
driver returns `(false, nil)`, and `currentVersion` stays at 1.0. -/
theorem syncComponentsVersion_convergence_witness :
    (startOf upgradingCluster).p.Status.CurrentVersion = "1.0" ∧
    (startOf upgradingCluster).p.Status.TargetVersion = "2.0" ∧
    DriversSynced convergedEnv (startOf upgradingCluster) ∧
    (syncComponentsVersion convergedEnv (startOf upgradingCluster)).1 = .ret none ∧
    (syncComponentsVersion convergedEnv (startOf upgradingCluster)).2.p.Status.CurrentVersion =
      "2.0" ∧
    (bookkeeperPass laggingEnv (startOf upgradingCluster)).1 = .ret (true, none) ∧
    (segmentStorePass laggingEnv (startOf upgradingCluster)).1 = .ret (false, none) ∧
    ¬ DriversSynced laggingEnv (startOf upgradingCluster) ∧
    (syncComponentsVersion laggingEnv (startOf upgradingCluster)).2.p.Status.CurrentVersion =
      "1.0" :=
  have hc := (syncComponentsVersion_convergence convergedEnv (startOf upgradingCluster)).2.1
    (by decide)
  have hl := (syncComponentsVersion_convergence laggingEnv (startOf upgradingCluster)).2.2.1
    (by decide)
  ⟨rfl, rfl, by decide, hc.1, hc.2, by decide, by decide, by decide, hl⟩

/-! ### The watchdog -/

/-- C3, as stated, fails: with the stored `(reason, message)` pair repeated and
the clock exactly ten minutes after the stored `lastUpdateTime`, the watchdog
does not report a stall. -/
theorem checkUpgradeCondition_at_ten_minutes_not_stalled :
    upgradingCluster.Status.GetClusterCondition .ClusterConditionUpgrading =
      some (sampleCondition .ClusterConditionUpgrading .ConditionTrue
        "Upgrading Segmentstore" (toString (1 : Int))) ∧
    windowEnv.Parse "2019-06-01T10:00:00Z" = some sampleTime ∧
    windowEnv.now = sampleTime + 10 * Minute ∧
    (checkUpgradeCondition windowEnv upgradingCluster "Upgrading Segmentstore" 1).1 ≠
      .ret (some "progress deadline exceeded") ∧
    (checkUpgradeCondition windowEnv upgradingCluster "Upgrading Segmentstore" 1).1 =
      .ret none := by
  decide

/-- C3, amended. When the `(reason, decimal updatedReplicas)` pair equals the
stored `(reason, message)` and the stored `lastUpdateTime` parses to `t`, the
watchdog reports "progress deadline exceeded" exactly when the clock is
strictly later than `t` plus ten minutes, and never touches the cluster
resource: ten minutes after `t` on the dot, and one second earlier, it returns
no error; one nanosecond later it reports the stall. -/
theorem checkUpgradeCondition_stall_window (env : Env) (p : PravegaCluster) (reason : String)
    (updatedReplicas : Int) (c : ClusterCondition) (t : Int)
    (hc : p.Status.GetClusterCondition .ClusterConditionUpgrading = some c)
    (hr : c.Reason = reason) (hm : c.Message = toString updatedReplicas)
    (ht : env.Parse c.LastUpdateTime = some t) :
    (checkUpgradeCondition env p reason updatedReplicas =
        (.ret (some "progress deadline exceeded"), p) ↔ t + 10 * Minute < env.now) ∧
    (checkUpgradeCondition env p reason updatedReplicas = (.ret none, p) ↔
      env.now ≤ t + 10 * Minute) ∧
    (env.now = t + 10 * Minute →
      checkUpgradeCondition env p reason updatedReplicas = (.ret none, p)) ∧
    (env.now = t + 10 * Minute - Second →
      checkUpgradeCondition env p reason updatedReplicas = (.ret none, p)) ∧
    (env.now = t + 10 * Minute + 1 →
      checkUpgradeCondition env p reason updatedReplicas =
        (.ret (some "progress deadline exceeded"), p)) := by
  have key : checkUpgradeCondition env p reason updatedReplicas =
      if env.now > t + 10 * Minute then (.ret (some "progress deadline exceeded"), p)
      else (.ret none, p) := by
    simp [checkUpgradeCondition, hc, hr, hm, ht]
  rw [key]
  have hs : (0 : Int) < Second := by decide
  refine ⟨?_, ?_, ?_, ?_, ?_⟩
  · by_cases h : env.now > t + 10 * Minute
    · simp [h]
    · simp [h]
  · by_cases h : env.now > t + 10 * Minute
    · simp [h]
    · simpa [h] using not_lt.1 h
  · intro h
    simp [h]
  · intro h
    have : ¬ (env.now > t + 10 * Minute) := by
      rw [h]
      generalize Second = x at hs
      generalize 10 * Minute = y
      omega
    simp [this]
  · intro h
    have : env.now > t + 10 * Minute := by
      rw [h]
      generalize 10 * Minute = y
      omega
    simp [this]

/-- Witness for C3 amended: at the stall marker of `upgradingCluster` the
watchdog is silent ten minutes after the last update and reports the stall one
nanosecond later. -/
theorem checkUpgradeCondition_stall_window_witness :
    checkUpgradeCondition windowEnv upgradingCluster "Upgrading Segmentstore" 1 =
      (.ret none, upgradingCluster) ∧
    checkUpgradeCondition earlyEnv upgradingCluster "Upgrading Segmentstore" 1 =
      (.ret none, upgradingCluster) ∧
    checkUpgradeCondition lateEnv upgradingCluster "Upgrading Segmentstore" 1 =
      (.ret (some "progress deadline exceeded"), upgradingCluster) :=
  ⟨(checkUpgradeCondition_stall_window windowEnv upgradingCluster "Upgrading Segmentstore" 1
      (sampleCondition .ClusterConditionUpgrading .ConditionTrue "Upgrading Segmentstore" "1")
      sampleTime (by decide) (by decide) (by decide) (by decide)).2.2.1 (by decide),
   (checkUpgradeCondition_stall_window earlyEnv upgradingCluster "Upgrading Segmentstore" 1
      (sampleCondition .ClusterConditionUpgrading .ConditionTrue "Upgrading Segmentstore" "1")
      sampleTime (by decide) (by decide) (by decide) (by decide)).2.2.2.1 (by decide),
   (checkUpgradeCondition_stall_window lateEnv upgradingCluster "Upgrading Segmentstore" 1
      (sampleCondition .ClusterConditionUpgrading .ConditionTrue "Upgrading Segmentstore" "1")
      sampleTime (by decide) (by decide) (by decide) (by decide)).2.2.2.2 (by decide)⟩

/-! ### The inspector -/

/-- C4 at its failing input. The listed pods `slowPod` and `faultyPod` both
carry the target version 2.0 and `faultyPod` is unready and judged faulty, with
an error; yet `checkUpdatedPods` stops at `slowPod` and returns `(false, nil)`,
and the segment-store driver, run on a platform that lists these pods, returns
the wait result `(false, nil)`. With the faulty pod listed first the same calls
do return its error. -/
theorem checkUpdatedPods_misses_faulty_pod_behind_slow_pod :
    faultyPod ∈ [slowPod, faultyPod] ∧
    sampleEnv.GetPodVersion slowPod = "2.0" ∧ sampleEnv.GetPodVersion faultyPod = "2.0" ∧
    sampleEnv.IsPodReady faultyPod = false ∧
    (sampleEnv.IsPodFaulty faultyPod).1 = true ∧
    (sampleEnv.IsPodFaulty faultyPod).2 ≠ none ∧
    checkUpdatedPods sampleEnv [slowPod, faultyPod] "2.0" = (false, none) ∧
    (syncSegmentStoreVersion (rolloutEnv (sampleSts 3 2 0) [slowPod, faultyPod, oldPod])
      (startOf upgradingCluster)).1 = .ret (false, none) ∧
    checkUpdatedPods sampleEnv [faultyPod, slowPod] "2.0" =
      (false, (sampleEnv.IsPodFaulty faultyPod).2) ∧
    (syncSegmentStoreVersion (rolloutEnv (sampleSts 3 2 0) [faultyPod, slowPod, oldPod])
      (startOf upgradingCluster)).1 = .ret (false, (sampleEnv.IsPodFaulty faultyPod).2) := by
  decide

/-! ### The pod loops -/

theorem appendPodsWithVersion_eq_filter (env : Env) (v : String) (items pods : List Pod) :
    appendPodsWithVersion env v items pods =
      pods ++ items.filter (fun pod => decide (env.GetPodVersion pod = v)) := by
  induction items generalizing pods with
  | nil => simp [appendPodsWithVersion]
  | cons a items ih =>
    by_cases h : env.GetPodVersion a = v
    · simp [appendPodsWithVersion, h, ih]
    · simp [appendPodsWithVersion, h, ih]

theorem firstOutdatedPod_eq_find (env : Env) (v : String) (items : List Pod) :
    firstOutdatedPod env v items =
      items.find? (fun pod => decide (env.GetPodVersion pod ≠ v)) := by
  induction items with
  | nil => rfl
  | cons a items ih =>
    by_cases h : env.GetPodVersion a = v
    · simp [firstOutdatedPod, h, ih]
    · simp [firstOutdatedPod, h]

theorem firstOutdatedPod_some (env : Env) (v : String) (items : List Pod) (pod : Pod)
    (h : firstOutdatedPod env v items = some pod) :
    pod ∈ items ∧ env.GetPodVersion pod ≠ v := by
  rw [firstOutdatedPod_eq_find] at h
  exact ⟨List.mem_of_find?_eq_some h, by simpa using List.find?_some h⟩

theorem firstOutdatedPod_isSome (env : Env) (v : String) (items : List Pod)
    (h : ∃ pod ∈ items, env.GetPodVersion pod ≠ v) :
    ∃ pod, firstOutdatedPod env v items = some pod := by
  induction items with
  | nil => simp at h
  | cons a items ih =>
    by_cases ha : env.GetPodVersion a = v
    · obtain ⟨pod, hm, hv⟩ := h
      rcases List.mem_cons.1 hm with rfl | hm
      · exact absurd ha hv
      · simpa [firstOutdatedPod, ha] using ih ⟨pod, hm, hv⟩
    · exact ⟨a, by simp [firstOutdatedPod, ha]⟩

theorem checkUpdatedPods_ready (env : Env) (pods : List Pod) (v : String)
    (h : (checkUpdatedPods env pods v).1 = true) : ∀ q ∈ pods, env.IsPodReady q = true := by
  induction pods with
  | nil => simp
  | cons a pods ih =>
    by_cases ha : env.IsPodReady a = true
    · simp only [checkUpdatedPods, ha, Bool.not_true, Bool.false_eq_true, if_false] at h
      intro q hq
      rcases List.mem_cons.1 hq with rfl | hq
      · exact ha
      · exact ih h q hq
    · simp only [Bool.not_eq_true] at ha
      simp only [checkUpdatedPods, ha, Bool.not_false, if_true] at h
      split at h <;> simp at h

theorem checkUpdatedPods_of_ready (env : Env) (pods : List Pod) (v : String)
    (h : ∀ q ∈ pods, env.IsPodReady q = true) : checkUpdatedPods env pods v = (true, none) := by
  induction pods with
  | nil => rfl
  | cons a pods ih =>
    have ha := h a (List.mem_cons_self _ _)
    simp [checkUpdatedPods, ha, ih (fun q hq => h q (List.mem_cons_of_mem _ hq))]

theorem checkUpdatedPods_wait (env : Env) (pods : List Pod) (v : String)
    (hex : ∃ q ∈ pods, env.IsPodReady q = false)
    (hnf : ∀ q ∈ pods, env.IsPodReady q = false → (env.IsPodFaulty q).1 = false) :
    checkUpdatedPods env pods v = (false, none) := by
  induction pods with
  | nil => simp at hex
  | cons a pods ih =>
    by_cases ha : env.IsPodReady a = true
    · obtain ⟨q, hq, hr⟩ := hex
      rcases List.mem_cons.1 hq with rfl | hq
      · simp [ha] at hr
      · simpa [checkUpdatedPods, ha] using
          ih ⟨q, hq, hr⟩ (fun q' hq' => hnf q' (List.mem_cons_of_mem _ hq'))
    · simp only [Bool.not_eq_true] at ha
      have hf := hnf a (List.mem_cons_self _ _) ha
      simp [checkUpdatedPods, ha, hf]

theorem checkUpdatedPods_fst_false_of_unready (env : Env) (pods : List Pod) (v : String)
    (hex : ∃ q ∈ pods, env.IsPodReady q = false) :
    (checkUpdatedPods env pods v).1 = false := by
  by_contra h
  simp only [Bool.not_eq_false] at h
  obtain ⟨q, hq, hr⟩ := hex
  simp [checkUpdatedPods_ready env pods v h q hq] at hr

theorem getStsPodsWithVersion_ok (env : Env) (s : State) (sts : StatefulSet) (v : String)
    (pods : List Pod) (h : (getStsPodsWithVersion env s sts v).1 = .ok pods) :
    ∃ sel items, env.LabelSelectorAsSelector sts.Spec.Template.Labels = .ok sel ∧
      env.listPods sts.Namespace sel = .ok items ∧
      pods = appendPodsWithVersion env v items [] := by
  unfold getStsPodsWithVersion at h
  split at h
  · simp at h
  · rename_i sel hsel
    unfold getPodsWithVersion at h
    simp only [] at h
    split at h
    · simp at h
    · rename_i items hitems
      exact ⟨sel, items, hsel, hitems, by simpa using h.symm⟩

theorem getOneOutdatedPod_ok (env : Env) (s : State) (sts : StatefulSet) (v : String)
    (o : Option Pod) (h : (getOneOutdatedPod env s sts v).1 = .ok o) :
    ∃ sel items, env.LabelSelectorAsSelector sts.Spec.Template.Labels = .ok sel ∧
      env.listPods sts.Namespace sel = .ok items ∧
      o = firstOutdatedPod env v items := by
  unfold getOneOutdatedPod at h
  split at h
  · simp at h
  · rename_i sel hsel
    simp only [] at h
    split at h
    · simp at h
    · rename_i items hitems
      exact ⟨sel, items, hsel, hitems, by simpa using h.symm⟩

theorem getStsPodsWithVersion_of_ok (env : Env) (s : State) (sts : StatefulSet) (v : String)
    (sel : Selector) (items : List Pod)
    (hsel : env.LabelSelectorAsSelector sts.Spec.Template.Labels = .ok sel)
    (hlist : env.listPods sts.Namespace sel = .ok items) :
    getStsPodsWithVersion env s sts v =
      (.ok (appendPodsWithVersion env v items []), s.log (.listPods sts.Namespace sel)) := by
  simp [getStsPodsWithVersion, getPodsWithVersion, hsel, hlist]

theorem getOneOutdatedPod_of_ok (env : Env) (s : State) (sts : StatefulSet) (v : String)
    (sel : Selector) (items : List Pod)
    (hsel : env.LabelSelectorAsSelector sts.Spec.Template.Labels = .ok sel)
    (hlist : env.listPods sts.Namespace sel = .ok items) :
    getOneOutdatedPod env s sts v =
      (.ok (firstOutdatedPod env v items), s.log (.listPods sts.Namespace sel)) := by
  simp [getOneOutdatedPod, hsel, hlist]

/-! ### Pacing and the health gate of a StatefulSet-shaped driver -/

set_option maxHeartbeats 2000000 in
theorem stsStep_deletions (env : Env) (t : StsTier) (s : State) :
    deletions (newEvents s (stsStep env t s).2) = [] ∨
    ∃ sts sel items pod,
      env.getStatefulSet s.p.Namespace (t.workloadName s.p.Name) = .ok sts ∧
      env.LabelSelectorAsSelector sts.Spec.Template.Labels = .ok sel ∧
      env.listPods sts.Namespace sel = .ok items ∧
      (checkUpdatedPods env (appendPodsWithVersion env s.p.Status.TargetVersion items [])
        s.p.Status.TargetVersion).1 = true ∧
      firstOutdatedPod env s.p.Status.TargetVersion items = some pod ∧
      deletions (newEvents s (stsStep env t s).2) = [pod] ∧
      (stsStep env t s).1 = .ret (false, env.writeErr (.deletePod pod)) := by
  unfold stsStep
  simp only []
  repeat' split
  all_goals first
    | (left; simp [newEvents]; done)
    | skip
  all_goals
    obtain ⟨sel, items, hsel, hlist, hpods⟩ := getStsPodsWithVersion_ok _ _ _ _ _
      ‹(getStsPodsWithVersion _ _ _ _).1 = Except.ok _›
    obtain ⟨sel', items', hsel', hlist', hfirst⟩ := getOneOutdatedPod_ok _ _ _ _ _
      ‹(getOneOutdatedPod _ _ _ _).1 = Except.ok (some _)›
    rw [hsel] at hsel'
    cases hsel'
    rw [hlist] at hlist'
    cases hlist'
    have hready := ‹(checkUpdatedPods _ _ _).1 = true›
    have hget := ‹env.getStatefulSet _ _ = Except.ok _›
    have hdel := ‹env.writeErr (Event.deletePod _) = _›
    subst hpods
    simp only [getStsPodsWithVersion_p, getOneOutdatedPod_p, State.log_p,
      checkUpgradeCondition_frame] at hready hfirst hget
    refine Or.inr ⟨_, sel, items, _, hget, hsel, hlist, hready, hfirst.symm, ?_, ?_⟩
    · simp [newEvents, listCalls_of_ok env _ _ sel hsel]
    · simp [hdel]

set_option maxHeartbeats 2000000 in
theorem stsStep_gate (env : Env) (t : StsTier) (s : State) (sts : StatefulSet) (img : String)
    (c0 : Container) (cs : List Container) (sel : Selector) (items : List Pod)
    (hget : env.getStatefulSet s.p.Namespace (t.workloadName s.p.Name) = .ok sts)
    (himg : t.targetImage s.p = .ok img)
    (hcont : sts.Spec.Template.Spec.Containers = c0 :: cs)
    (hmatch : c0.Image = img)
    (hconv : ¬ (sts.Status.UpdatedReplicas = sts.Status.Replicas ∧
      sts.Status.UpdatedReplicas = sts.Status.ReadyReplicas))
    (hw : (checkUpgradeCondition env s.p t.reason sts.Status.UpdatedReplicas).1 = .ret none)
    (hsel : env.LabelSelectorAsSelector sts.Spec.Template.Labels = .ok sel)
    (hlist : env.listPods sts.Namespace sel = .ok items) :
    ((stsStep env t s).1 =
      match (checkUpdatedPods env
          (appendPodsWithVersion env s.p.Status.TargetVersion items [])
          s.p.Status.TargetVersion).2 with
      | some err => .ret (false, some err)
      | none =>
        if (checkUpdatedPods env
            (appendPodsWithVersion env s.p.Status.TargetVersion items [])
            s.p.Status.TargetVersion).1 = true then
          match firstOutdatedPod env s.p.Status.TargetVersion items with
          | none => .ret (false, some "could not obtain outdated pod")
          | some pod => .ret (false, env.writeErr (.deletePod pod))
        else .ret (false, none)) ∧
    deletions (newEvents s (stsStep env t s).2) =
      if (checkUpdatedPods env
            (appendPodsWithVersion env s.p.Status.TargetVersion items [])
            s.p.Status.TargetVersion) = (true, none) then
        (firstOutdatedPod env s.p.Status.TargetVersion items).toList
      else [] := by
  unfold stsStep
  simp only [State.log_p, hget, himg, hcont, hmatch, ne_eq, not_true_eq_false, if_false,
    hconv, hw, getStsPodsWithVersion_of_ok env _ sts _ sel items hsel hlist,
    getOneOutdatedPod_of_ok env _ sts _ sel items hsel hlist, checkUpgradeCondition_frame]
  generalize checkUpdatedPods env
    (appendPodsWithVersion env s.p.Status.TargetVersion items []) s.p.Status.TargetVersion = c
  obtain ⟨c1, c2⟩ := c
  cases c2 with
  | some err => simp [newEvents]
  | none =>
    cases c1 with
    | false => simp [newEvents]
    | true =>
      cases hf : firstOutdatedPod env s.p.Status.TargetVersion items with
      | none => simp [newEvents]
      | some pod => cases hd : env.writeErr (.deletePod pod) <;> simp [newEvents, hd]

theorem stsStep_pacing (env : Env) (t : StsTier) (s : State) :
    (deletions (newEvents s (stsStep env t s).2)).length ≤ 1 ∧
    ∀ (sts : StatefulSet) (img : String) (c0 : Container) (cs : List Container)
      (sel : Selector) (items : List Pod),
      env.getStatefulSet s.p.Namespace (t.workloadName s.p.Name) = .ok sts →
      t.targetImage s.p = .ok img →
      sts.Spec.Template.Spec.Containers = c0 :: cs →
      c0.Image = img →
      ¬ (sts.Status.UpdatedReplicas = sts.Status.Replicas ∧
        sts.Status.UpdatedReplicas = sts.Status.ReadyReplicas) →
      (checkUpgradeCondition env s.p t.reason sts.Status.UpdatedReplicas).1 = .ret none →
      env.LabelSelectorAsSelector sts.Spec.Template.Labels = .ok sel →
      env.listPods sts.Namespace sel = .ok items →
      (∀ q ∈ items, env.GetPodVersion q = s.p.Status.TargetVersion →
        env.IsPodReady q = true) →
      (∃ q ∈ items, env.GetPodVersion q ≠ s.p.Status.TargetVersion) →
      ∃ pod, pod ∈ items ∧ env.GetPodVersion pod ≠ s.p.Status.TargetVersion ∧
        firstOutdatedPod env s.p.Status.TargetVersion items = some pod ∧
        deletions (newEvents s (stsStep env t s).2) = [pod] ∧
        (stsStep env t s).1 = .ret (false, env.writeErr (.deletePod pod)) := by
  constructor
  · rcases stsStep_deletions env t s with h | ⟨_, _, _, pod, _, _, _, _, _, h, _⟩ <;> simp [h]
  · intro sts img c0 cs sel items hget himg hcont hmatch hconv hw hsel hlist hready hex
    obtain ⟨hres, hdel⟩ := stsStep_gate env t s sts img c0 cs sel items hget himg hcont hmatch
      hconv hw hsel hlist
    have hc : checkUpdatedPods env
        (appendPodsWithVersion env s.p.Status.TargetVersion items [])
        s.p.Status.TargetVersion = (true, none) := by
      apply checkUpdatedPods_of_ready
      intro q hq
      rw [appendPodsWithVersion_eq_filter] at hq
      simp only [List.nil_append, List.mem_filter, decide_eq_true_eq] at hq
      exact hready q hq.1 hq.2
    obtain ⟨pod, hpod⟩ := firstOutdatedPod_isSome env _ items hex
    obtain ⟨hmem, hver⟩ := firstOutdatedPod_some env _ items pod hpod
    refine ⟨pod, hmem, hver, hpod, ?_, ?_⟩
    · rw [hdel, hc, hpod]
      simp
    · rw [hres, hc, hpod]
      simp

theorem stsStep_healthGate (env : Env) (t : StsTier) (s : State) :
    (∀ pod ∈ deletions (newEvents s (stsStep env t s).2),
      ∃ sts sel items,
        env.getStatefulSet s.p.Namespace (t.workloadName s.p.Name) = .ok sts ∧
        env.LabelSelectorAsSelector sts.Spec.Template.Labels = .ok sel ∧
        env.listPods sts.Namespace sel = .ok items ∧
        ∀ q ∈ items, env.GetPodVersion q = s.p.Status.TargetVersion →
          env.IsPodReady q = true) ∧
    (∀ (sts : StatefulSet) (sel : Selector) (items : List Pod),
      env.getStatefulSet s.p.Namespace (t.workloadName s.p.Name) = .ok sts →
      env.LabelSelectorAsSelector sts.Spec.Template.Labels = .ok sel →
      env.listPods sts.Namespace sel = .ok items →
      (∃ q ∈ items, env.GetPodVersion q = s.p.Status.TargetVersion ∧
        env.IsPodReady q = false) →
      deletions (newEvents s (stsStep env t s).2) = []) ∧
    (∀ (sts : StatefulSet) (img : String) (c0 : Container) (cs : List Container)
      (sel : Selector) (items : List Pod),
      env.getStatefulSet s.p.Namespace (t.workloadName s.p.Name) = .ok sts →
      t.targetImage s.p = .ok img →
      sts.Spec.Template.Spec.Containers = c0 :: cs →
      c0.Image = img →
      ¬ (sts.Status.UpdatedReplicas = sts.Status.Replicas ∧
        sts.Status.UpdatedReplicas = sts.Status.ReadyReplicas) →
      (checkUpgradeCondition env s.p t.reason sts.Status.UpdatedReplicas).1 = .ret none →
      env.LabelSelectorAsSelector sts.Spec.Template.Labels = .ok sel →
      env.listPods sts.Namespace sel = .ok items →
      (∃ q ∈ items, env.GetPodVersion q = s.p.Status.TargetVersion ∧
        env.IsPodReady q = false) →
      (∀ q ∈ items, env.GetPodVersion q = s.p.Status.TargetVersion →
        env.IsPodReady q = false → (env.IsPodFaulty q).1 = false) →
      (stsStep env t s).1 = .ret (false, none) ∧
        deletions (newEvents s (stsStep env t s).2) = []) := by
  have part1 : ∀ pod ∈ deletions (newEvents s (stsStep env t s).2),
      ∃ sts sel items,
        env.getStatefulSet s.p.Namespace (t.workloadName s.p.Name) = .ok sts ∧
        env.LabelSelectorAsSelector sts.Spec.Template.Labels = .ok sel ∧
        env.listPods sts.Namespace sel = .ok items ∧
        ∀ q ∈ items, env.GetPodVersion q = s.p.Status.TargetVersion →
          env.IsPodReady q = true := by
    intro pod hpod
    rcases stsStep_deletions env t s with h | ⟨sts, sel, items, _, hget, hsel, hlist, hc, _, _, _⟩
    · simp [h] at hpod
    · refine ⟨sts, sel, items, hget, hsel, hlist, ?_⟩
      intro q hq hv
      apply checkUpdatedPods_ready env _ _ hc q
      rw [appendPodsWithVersion_eq_filter]
      simp [hq, hv]
  refine ⟨part1, ?_, ?_⟩
  · intro sts sel items hget hsel hlist ⟨q, hq, hv, hr⟩
    cases hd : deletions (newEvents s (stsStep env t s).2) with
    | nil => rfl
    | cons pod rest =>
      obtain ⟨sts', sel', items', hget', hsel', hlist', hall⟩ := part1 pod (by simp [hd])
      rw [hget] at hget'
      cases hget'
      rw [hsel] at hsel'
      cases hsel'
      rw [hlist] at hlist'
      cases hlist'
      simp [hall q hq hv] at hr
  · intro sts img c0 cs sel items hget himg hcont hmatch hconv hw hsel hlist ⟨q, hq, hv, hr⟩ hnf
    obtain ⟨hres, hdel⟩ := stsStep_gate env t s sts img c0 cs sel items hget himg hcont hmatch
      hconv hw hsel hlist
    have hc : checkUpdatedPods env
        (appendPodsWithVersion env s.p.Status.TargetVersion items [])
        s.p.Status.TargetVersion = (false, none) := by
      apply checkUpdatedPods_wait
      · refine ⟨q, ?_, hr⟩
        rw [appendPodsWithVersion_eq_filter]
        simp [hq, hv]
      · intro q' hq' hr'
        rw [appendPodsWithVersion_eq_filter] at hq'
        simp only [List.nil_append, List.mem_filter, decide_eq_true_eq] at hq'
        exact hnf q' hq'.1 hq'.2 hr'
    constructor
    · rw [hres, hc]
      simp
    · rw [hdel, hc]
      simp

/-- C5, as stated, fails: the template matches the target image, the replica
counts are not converged, the watchdog reports no stall, the only pod at the
target version is ready and one listed pod is outdated, so exactly one deletion
is issued, for the outdated pod; but the platform refuses it, and the driver
returns that error instead of `(false, nil)`. -/
theorem syncSegmentStoreVersion_returns_deletion_error :
    (deleteRefusedEnv (sampleSts 2 1 1) [readyPod, oldPod]).getStatefulSet "default"
      "pravega-pravega-segmentstore" = .ok (sampleSts 2 1 1) ∧
    (deleteRefusedEnv (sampleSts 2 1 1) [readyPod, oldPod]).PravegaTargetImage upgradingCluster =
      .ok "pravega/pravega:2.0" ∧
    (sampleSts 2 1 1).Spec.Template.Spec.Containers = [{ Image := "pravega/pravega:2.0" }] ∧
    (checkUpgradeCondition (deleteRefusedEnv (sampleSts 2 1 1) [readyPod, oldPod])
      upgradingCluster "Upgrading Segmentstore" 1).1 = .ret none ∧
    (deleteRefusedEnv (sampleSts 2 1 1) [readyPod, oldPod]).listPods "default"
      { Requirements := [("component", "pravega-segmentstore")] } = .ok [readyPod, oldPod] ∧
    readyPod.Version = upgradingCluster.Status.TargetVersion ∧ readyPod.Ready = true ∧
    oldPod.Version ≠ upgradingCluster.Status.TargetVersion ∧
    deletions (newEvents (startOf upgradingCluster)
      (syncSegmentStoreVersion (deleteRefusedEnv (sampleSts 2 1 1) [readyPod, oldPod])
        (startOf upgradingCluster)).2) = [oldPod] ∧
    (syncSegmentStoreVersion (deleteRefusedEnv (sampleSts 2 1 1) [readyPod, oldPod])
      (startOf upgradingCluster)).1 =
      .ret (false, some "the server is currently unable to handle the request") ∧
    (syncSegmentStoreVersion (deleteRefusedEnv (sampleSts 2 1 1) [readyPod, oldPod])
      (startOf upgradingCluster)).1 ≠ .ret (false, none) := by
  decide

/-- C5, amended. In one tick of a StatefulSet-shaped driver at most one pod
deletion is issued. When the workload was read, its template image equals the
target image, the replica counts are not converged, the watchdog reports no
stall, the pods were listed, every listed pod at the target version is ready
and some listed pod is not at the target version, then exactly one deletion is
issued, for the first listed pod not at the target version, and the driver
returns `(false, err)` where `err` is the platform's answer to that deletion:
`(false, nil)` when the deletion is accepted. -/
theorem sts_driver_pacing (env : Env) (s : State)
    (d : StsTier × (State → DriverResult × State)) (hd : d ∈ stsDrivers env) :
    (deletions (newEvents s (d.2 s).2)).length ≤ 1 ∧
    ∀ (sts : StatefulSet) (img : String) (c0 : Container) (cs : List Container)
      (sel : Selector) (items : List Pod),
      env.getStatefulSet s.p.Namespace (d.1.workloadName s.p.Name) = .ok sts →
      d.1.targetImage s.p = .ok img →
      sts.Spec.Template.Spec.Containers = c0 :: cs →
      c0.Image = img →
      ¬ (sts.Status.UpdatedReplicas = sts.Status.Replicas ∧
        sts.Status.UpdatedReplicas = sts.Status.ReadyReplicas) →
      (checkUpgradeCondition env s.p d.1.reason sts.Status.UpdatedReplicas).1 = .ret none →
      env.LabelSelectorAsSelector sts.Spec.Template.Labels = .ok sel →
      env.listPods sts.Namespace sel = .ok items →
      (∀ q ∈ items, env.GetPodVersion q = s.p.Status.TargetVersion →
        env.IsPodReady q = true) →
      (∃ q ∈ items, env.GetPodVersion q ≠ s.p.Status.TargetVersion) →
      ∃ pod, pod ∈ items ∧ env.GetPodVersion pod ≠ s.p.Status.TargetVersion ∧
        firstOutdatedPod env s.p.Status.TargetVersion items = some pod ∧
        deletions (newEvents s (d.2 s).2) = [pod] ∧
        (d.2 s).1 = .ret (false, env.writeErr (.deletePod pod)) := by
  simp only [stsDrivers, List.mem_cons, List.mem_singleton, List.not_mem_nil, or_false] at hd
  rcases hd with rfl | rfl
  · exact stsStep_pacing env (bookieTier env) s
  · exact stsStep_pacing env (segmentStoreTier env) s

/-- Witness for C5 amended: with one ready pod at 2.0 and one pod still at
1.0, the segment-store driver deletes the old pod and returns `(false, nil)`. -/
theorem sts_driver_pacing_witness :
    deletions (newEvents (startOf upgradingCluster)
      (syncSegmentStoreVersion (rolloutEnv (sampleSts 2 1 1) [readyPod, oldPod])
        (startOf upgradingCluster)).2) = [oldPod] ∧
    (syncSegmentStoreVersion (rolloutEnv (sampleSts 2 1 1) [readyPod, oldPod])
      (startOf upgradingCluster)).1 = .ret (false, none) := by
  obtain ⟨pod, _, _, hfirst, hdel, hres⟩ :=
    (sts_driver_pacing (rolloutEnv (sampleSts 2 1 1) [readyPod, oldPod])
      (startOf upgradingCluster)
      (segmentStoreTier (rolloutEnv (sampleSts 2 1 1) [readyPod, oldPod]),
        syncSegmentStoreVersion (rolloutEnv (sampleSts 2 1 1) [readyPod, oldPod]))
      (by simp [stsDrivers])).2
      (sampleSts 2 1 1) "pravega/pravega:2.0" { Image := "pravega/pravega:2.0" } []
      { Requirements := [("component", "pravega-segmentstore")] } [readyPod, oldPod]
      (by decide) (by decide) (by decide) (by decide) (by decide) (by decide) (by decide)
      (by decide) (by decide) ⟨oldPod, by decide, by decide⟩
  have hp : pod = oldPod := by
    have : firstOutdatedPod (rolloutEnv (sampleSts 2 1 1) [readyPod, oldPod])
        (startOf upgradingCluster).p.Status.TargetVersion [readyPod, oldPod] = some oldPod := by
      decide
    rw [this] at hfirst
    exact (Option.some.inj hfirst).symm
  subst hp
  exact ⟨hdel, hres⟩

/-- C6, as stated, fails: `slowPod` carries the target version and is
unready and not faulty, yet the segment-store driver returns an error, not
`(false, nil)`, because the faulty pod listed before it decides. -/
theorem syncSegmentStoreVersion_error_despite_slow_pod :
    (rolloutEnv (sampleSts 3 2 0) [faultyPod, slowPod, oldPod]).listPods "default"
      { Requirements := [("component", "pravega-segmentstore")] } =
      .ok [faultyPod, slowPod, oldPod] ∧
    (rolloutEnv (sampleSts 3 2 0) [faultyPod, slowPod, oldPod]).GetPodVersion slowPod =
      upgradingCluster.Status.TargetVersion ∧
    (rolloutEnv (sampleSts 3 2 0) [faultyPod, slowPod, oldPod]).IsPodReady slowPod = false ∧
    ((rolloutEnv (sampleSts 3 2 0) [faultyPod, slowPod, oldPod]).IsPodFaulty slowPod).1 = false ∧
    (syncSegmentStoreVersion (rolloutEnv (sampleSts 3 2 0) [faultyPod, slowPod, oldPod])
      (startOf upgradingCluster)).1 =
      .ret (false,
        some "pod pravega-pravega-segmentstore-0 update failed because of CrashLoopBackOff") ∧
    (syncSegmentStoreVersion (rolloutEnv (sampleSts 3 2 0) [faultyPod, slowPod, oldPod])
      (startOf upgradingCluster)).1 ≠ .ret (false, none) := by
  decide

/-- C6, amended. A StatefulSet-shaped driver issues a pod deletion only if the
workload was read, its pods were listed and every listed pod that carries the
target version is ready; so when some listed pod at the target version is
unready, no deletion is issued. When moreover the driver reaches the health
gate (template image equal to the target image, replica counts not converged,
no stall reported) and none of the unready pods at the target version is
judged faulty, it returns `(false, nil)`. -/
theorem sts_driver_health_gate (env : Env) (s : State)
    (d : StsTier × (State → DriverResult × State)) (hd : d ∈ stsDrivers env) :
    (∀ pod ∈ deletions (newEvents s (d.2 s).2),
      ∃ sts sel items,
        env.getStatefulSet s.p.Namespace (d.1.workloadName s.p.Name) = .ok sts ∧
        env.LabelSelectorAsSelector sts.Spec.Template.Labels = .ok sel ∧
        env.listPods sts.Namespace sel = .ok items ∧
        ∀ q ∈ items, env.GetPodVersion q = s.p.Status.TargetVersion →
          env.IsPodReady q = true) ∧
    (∀ (sts : StatefulSet) (sel : Selector) (items : List Pod),
      env.getStatefulSet s.p.Namespace (d.1.workloadName s.p.Name) = .ok sts →
      env.LabelSelectorAsSelector sts.Spec.Template.Labels = .ok sel →
      env.listPods sts.Namespace sel = .ok items →
      (∃ q ∈ items, env.GetPodVersion q = s.p.Status.TargetVersion ∧
        env.IsPodReady q = false) →
      deletions (newEvents s (d.2 s).2) = []) ∧
    (∀ (sts : StatefulSet) (img : String) (c0 : Container) (cs : List Container)
      (sel : Selector) (items : List Pod),
      env.getStatefulSet s.p.Namespace (d.1.workloadName s.p.Name) = .ok sts →
      d.1.targetImage s.p = .ok img →
      sts.Spec.Template.Spec.Containers = c0 :: cs →
      c0.Image = img →
      ¬ (sts.Status.UpdatedReplicas = sts.Status.Replicas ∧
        sts.Status.UpdatedReplicas = sts.Status.ReadyReplicas) →
      (checkUpgradeCondition env s.p d.1.reason sts.Status.UpdatedReplicas).1 = .ret none →
      env.LabelSelectorAsSelector sts.Spec.Template.Labels = .ok sel →
      env.listPods sts.Namespace sel = .ok items →
      (∃ q ∈ items, env.GetPodVersion q = s.p.Status.TargetVersion ∧
        env.IsPodReady q = false) →
      (∀ q ∈ items, env.GetPodVersion q = s.p.Status.TargetVersion →
        env.IsPodReady q = false → (env.IsPodFaulty q).1 = false) →
      (d.2 s).1 = .ret (false, none) ∧ deletions (newEvents s (d.2 s).2) = []) := by
  simp only [stsDrivers, List.mem_cons, List.mem_singleton, List.not_mem_nil, or_false] at hd
  rcases hd with rfl | rfl
  · exact stsStep_healthGate env (bookieTier env) s
  · exact stsStep_healthGate env (segmentStoreTier env) s

/-- Witness for C6 amended: with a slow pod at 2.0 and an old pod listed, the
segment-store driver waits: it returns `(false, nil)` and deletes nothing. -/
theorem sts_driver_health_gate_witness :
    (syncSegmentStoreVersion (rolloutEnv (sampleSts 3 2 0) [slowPod, oldPod])
      (startOf upgradingCluster)).1 = .ret (false, none) ∧
    deletions (newEvents (startOf upgradingCluster)
      (syncSegmentStoreVersion (rolloutEnv (sampleSts 3 2 0) [slowPod, oldPod])
        (startOf upgradingCluster)).2) = [] :=
  (sts_driver_health_gate (rolloutEnv (sampleSts 3 2 0) [slowPod, oldPod])
    (startOf upgradingCluster)
    (segmentStoreTier (rolloutEnv (sampleSts 3 2 0) [slowPod, oldPod]),
      syncSegmentStoreVersion (rolloutEnv (sampleSts 3 2 0) [slowPod, oldPod]))
    (by simp [stsDrivers])).2.2
    (sampleSts 3 2 0) "pravega/pravega:2.0" { Image := "pravega/pravega:2.0" } []
    { Requirements := [("component", "pravega-segmentstore")] } [slowPod, oldPod]
    (by decide) (by decide) (by decide) (by decide) (by decide) (by decide) (by decide)
    (by decide) ⟨slowPod, by decide, by decide, by decide⟩ (by decide)

/-! ### The synchronizer -/

theorem clearUpgradeStatus_p (env : Env) (s : State) :
    (clearUpgradeStatus env s).2.p =
      { s.p with
        Spec := { Version := s.p.Status.CurrentVersion }
        Status := { s.p.Status.SetUpgradingConditionFalse env with TargetVersion := "" } } := by
  unfold clearUpgradeStatus
  simp only []
  split <;> rfl

theorem clearUpgradeStatus_trace (env : Env) (s : State) :
    (clearUpgradeStatus env s).2.trace = s.trace ++ [.updateCluster (clearUpgradeStatus env s).2.p] := by
  rw [clearUpgradeStatus_p]
  unfold clearUpgradeStatus
  simp only []
  split <;> rfl

theorem StatusEffect.isUpgrading {env : Env} {p p' : PravegaCluster}
    (h : StatusEffect env p p') (hu : p.Status.isUpgrading = true) :
    p'.Status.isUpgrading = true := by
  rcases h with h | ⟨r, m, h⟩ <;> subst h
  · exact hu
  · simp

theorem syncComponentsLoop_isUpgrading (env : Env) (cs : List componentSyncVersionFun)
    (hs : ∀ c ∈ cs, ∀ st : State, StatusEffect env st.p (c.fn st).2.p) (s : State)
    (hu : s.p.Status.isUpgrading = true) :
    (syncComponentsLoop cs s).2.p.Status.isUpgrading = true := by
  induction cs generalizing s with
  | nil => simpa [syncComponentsLoop, ClusterStatus.isUpgrading,
      ClusterStatus.GetClusterCondition] using hu
  | cons c rest ih =>
    have h1 := (hs c (List.mem_cons_self _ _) (s.log (.invoke c.name))).isUpgrading hu
    have ih' := ih (fun c' hc' => hs c' (List.mem_cons_of_mem _ hc'))
    rw [syncComponentsLoop]
    simp only []
    cases hr : (c.fn (s.log (.invoke c.name))).1 with
    | panic => exact h1
    | ret a =>
      obtain ⟨synced, err⟩ := a
      cases err with
      | some e => exact h1
      | none =>
        cases synced with
        | false => exact h1
        | true => exact ih' _ h1

theorem syncComponentsLoop_error (env : Env) (cs : List componentSyncVersionFun)
    (hs : ∀ c ∈ cs, ∀ st : State, StatusEffect env st.p (c.fn st).2.p) (s : State)
    (err : String) (he : (syncComponentsLoop cs s).1 = .ret (some err)) :
    (syncComponentsLoop cs s).2.p.Status.CurrentVersion = s.p.Status.CurrentVersion := by
  induction cs generalizing s with
  | nil => simp [syncComponentsLoop] at he
  | cons c rest ih =>
    obtain ⟨-, v2, -⟩ := (hs c (List.mem_cons_self _ _) (s.log (.invoke c.name))).versions
    have ih' := ih (fun c' hc' => hs c' (List.mem_cons_of_mem _ hc'))
    rw [syncComponentsLoop] at he ⊢
    simp only [] at he ⊢
    cases hr : (c.fn (s.log (.invoke c.name))).1 with
    | panic => simp [hr] at he
    | ret a =>
      obtain ⟨synced, e⟩ := a
      cases e with
      | some e => simpa using v2
      | none =>
        cases synced with
        | false => simpa using v2
        | true =>
          simp only [hr] at he
          have := ih' _ he
          simpa [v2] using this

theorem syncComponentsLoop_frame (env : Env) (cs : List componentSyncVersionFun)
    (hs : ∀ c ∈ cs, ∀ st : State, StatusEffect env st.p (c.fn st).2.p) (s : State) :
    (syncComponentsLoop cs s).2.p.Name = s.p.Name ∧
    (syncComponentsLoop cs s).2.p.Namespace = s.p.Namespace ∧
    (syncComponentsLoop cs s).2.p.Spec = s.p.Spec := by
  induction cs generalizing s with
  | nil => simp [syncComponentsLoop]
  | cons c rest ih =>
    obtain ⟨-, -, v3, v4, v5⟩ :=
      (hs c (List.mem_cons_self _ _) (s.log (.invoke c.name))).versions
    have ih' := ih (fun c' hc' => hs c' (List.mem_cons_of_mem _ hc'))
    simp only [State.log_p] at v3 v4 v5
    rw [syncComponentsLoop]
    simp only []
    cases hr : (c.fn (s.log (.invoke c.name))).1 with
    | panic => exact ⟨v4, v5, v3⟩
    | ret a =>
      obtain ⟨synced, e⟩ := a
      cases e with
      | some e => exact ⟨v4, v5, v3⟩
      | none =>
        cases synced with
        | false => exact ⟨v4, v5, v3⟩
        | true =>
          have := ih' ((c.fn (s.log (.invoke c.name))).2.log (.returned c.name true none))
          simpa [v3, v4, v5] using this

theorem syncComponentsVersion_target (env : Env) (s : State) :
    (syncComponentsVersion env s).2.p.Status.TargetVersion = s.p.Status.TargetVersion := by
  obtain ⟨_, _, ht, _⟩ := syncComponentsLoop_versions env (components env)
    (components_calls env) (components_statusEffect env)
    (by rw [components_names]; decide) s
  exact ht

/-- C7 (upgrade start). When the `Upgrading` condition exists and is not
true, the declared version differs from the current version and `PodsReady` is
true, one `syncClusterVersion` tick returns no error, sets `targetVersion` to
the declared version and `Upgrading` to true with empty reason and message,
leaves the current and the declared version unchanged, and issues nothing but
the deferred status write: no tier driver is invoked. -/
theorem syncClusterVersion_starts_upgrade (env : Env) (s : State) (c r : ClusterCondition)
    (hu : s.p.Status.GetClusterCondition .ClusterConditionUpgrading = some c)
    (hnt : c.Status ≠ .ConditionTrue)
    (hv : s.p.Spec.Version ≠ s.p.Status.CurrentVersion)
    (hr : s.p.Status.GetClusterCondition .ClusterConditionPodsReady = some r)
    (hrt : r.Status = .ConditionTrue) :
    (syncClusterVersion env s).1 = .ret none ∧
    (syncClusterVersion env s).2.p.Status.TargetVersion = s.p.Spec.Version ∧
    (∃ u, (syncClusterVersion env s).2.p.Status.GetClusterCondition
        .ClusterConditionUpgrading = some u ∧
      u.Status = .ConditionTrue ∧ u.Reason = "" ∧ u.Message = "") ∧
    (syncClusterVersion env s).2.p.Status.CurrentVersion = s.p.Status.CurrentVersion ∧
    (syncClusterVersion env s).2.p.Spec.Version = s.p.Spec.Version ∧
    newEvents s (syncClusterVersion env s).2 =
      [.updateStatus (syncClusterVersion env s).2.p] ∧
    (newEvents s (syncClusterVersion env s).2).filterMap Event.invoked = [] := by
  have hbody : syncClusterVersionBody env s =
      (.ret none, (s.setStatus { s.p.Status with TargetVersion := s.p.Spec.Version }).setStatus
        (({ s.p.Status with TargetVersion := s.p.Spec.Version } :
          ClusterStatus).SetUpgradingConditionTrue env "" "")) := by
    simp [syncClusterVersionBody, hu, hnt, hv, hr, hrt]
  simp only [syncClusterVersion, hbody, State.log_p, State.setStatus_p, newEvents,
    State.log_trace, State.setStatus_trace, List.drop_left, List.filterMap_cons,
    List.filterMap_nil, Event.invoked]
  refine ⟨trivial, ?_, ?_, ?_, trivial, trivial, trivial⟩
  · simp
  · exact get_SetUpgradingConditionTrue _ env "" ""
  · simp

/-- Witness for C7: declared version 2.0, current version 1.0, `PodsReady`
true and no upgrade in progress. -/
theorem syncClusterVersion_starts_upgrade_witness :
    (syncClusterVersion sampleEnv (startOf idleCluster)).1 = .ret none ∧
    (syncClusterVersion sampleEnv (startOf idleCluster)).2.p.Status.TargetVersion = "2.0" ∧
    (syncClusterVersion sampleEnv (startOf idleCluster)).2.p.Status.isUpgrading = true ∧
    (syncClusterVersion sampleEnv (startOf idleCluster)).2.p.Status.CurrentVersion = "1.0" ∧
    (syncClusterVersion sampleEnv (startOf idleCluster)).2.p.Spec.Version = "2.0" :=
  have h := syncClusterVersion_starts_upgrade sampleEnv (startOf idleCluster)
    (sampleCondition .ClusterConditionUpgrading .ConditionFalse "" "")
    (sampleCondition .ClusterConditionPodsReady .ConditionTrue "" "")
    (by decide) (by decide) (by decide) (by decide) (by decide)
  ⟨h.1, h.2.1, by decide, h.2.2.2.1, h.2.2.2.2.1⟩

theorem isUpgrading_of_get {ps : ClusterStatus} {c : ClusterCondition}
    (h : ps.GetClusterCondition .ClusterConditionUpgrading = some c) :
    ps.isUpgrading = decide (c.Status = .ConditionTrue) := by
  simp [ClusterStatus.isUpgrading, h]

theorem StatusInvariant.of_idle {ps : ClusterStatus} (hu : ps.isUpgrading = false)
    (ht : ps.TargetVersion = "") : StatusInvariant ps := by
  simp [StatusInvariant, hu, ht]

theorem StatusInvariant.of_upgrading {ps : ClusterStatus} (hu : ps.isUpgrading = true)
    (ht : ps.TargetVersion ≠ "") : StatusInvariant ps := by
  simp [StatusInvariant, hu, ht]

theorem clearUpgradeStatus_invariant (env : Env) (s : State) :
    StatusInvariant (clearUpgradeStatus env s).2.p.Status := by
  rw [clearUpgradeStatus_p]
  exact StatusInvariant.of_idle (isUpgrading_SetUpgradingConditionFalse s.p.Status env) rfl

/-- C8, as stated, fails: a cluster whose declared version is the empty
string, with no upgrade in progress and `PodsReady` true, satisfies the status
invariant; after one tick `Upgrading` is true while `targetVersion` is still
empty. -/
theorem syncClusterVersion_breaks_invariant_on_empty_declared_version :
    StatusInvariant (startOf emptyDeclaredCluster).p.Status ∧
    (syncClusterVersion sampleEnv (startOf emptyDeclaredCluster)).2.p.Status.TargetVersion = "" ∧
    (syncClusterVersion sampleEnv (startOf emptyDeclaredCluster)).2.p.Status.isUpgrading
      = true ∧
    ¬ StatusInvariant (syncClusterVersion sampleEnv (startOf emptyDeclaredCluster)).2.p.Status := by
  unfold StatusInvariant
  decide

/-- C8, amended. For every cluster state whose declared version is not the
empty string and every platform state, `syncClusterVersion` preserves the
status invariant "`targetVersion` is non-empty if and only if the `Upgrading`
condition is true". -/
theorem syncClusterVersion_preserves_invariant (env : Env) (s : State)
    (hinv : StatusInvariant s.p.Status) (hd : s.p.Spec.Version ≠ "") :
    StatusInvariant (syncClusterVersion env s).2.p.Status := by
  unfold syncClusterVersion
  simp only [State.log_p]
  unfold syncClusterVersionBody
  split
  · rename_i hnone
    have hu : s.p.Status.isUpgrading = false := by
      simp [ClusterStatus.isUpgrading, hnone]
    have ht : s.p.Status.TargetVersion = "" := by
      by_contra h
      have := hinv.1 h
      simp [hu] at this
    exact StatusInvariant.of_idle (isUpgrading_SetUpgradingConditionFalse s.p.Status env) ht
  · rename_i c hc
    split
    · rename_i hct
      have hu : s.p.Status.isUpgrading = true := by
        simp [isUpgrading_of_get hc, hct]
      have ht : s.p.Status.TargetVersion ≠ "" := hinv.2 hu
      split
      · exact clearUpgradeStatus_invariant env s
      · split
        · exact clearUpgradeStatus_invariant env s
        · have hu' : (syncComponentsVersion env s).2.p.Status.isUpgrading = true :=
            syncComponentsLoop_isUpgrading env _ (components_statusEffect env) s hu
          have ht' := (syncComponentsVersion_target env s)
          simp only []
          split
          · exact StatusInvariant.of_upgrading hu' (by rw [ht']; exact ht)
          · exact clearUpgradeStatus_invariant env _
          · exact StatusInvariant.of_upgrading hu' (by rw [ht']; exact ht)
    · rename_i hct
      have hu : s.p.Status.isUpgrading = false := by
        simp [isUpgrading_of_get hc, hct]
      split
      · exact hinv
      · split
        · exact clearUpgradeStatus_invariant env s
        · split
          · exact clearUpgradeStatus_invariant env s
          · exact StatusInvariant.of_upgrading
              (isUpgrading_SetUpgradingConditionTrue
                { s.p.Status with TargetVersion := s.p.Spec.Version } env "" "") hd

/-- Witness for C8 amended: the tick that starts the upgrade of `idleCluster`
to 2.0 keeps the status invariant. -/
theorem syncClusterVersion_preserves_invariant_witness :
    StatusInvariant (startOf idleCluster).p.Status ∧
    StatusInvariant (syncClusterVersion sampleEnv (startOf idleCluster)).2.p.Status :=
  ⟨by unfold StatusInvariant; decide,
   syncClusterVersion_preserves_invariant sampleEnv (startOf idleCluster)
    (by unfold StatusInvariant; decide) (by decide)⟩

/-- What the cluster resource looks like after `clearUpgradeStatus` ran on a
status whose `Error` condition was just set: the facts shared by the abort
theorems. -/
theorem abort_status (env : Env) (p : PravegaCluster) (err : String) (s : State)
    (hs : s.p = { p with Status := p.Status.SetErrorConditionTrue env "UpgradeFailed" err }) :
    (∃ e, (clearUpgradeStatus env s).2.p.Status.GetClusterCondition .ClusterConditionError
        = some e ∧
      e.Status = .ConditionTrue ∧ e.Reason = "UpgradeFailed" ∧ e.Message = err) ∧
    (∃ u, (clearUpgradeStatus env s).2.p.Status.GetClusterCondition
        .ClusterConditionUpgrading = some u ∧ u.Status = .ConditionFalse) ∧
    (clearUpgradeStatus env s).2.p.Status.TargetVersion = "" ∧
    (clearUpgradeStatus env s).2.p.Spec.Version = p.Status.CurrentVersion ∧
    (clearUpgradeStatus env s).2.p.Status.CurrentVersion = p.Status.CurrentVersion := by
  rw [clearUpgradeStatus_p, hs]
  refine ⟨?_, ?_, rfl, rfl, rfl⟩
  · obtain ⟨e, he, h1, h2, h3⟩ := get_SetErrorConditionTrue p.Status env "UpgradeFailed" err
    refine ⟨e, ?_, h1, h2, h3⟩
    have := get_SetUpgradingConditionFalse_other
      (p.Status.SetErrorConditionTrue env "UpgradeFailed" err) env
      .ClusterConditionError (by decide)
    exact this.trans he
  · obtain ⟨u, hu, h1, _⟩ := get_SetUpgradingConditionFalse
      (p.Status.SetErrorConditionTrue env "UpgradeFailed" err) env
    exact ⟨u, hu, h1⟩

theorem syncClusterVersion_abort_eq (env : Env) (s : State) (c : ClusterCondition)
    (err : String)
    (hu : s.p.Status.GetClusterCondition .ClusterConditionUpgrading = some c)
    (hc : c.Status = .ConditionTrue)
    (ht : s.p.Status.TargetVersion ≠ "")
    (htc : s.p.Status.TargetVersion ≠ s.p.Status.CurrentVersion)
    (herr : (syncComponentsVersion env s).1 = .ret (some err)) :
    syncClusterVersionBody env s =
      (.ret none, (clearUpgradeStatus env ((syncComponentsVersion env s).2.setStatus
        ((syncComponentsVersion env s).2.p.Status.SetErrorConditionTrue env
          "UpgradeFailed" err))).2) := by
  simp [syncClusterVersionBody, hu, hc, ht, htc, herr]

theorem syncClusterVersion_idle (env : Env) (s : State) (u : ClusterCondition)
    (hu : s.p.Status.GetClusterCondition .ClusterConditionUpgrading = some u)
    (hnt : u.Status ≠ .ConditionTrue)
    (hv : s.p.Spec.Version = s.p.Status.CurrentVersion) :
    syncClusterVersion env s = (.ret none, s.log (.updateStatus s.p)) := by
  simp [syncClusterVersion, syncClusterVersionBody, hu, hnt, hv]

/-- C9 (abort without rollback). When `Upgrading` is true, `targetVersion` is
non-empty and differs from `currentVersion`, the orchestrator returns an error
and the platform accepts the spec update, then after `syncClusterVersion` the
`Error` condition is true with reason "UpgradeFailed" and the error text as
message, `Upgrading` is false, `targetVersion` is empty, the declared version
equals the current version, which is unchanged, the spec update carrying that
declared version was issued and accepted, and `syncClusterVersion` itself
returns no error. -/
theorem syncClusterVersion_abort (env : Env) (s : State) (c : ClusterCondition) (err : String)
    (hu : s.p.Status.GetClusterCondition .ClusterConditionUpgrading = some c)
    (hc : c.Status = .ConditionTrue)
    (ht : s.p.Status.TargetVersion ≠ "")
    (htc : s.p.Status.TargetVersion ≠ s.p.Status.CurrentVersion)
    (herr : (syncComponentsVersion env s).1 = .ret (some err))
    (hw : ∀ q, env.writeErr (.updateCluster q) = none) :
    (syncClusterVersion env s).1 = .ret none ∧
    (∃ e, (syncClusterVersion env s).2.p.Status.GetClusterCondition .ClusterConditionError
        = some e ∧
      e.Status = .ConditionTrue ∧ e.Reason = "UpgradeFailed" ∧ e.Message = err) ∧
    (∃ u, (syncClusterVersion env s).2.p.Status.GetClusterCondition
        .ClusterConditionUpgrading = some u ∧ u.Status = .ConditionFalse) ∧
    (syncClusterVersion env s).2.p.Status.TargetVersion = "" ∧
    (syncClusterVersion env s).2.p.Spec.Version =
      (syncClusterVersion env s).2.p.Status.CurrentVersion ∧
    (syncClusterVersion env s).2.p.Status.CurrentVersion = s.p.Status.CurrentVersion ∧
    (∃ q, Event.updateCluster q ∈ (syncClusterVersion env s).2.trace ∧
      q.Spec.Version = s.p.Status.CurrentVersion ∧
      env.writeErr (.updateCluster q) = none) := by
  have hbody := syncClusterVersion_abort_eq env s c err hu hc ht htc herr
  have hcur : (syncComponentsVersion env s).2.p.Status.CurrentVersion =
      s.p.Status.CurrentVersion :=
    syncComponentsLoop_error env _ (components_statusEffect env) s err herr
  obtain ⟨h1, h2, h3, h4, h5⟩ := abort_status env (syncComponentsVersion env s).2.p err
    ((syncComponentsVersion env s).2.setStatus
      ((syncComponentsVersion env s).2.p.Status.SetErrorConditionTrue env "UpgradeFailed" err))
    rfl
  simp only [syncClusterVersion, hbody, State.log_p, State.log_trace]
  refine ⟨trivial, h1, h2, h3, by rw [h4, h5], by rw [h5, hcur], ?_⟩
  refine ⟨(clearUpgradeStatus env ((syncComponentsVersion env s).2.setStatus
    ((syncComponentsVersion env s).2.p.Status.SetErrorConditionTrue env
      "UpgradeFailed" err))).2.p, ?_, ?_, hw _⟩
  · rw [clearUpgradeStatus_trace]
    simp
  · rw [h4, hcur]

/-- Witness for C9: on a platform where the bookkeeper StatefulSet cannot be
read, the upgrade of `upgradingCluster` is aborted. -/
theorem syncClusterVersion_abort_witness :
    (syncClusterVersion sampleEnv (startOf upgradingCluster)).1 = .ret none ∧
    (syncClusterVersion sampleEnv (startOf upgradingCluster)).2.p.Status.TargetVersion = "" ∧
    (syncClusterVersion sampleEnv (startOf upgradingCluster)).2.p.Spec.Version = "1.0" ∧
    (syncClusterVersion sampleEnv (startOf upgradingCluster)).2.p.Status.CurrentVersion
      = "1.0" :=
  have h := syncClusterVersion_abort sampleEnv (startOf upgradingCluster)
    (sampleCondition .ClusterConditionUpgrading .ConditionTrue "Upgrading Segmentstore" "1")
    "failed to sync bookkeeper version. failed to get statefulset (): not found"
    (by decide) (by decide) (by decide) (by decide) (by decide) (fun _ => rfl)
  ⟨h.1, h.2.2.2.1, h.2.2.2.2.1.trans h.2.2.2.2.2.1, h.2.2.2.2.2.1⟩

/-- C10 (no retry after abort). Let a `syncClusterVersion` tick abort an
upgrade (the orchestrator returned an error). A second tick on the cluster
resource that the first tick left behind, under any platform state, returns no
error, leaves the cluster resource exactly as the first tick left it
(`Upgrading` false, `targetVersion` empty, `currentVersion` and the declared
version equal and unchanged, `Error` true with the failure message), and
issues nothing but the deferred status write: no tier driver is invoked. -/
theorem syncClusterVersion_no_retry_after_abort (env env2 : Env) (s : State)
    (c : ClusterCondition) (err : String)
    (hu : s.p.Status.GetClusterCondition .ClusterConditionUpgrading = some c)
    (hc : c.Status = .ConditionTrue)
    (ht : s.p.Status.TargetVersion ≠ "")
    (htc : s.p.Status.TargetVersion ≠ s.p.Status.CurrentVersion)
    (herr : (syncComponentsVersion env s).1 = .ret (some err)) :
    (syncClusterVersion env2 (syncClusterVersion env s).2).1 = .ret none ∧
    (syncClusterVersion env2 (syncClusterVersion env s).2).2.p = (syncClusterVersion env s).2.p ∧
    newEvents (syncClusterVersion env s).2 (syncClusterVersion env2 (syncClusterVersion env s).2).2
      = [.updateStatus (syncClusterVersion env s).2.p] ∧
    (newEvents (syncClusterVersion env s).2
      (syncClusterVersion env2 (syncClusterVersion env s).2).2).filterMap Event.invoked = [] ∧
    (syncClusterVersion env2 (syncClusterVersion env s).2).2.p.Status.isUpgrading = false ∧
    (syncClusterVersion env2 (syncClusterVersion env s).2).2.p.Status.TargetVersion = "" ∧
    (syncClusterVersion env2 (syncClusterVersion env s).2).2.p.Status.CurrentVersion =
      s.p.Status.CurrentVersion ∧
    (syncClusterVersion env2 (syncClusterVersion env s).2).2.p.Spec.Version =
      s.p.Status.CurrentVersion ∧
    (∃ e, (syncClusterVersion env2 (syncClusterVersion env s).2).2.p.Status.GetClusterCondition
        .ClusterConditionError = some e ∧
      e.Status = .ConditionTrue ∧ e.Reason = "UpgradeFailed" ∧ e.Message = err) := by
  have hbody := syncClusterVersion_abort_eq env s c err hu hc ht htc herr
  have hcur : (syncComponentsVersion env s).2.p.Status.CurrentVersion =
      s.p.Status.CurrentVersion :=
    syncComponentsLoop_error env _ (components_statusEffect env) s err herr
  obtain ⟨h1, ⟨u, hu1, hu2⟩, h3, h4, h5⟩ :=
    abort_status env (syncComponentsVersion env s).2.p err
    ((syncComponentsVersion env s).2.setStatus
      ((syncComponentsVersion env s).2.p.Status.SetErrorConditionTrue env "UpgradeFailed" err))
    rfl
  have hfirst : (syncClusterVersion env s).2.p = (clearUpgradeStatus env
      ((syncComponentsVersion env s).2.setStatus
        ((syncComponentsVersion env s).2.p.Status.SetErrorConditionTrue env
          "UpgradeFailed" err))).2.p := by
    simp only [syncClusterVersion, hbody, State.log_p]
  have hsecond := syncClusterVersion_idle env2 (syncClusterVersion env s).2 u
    (by rw [hfirst]; exact hu1) (by rw [hu2]; decide) (by rw [hfirst, h4, h5])
  have hiu : (syncClusterVersion env s).2.p.Status.isUpgrading = false := by
    rw [hfirst, isUpgrading_of_get hu1, hu2]
    decide
  rw [hsecond]
  simp only [State.log_p]
  refine ⟨trivial, trivial, by simp [newEvents], by simp [newEvents, Event.invoked], hiu, ?_, ?_,
    ?_, ?_⟩
  · rw [hfirst, h3]
  · rw [hfirst, h5, hcur]
  · rw [hfirst, h4, hcur]
  · rw [hfirst]
    exact h1

/-- Witness for C10: after the aborted upgrade of `upgradingCluster`, a second
tick changes nothing and writes only the status. -/
theorem syncClusterVersion_no_retry_after_abort_witness :
    (syncClusterVersion sampleEnv (syncClusterVersion sampleEnv (startOf upgradingCluster)).2).1
      = .ret none ∧
    (syncClusterVersion sampleEnv
      (syncClusterVersion sampleEnv (startOf upgradingCluster)).2).2.p =
      (syncClusterVersion sampleEnv (startOf upgradingCluster)).2.p :=
  have h := syncClusterVersion_no_retry_after_abort sampleEnv sampleEnv
    (startOf upgradingCluster)
    (sampleCondition .ClusterConditionUpgrading .ConditionTrue "Upgrading Segmentstore" "1")
    "failed to sync bookkeeper version. failed to get statefulset (): not found"
    (by decide) (by decide) (by decide) (by decide) (by decide)
  ⟨h.1, h.2.1⟩

/-! ### The synchronizer when no upgrade is in progress -/

theorem syncClusterVersion_refuse_eq (env : Env) (s : State) (c : ClusterCondition)
    (hu : s.p.Status.GetClusterCondition .ClusterConditionUpgrading = some c)
    (hnt : c.Status ≠ .ConditionTrue)
    (hv : s.p.Spec.Version ≠ s.p.Status.CurrentVersion)
    (hr : s.p.Status.GetClusterCondition .ClusterConditionPodsReady = none ∨
      ∃ r, s.p.Status.GetClusterCondition .ClusterConditionPodsReady = some r ∧
        r.Status ≠ .ConditionTrue) :
    syncClusterVersionBody env s = (.ret none, (clearUpgradeStatus env s).2) := by
  rcases hr with hr | ⟨r, hr, hrt⟩
  · simp [syncClusterVersionBody, hu, hnt, hv, hr]
  · simp [syncClusterVersionBody, hu, hnt, hv, hr, hrt]

/-- C11 (readiness gate). When the `Upgrading` condition exists and is not
true, the declared version differs from the current version and `PodsReady` is
absent or not true, one `syncClusterVersion` tick returns no error and starts
no upgrade: afterwards `Upgrading` is false, `targetVersion` is empty, the
declared version has been reset to the current version, which is unchanged,
and the only events are the spec update and the deferred status write: no
tier driver has been invoked. -/
theorem syncClusterVersion_refuses_unready (env : Env) (s : State) (c : ClusterCondition)
    (hu : s.p.Status.GetClusterCondition .ClusterConditionUpgrading = some c)
    (hnt : c.Status ≠ .ConditionTrue)
    (hv : s.p.Spec.Version ≠ s.p.Status.CurrentVersion)
    (hr : s.p.Status.GetClusterCondition .ClusterConditionPodsReady = none ∨
      ∃ r, s.p.Status.GetClusterCondition .ClusterConditionPodsReady = some r ∧
        r.Status ≠ .ConditionTrue) :
    (syncClusterVersion env s).1 = .ret none ∧
    (∃ u, (syncClusterVersion env s).2.p.Status.GetClusterCondition
        .ClusterConditionUpgrading = some u ∧ u.Status = .ConditionFalse) ∧
    (syncClusterVersion env s).2.p.Status.isUpgrading = false ∧
    (syncClusterVersion env s).2.p.Status.TargetVersion = "" ∧
    (syncClusterVersion env s).2.p.Spec.Version = s.p.Status.CurrentVersion ∧
    (syncClusterVersion env s).2.p.Status.CurrentVersion = s.p.Status.CurrentVersion ∧
    newEvents s (syncClusterVersion env s).2 =
      [.updateCluster (syncClusterVersion env s).2.p,
       .updateStatus (syncClusterVersion env s).2.p] ∧
    (newEvents s (syncClusterVersion env s).2).filterMap Event.invoked = [] := by
  have hbody := syncClusterVersion_refuse_eq env s c hu hnt hv hr
  have hp := clearUpgradeStatus_p env s
  have htr := clearUpgradeStatus_trace env s
  obtain ⟨u, hu1, hu2, -⟩ := get_SetUpgradingConditionFalse s.p.Status env
  simp only [syncClusterVersion, hbody, State.log_p, State.log_trace]
  refine ⟨trivial, ⟨u, ?_, hu2⟩, ?_, ?_, ?_, ?_, ?_, ?_⟩
  · rw [hp]; exact hu1
  · rw [hp]; exact isUpgrading_SetUpgradingConditionFalse s.p.Status env
  · rw [hp]
  · rw [hp]
  · rw [hp]; rfl
  · simp [newEvents, htr]
  · simp [newEvents, htr, Event.invoked]

/-- Witness for C11: declared version 2.0, current version 1.0, `PodsReady`
false. -/
theorem syncClusterVersion_refuses_unready_witness :
    (syncClusterVersion sampleEnv (startOf unreadyCluster)).1 = .ret none ∧
    (syncClusterVersion sampleEnv (startOf unreadyCluster)).2.p.Status.isUpgrading = false ∧
    (syncClusterVersion sampleEnv (startOf unreadyCluster)).2.p.Status.TargetVersion = "" ∧
    (syncClusterVersion sampleEnv (startOf unreadyCluster)).2.p.Spec.Version = "1.0" ∧
    (syncClusterVersion sampleEnv (startOf unreadyCluster)).2.p.Status.CurrentVersion = "1.0" :=
  have h := syncClusterVersion_refuses_unready sampleEnv (startOf unreadyCluster)
    (sampleCondition .ClusterConditionUpgrading .ConditionFalse "" "")
    (by decide) (by decide) (by decide)
    (Or.inr ⟨sampleCondition .ClusterConditionPodsReady .ConditionFalse "" "",
      by decide, by decide⟩)
  ⟨h.1, h.2.2.1, h.2.2.2.1, h.2.2.2.2.1, h.2.2.2.2.2.1⟩

/-- C12 (first-run initialization). When the cluster has no `Upgrading`
condition, one `syncClusterVersion` tick returns no error, sets `Upgrading` to
false and the current version to the declared version, leaves the declared
version, `targetVersion` and every other condition as they were, and issues
nothing but the deferred status write: no tier driver is invoked. Nothing is
assumed about `PodsReady` or the previous current version. -/
theorem syncClusterVersion_first_run (env : Env) (s : State)
    (hu : s.p.Status.GetClusterCondition .ClusterConditionUpgrading = none) :
    (syncClusterVersion env s).1 = .ret none ∧
    (∃ u, (syncClusterVersion env s).2.p.Status.GetClusterCondition
        .ClusterConditionUpgrading = some u ∧ u.Status = .ConditionFalse) ∧
    (syncClusterVersion env s).2.p.Status.CurrentVersion = s.p.Spec.Version ∧
    (syncClusterVersion env s).2.p.Spec.Version = s.p.Spec.Version ∧
    (syncClusterVersion env s).2.p.Status.TargetVersion = s.p.Status.TargetVersion ∧
    (∀ t, t ≠ .ClusterConditionUpgrading →
      (syncClusterVersion env s).2.p.Status.GetClusterCondition t =
        s.p.Status.GetClusterCondition t) ∧
    newEvents s (syncClusterVersion env s).2 =
      [.updateStatus (syncClusterVersion env s).2.p] ∧
    (newEvents s (syncClusterVersion env s).2).filterMap Event.invoked = [] := by
  have hbody : syncClusterVersionBody env s =
      (.ret none, (s.setStatus (s.p.Status.SetUpgradingConditionFalse env)).setStatus
        { s.p.Status.SetUpgradingConditionFalse env with
          CurrentVersion := s.p.Spec.Version }) := by
    simp [syncClusterVersionBody, hu]
  obtain ⟨u, hu1, hu2, -⟩ := get_SetUpgradingConditionFalse s.p.Status env
  simp only [syncClusterVersion, hbody, State.log_p, State.log_trace, State.setStatus_p,
    State.setStatus_trace]
  refine ⟨trivial, ⟨u, hu1, hu2⟩, trivial, trivial, rfl, ?_, ?_, ?_⟩
  · intro t ht
    exact get_SetUpgradingConditionFalse_other s.p.Status env t ht
  · simp [newEvents]
  · simp [newEvents, Event.invoked]

/-- Witness for C12: a freshly created cluster at 1.0 without conditions. -/
theorem syncClusterVersion_first_run_witness :
    (syncClusterVersion sampleEnv (startOf freshCluster)).1 = .ret none ∧
    (syncClusterVersion sampleEnv (startOf freshCluster)).2.p.Status.CurrentVersion = "1.0" ∧
    (syncClusterVersion sampleEnv (startOf freshCluster)).2.p.Status.isUpgrading = false :=
  have h := syncClusterVersion_first_run sampleEnv (startOf freshCluster) (by decide)
  ⟨h.1, h.2.2.1, by decide⟩

/-! ### Completion and trigger phases of the drivers -/

set_option maxHeartbeats 2000000 in
theorem stsStep_synced_state (env : Env) (t : StsTier) (s : State) (e : Option String)
    (h : (stsStep env t s).1 = .ret (true, e)) :
    e = none ∧
    (stsStep env t s).2 = s.log (.getStatefulSet s.p.Namespace (t.workloadName s.p.Name)) := by
  revert h
  unfold stsStep
  simp only []
  repeat' split
  all_goals simp
  all_goals (intro h; exact h.symm)

set_option maxHeartbeats 2000000 in
theorem syncControllerVersion_synced_state (env : Env) (s : State) (e : Option String)
    (h : (syncControllerVersion env s).1 = .ret (true, e)) :
    e = none ∧
    (syncControllerVersion env s).2 =
      s.log (.getDeployment s.p.Namespace (env.DeploymentNameForController s.p.Name)) := by
  revert h
  unfold syncControllerVersion
  simp only []
  repeat' split
  all_goals simp
  all_goals (intro h; exact h.symm)

set_option maxHeartbeats 2000000 in
theorem stsStep_synced_iff (env : Env) (t : StsTier) (s : State) (sts : StatefulSet)
    (img : String)
    (hget : env.getStatefulSet s.p.Namespace (t.workloadName s.p.Name) = .ok sts)
    (himg : t.targetImage s.p = .ok img) :
    (stsStep env t s).1 = .ret (true, none) ↔
      (∃ c0 cs, sts.Spec.Template.Spec.Containers = c0 :: cs ∧ c0.Image = img) ∧
      sts.Status.UpdatedReplicas = sts.Status.Replicas ∧
      sts.Status.UpdatedReplicas = sts.Status.ReadyReplicas := by
  unfold stsStep
  simp only [State.log_p, hget, himg]
  cases hc : sts.Spec.Template.Spec.Containers with
  | nil => simp
  | cons c0 cs =>
    simp only []
    by_cases hm : c0.Image = img
    · by_cases hconv : sts.Status.UpdatedReplicas = sts.Status.Replicas ∧
          sts.Status.UpdatedReplicas = sts.Status.ReadyReplicas
      · rw [if_neg (by simp [hm]), if_pos hconv]
        exact ⟨fun _ => ⟨⟨c0, cs, rfl, hm⟩, hconv⟩, fun _ => rfl⟩
      · rw [if_neg (by simp [hm]), if_neg hconv]
        constructor
        · intro h
          exfalso
          revert h
          repeat' split
          all_goals simp
        · rintro ⟨-, h1, h2⟩
          exact absurd ⟨h1, h2⟩ hconv
    · rw [if_pos hm]
      constructor
      · intro h
        exfalso
        revert h
        repeat' split
        all_goals simp
      · rintro ⟨⟨c0', cs', h1, h2⟩, -⟩
        simp only [List.cons.injEq] at h1
        exact absurd (h1.1 ▸ h2) hm

set_option maxHeartbeats 2000000 in
theorem syncControllerVersion_synced_iff (env : Env) (s : State) (deploy : Deployment)
    (img : String)
    (hget : env.getDeployment s.p.Namespace (env.DeploymentNameForController s.p.Name)
      = .ok deploy)
    (himg : env.PravegaTargetImage s.p = .ok img) :
    (syncControllerVersion env s).1 = .ret (true, none) ↔
      (∃ c0 cs, deploy.Spec.Template.Spec.Containers = c0 :: cs ∧ c0.Image = img) ∧
      deploy.Status.UpdatedReplicas = deploy.Status.Replicas ∧
      deploy.Status.UpdatedReplicas = deploy.Status.ReadyReplicas := by
  unfold syncControllerVersion
  simp only [State.log_p, hget, himg]
  cases hc : deploy.Spec.Template.Spec.Containers with
  | nil => simp
  | cons c0 cs =>
    simp only []
    by_cases hm : c0.Image = img
    · by_cases hconv : deploy.Status.UpdatedReplicas ≠ deploy.Status.Replicas ∨
          deploy.Status.UpdatedReplicas ≠ deploy.Status.ReadyReplicas
      · rw [if_neg (by simp [hm]), if_pos hconv]
        constructor
        · intro h
          exfalso
          revert h
          repeat' split
          all_goals simp
        · rintro ⟨-, h1, h2⟩
          rcases hconv with h | h
          · exact absurd h1 h
          · exact absurd h2 h
      · have hconv' := hconv
        simp only [ne_eq, not_or, not_not] at hconv'
        rw [if_neg (by simp [hm]), if_neg hconv]
        exact ⟨fun _ => ⟨⟨c0, cs, rfl, hm⟩, hconv'⟩, fun _ => rfl⟩
    · rw [if_pos hm]
      constructor
      · intro h
        exfalso
        revert h
        repeat' split
        all_goals simp
      · rintro ⟨⟨c0', cs', h1, h2⟩, -⟩
        simp only [List.cons.injEq] at h1
        exact absurd (h1.1 ▸ h2) hm

theorem isWrite_of_get :
    (∀ a b, (Event.getStatefulSet a b).isWrite = false) ∧
    (∀ a b, (Event.getDeployment a b).isWrite = false) ∧
    (∀ a b, (Event.listPods a b).isWrite = false) :=
  ⟨fun _ _ => rfl, fun _ _ => rfl, fun _ _ => rfl⟩

/-- C13 (completion). For each of the three drivers: whenever it returns
`synced=true` it returns no error and leaves the state as it found it but for
the one read of its workload, so it issued no platform write and did not touch
the cluster status; and when the workload read and the target-image
computation succeed, it returns `(true, nil)` if and only if the first
container image of the workload's template equals the target image and
`updatedReplicas = replicas = readyReplicas`. -/
theorem driver_completion (env : Env) (s : State) :
    (∀ d ∈ stsDrivers env,
      (∀ e, (d.2 s).1 = .ret (true, e) →
        e = none ∧
        (d.2 s).2 = s.log (.getStatefulSet s.p.Namespace (d.1.workloadName s.p.Name)) ∧
        (d.2 s).2.p = s.p ∧
        ∀ ev ∈ newEvents s (d.2 s).2, ev.isWrite = false) ∧
      (∀ (sts : StatefulSet) (img : String),
        env.getStatefulSet s.p.Namespace (d.1.workloadName s.p.Name) = .ok sts →
        d.1.targetImage s.p = .ok img →
        ((d.2 s).1 = .ret (true, none) ↔
          (∃ c0 cs, sts.Spec.Template.Spec.Containers = c0 :: cs ∧ c0.Image = img) ∧
          sts.Status.UpdatedReplicas = sts.Status.Replicas ∧
          sts.Status.UpdatedReplicas = sts.Status.ReadyReplicas))) ∧
    (∀ e, (syncControllerVersion env s).1 = .ret (true, e) →
      e = none ∧
      (syncControllerVersion env s).2 =
        s.log (.getDeployment s.p.Namespace (env.DeploymentNameForController s.p.Name)) ∧
      (syncControllerVersion env s).2.p = s.p ∧
      ∀ ev ∈ newEvents s (syncControllerVersion env s).2, ev.isWrite = false) ∧
    (∀ (deploy : Deployment) (img : String),
      env.getDeployment s.p.Namespace (env.DeploymentNameForController s.p.Name)
        = .ok deploy →
      env.PravegaTargetImage s.p = .ok img →
      ((syncControllerVersion env s).1 = .ret (true, none) ↔
        (∃ c0 cs, deploy.Spec.Template.Spec.Containers = c0 :: cs ∧ c0.Image = img) ∧
        deploy.Status.UpdatedReplicas = deploy.Status.Replicas ∧
        deploy.Status.UpdatedReplicas = deploy.Status.ReadyReplicas)) := by
  have sts : ∀ t : StsTier,
      (∀ e, (stsStep env t s).1 = .ret (true, e) →
        e = none ∧
        (stsStep env t s).2 = s.log (.getStatefulSet s.p.Namespace (t.workloadName s.p.Name)) ∧
        (stsStep env t s).2.p = s.p ∧
        ∀ ev ∈ newEvents s (stsStep env t s).2, ev.isWrite = false) ∧
      (∀ (sts : StatefulSet) (img : String),
        env.getStatefulSet s.p.Namespace (t.workloadName s.p.Name) = .ok sts →
        t.targetImage s.p = .ok img →
        ((stsStep env t s).1 = .ret (true, none) ↔
          (∃ c0 cs, sts.Spec.Template.Spec.Containers = c0 :: cs ∧ c0.Image = img) ∧
          sts.Status.UpdatedReplicas = sts.Status.Replicas ∧
          sts.Status.UpdatedReplicas = sts.Status.ReadyReplicas)) := by
    intro t
    refine ⟨?_, fun sts img hget himg => stsStep_synced_iff env t s sts img hget himg⟩
    intro e he
    obtain ⟨h1, h2⟩ := stsStep_synced_state env t s e he
    refine ⟨h1, h2, by rw [h2]; rfl, ?_⟩
    rw [h2]
    simp [newEvents, isWrite_of_get]
  refine ⟨?_, ?_, fun deploy img hget himg =>
    syncControllerVersion_synced_iff env s deploy img hget himg⟩
  · intro d hd
    simp only [stsDrivers, List.mem_cons, List.mem_singleton, List.not_mem_nil, or_false] at hd
    rcases hd with rfl | rfl
    · exact sts (bookieTier env)
    · exact sts (segmentStoreTier env)
  · intro e he
    obtain ⟨h1, h2⟩ := syncControllerVersion_synced_state env s e he
    refine ⟨h1, h2, by rw [h2]; rfl, ?_⟩
    rw [h2]
    simp [newEvents, isWrite_of_get]

/-- Witness for C13: the bookkeeper StatefulSet carries the target image and
reports 3 replicas, 3 updated, 3 ready; the driver returns `(true, nil)` after
the one read. -/
theorem driver_completion_witness :
    (syncBookkeeperVersion (rolloutEnv (sampleBookieSts 3 3 3) []) (startOf upgradingCluster)).1
      = .ret (true, none) ∧
    (syncBookkeeperVersion (rolloutEnv (sampleBookieSts 3 3 3) [])
      (startOf upgradingCluster)).2 =
      (startOf upgradingCluster).log (.getStatefulSet "default" "pravega-bookie") :=
  have h := (driver_completion (rolloutEnv (sampleBookieSts 3 3 3) [])
    (startOf upgradingCluster)).1
    (bookieTier (rolloutEnv (sampleBookieSts 3 3 3) []),
      syncBookkeeperVersion (rolloutEnv (sampleBookieSts 3 3 3) []))
    (by simp [stsDrivers])
  have hs := (h.2 (sampleBookieSts 3 3 3) "pravega/bookkeeper:2.0" (by decide)
    (by decide)).2 ⟨⟨_, _, rfl, rfl⟩, by decide, by decide⟩
  ⟨hs, (h.1 none hs).2.1⟩

theorem stsStep_trigger (env : Env) (t : StsTier) (s : State) (sts : StatefulSet)
    (img : String) (c0 : Container) (cs : List Container)
    (hw : ∀ ev : Event, ev.isWrite = true → env.writeErr ev = none)
    (hget : env.getStatefulSet s.p.Namespace (t.workloadName s.p.Name) = .ok sts)
    (himg : t.targetImage s.p = .ok img)
    (hcont : sts.Spec.Template.Spec.Containers = c0 :: cs)
    (hdiff : c0.Image ≠ img) :
    stsStep env t s =
      (.ret (false, none),
        { p := { s.p with Status := s.p.Status.SetUpgradingConditionTrue env t.reason "0" }
          trace := s.trace ++
            [ .getStatefulSet s.p.Namespace (t.workloadName s.p.Name),
              .updateConfigMap (env.SetControllerReference s.p (t.makeConfigMap s.p)),
              .updateStatefulSet { sts with Spec := { Template := t.makePodTemplate s.p } } ] }) := by
  have h1 := hw (.updateConfigMap (env.SetControllerReference s.p (t.makeConfigMap s.p))) rfl
  have h2 := hw (.updateStatefulSet { sts with Spec := { Template := t.makePodTemplate s.p } })
    rfl
  unfold stsStep
  simp only [State.log_p, hget, himg, hcont, if_pos hdiff, h1, h2]
  simp [State.log, State.setStatus]

theorem syncControllerVersion_trigger (env : Env) (s : State) (deploy : Deployment)
    (img : String) (c0 : Container) (cs : List Container)
    (hw : ∀ ev : Event, ev.isWrite = true → env.writeErr ev = none)
    (hget : env.getDeployment s.p.Namespace (env.DeploymentNameForController s.p.Name)
      = .ok deploy)
    (himg : env.PravegaTargetImage s.p = .ok img)
    (hcont : deploy.Spec.Template.Spec.Containers = c0 :: cs)
    (hdiff : c0.Image ≠ img) :
    syncControllerVersion env s =
      (.ret (false, none),
        { p := { s.p with
            Status := s.p.Status.SetUpgradingConditionTrue env env.UpgradingControllerReason "0" }
          trace := s.trace ++
            [ .getDeployment s.p.Namespace (env.DeploymentNameForController s.p.Name),
              .updateConfigMap (env.SetControllerReference s.p (env.MakeControllerConfigMap s.p)),
              .updateDeployment
                { deploy with Spec := { Template := env.MakeControllerPodTemplate s.p } } ] }) := by
  have h1 := hw (.updateConfigMap
    (env.SetControllerReference s.p (env.MakeControllerConfigMap s.p))) rfl
  have h2 := hw (.updateDeployment
    { deploy with Spec := { Template := env.MakeControllerPodTemplate s.p } }) rfl
  unfold syncControllerVersion
  simp only [State.log_p, hget, himg, hcont, if_pos hdiff, h1, h2]
  simp [State.log, State.setStatus]

theorem stsStep_trigger_facts (env : Env) (t : StsTier) (s : State) (sts : StatefulSet)
    (img : String) (c0 : Container) (cs : List Container)
    (hw : ∀ ev : Event, ev.isWrite = true → env.writeErr ev = none)
    (hget : env.getStatefulSet s.p.Namespace (t.workloadName s.p.Name) = .ok sts)
    (himg : t.targetImage s.p = .ok img)
    (hcont : sts.Spec.Template.Spec.Containers = c0 :: cs)
    (hdiff : c0.Image ≠ img) :
    (stsStep env t s).1 = .ret (false, none) ∧
    newEvents s (stsStep env t s).2 =
      [ .getStatefulSet s.p.Namespace (t.workloadName s.p.Name),
        .updateConfigMap (env.SetControllerReference s.p (t.makeConfigMap s.p)),
        .updateStatefulSet { sts with Spec := { Template := t.makePodTemplate s.p } } ] ∧
    deletions (newEvents s (stsStep env t s).2) = [] ∧
    (∃ u, (stsStep env t s).2.p.Status.GetClusterCondition .ClusterConditionUpgrading
        = some u ∧
      u.Status = .ConditionTrue ∧ u.Reason = t.reason ∧ u.Message = "0") ∧
    (stsStep env t s).2.p =
      { s.p with Status := s.p.Status.SetUpgradingConditionTrue env t.reason "0" } ∧
    ∀ s2 : State, s2.p = s.p →
      (stsStep env t s2).1 = (stsStep env t s).1 ∧
      newEvents s2 (stsStep env t s2).2 = newEvents s (stsStep env t s).2 ∧
      (stsStep env t s2).2.p = (stsStep env t s).2.p := by
  have h := stsStep_trigger env t s sts img c0 cs hw hget himg hcont hdiff
  refine ⟨by rw [h], by rw [h]; simp [newEvents], by rw [h]; simp [newEvents], ?_,
    by rw [h], ?_⟩
  · rw [h]
    exact get_SetUpgradingConditionTrue s.p.Status env t.reason "0"
  · intro s2 hs2
    have h2 := stsStep_trigger env t s2 sts img c0 cs hw (by rw [hs2]; exact hget)
      (by rw [hs2]; exact himg) hcont hdiff
    rw [h, h2, hs2]
    simp [newEvents]

theorem syncControllerVersion_trigger_facts (env : Env) (s : State) (deploy : Deployment)
    (img : String) (c0 : Container) (cs : List Container)
    (hw : ∀ ev : Event, ev.isWrite = true → env.writeErr ev = none)
    (hget : env.getDeployment s.p.Namespace (env.DeploymentNameForController s.p.Name)
      = .ok deploy)
    (himg : env.PravegaTargetImage s.p = .ok img)
    (hcont : deploy.Spec.Template.Spec.Containers = c0 :: cs)
    (hdiff : c0.Image ≠ img) :
    (syncControllerVersion env s).1 = .ret (false, none) ∧
    newEvents s (syncControllerVersion env s).2 =
      [ .getDeployment s.p.Namespace (env.DeploymentNameForController s.p.Name),
        .updateConfigMap (env.SetControllerReference s.p (env.MakeControllerConfigMap s.p)),
        .updateDeployment
          { deploy with Spec := { Template := env.MakeControllerPodTemplate s.p } } ] ∧
    deletions (newEvents s (syncControllerVersion env s).2) = [] ∧
    (∃ u, (syncControllerVersion env s).2.p.Status.GetClusterCondition
        .ClusterConditionUpgrading = some u ∧
      u.Status = .ConditionTrue ∧ u.Reason = env.UpgradingControllerReason ∧
      u.Message = "0") ∧
    (syncControllerVersion env s).2.p =
      { s.p with
        Status := s.p.Status.SetUpgradingConditionTrue env env.UpgradingControllerReason "0" } ∧
    ∀ s2 : State, s2.p = s.p →
      (syncControllerVersion env s2).1 = (syncControllerVersion env s).1 ∧
      newEvents s2 (syncControllerVersion env s2).2 =
        newEvents s (syncControllerVersion env s).2 ∧
      (syncControllerVersion env s2).2.p = (syncControllerVersion env s).2.p := by
  have h := syncControllerVersion_trigger env s deploy img c0 cs hw hget himg hcont hdiff
  refine ⟨by rw [h], by rw [h]; simp [newEvents], by rw [h]; simp [newEvents], ?_,
    by rw [h], ?_⟩
  · rw [h]
    exact get_SetUpgradingConditionTrue s.p.Status env env.UpgradingControllerReason "0"
  · intro s2 hs2
    have h2 := syncControllerVersion_trigger env s2 deploy img c0 cs hw
      (by rw [hs2]; exact hget) (by rw [hs2]; exact himg) hcont hdiff
    rw [h, h2, hs2]
    simp [newEvents]

/-- C14 (trigger phase). Let every platform write succeed. For each of the
three drivers, when the workload was read, the target image computed and the
first container image of the workload's template differs from it, one step
returns `(false, nil)` and issues, after the read, exactly one update of the
tier's configuration object and one update of the workload with the tier's
new pod template, and no pod deletion; it sets `Upgrading` to true with the
tier's upgrading reason and message "0" and changes nothing else of the
cluster resource. The step depends on the cluster resource and the platform
only: run again on the same cluster resource, whatever was issued before, it
returns the same result and issues the same events, one template update. -/
theorem driver_trigger (env : Env) (s : State)
    (hw : ∀ ev : Event, ev.isWrite = true → env.writeErr ev = none) :
    (∀ d ∈ stsDrivers env,
      ∀ (sts : StatefulSet) (img : String) (c0 : Container) (cs : List Container),
      env.getStatefulSet s.p.Namespace (d.1.workloadName s.p.Name) = .ok sts →
      d.1.targetImage s.p = .ok img →
      sts.Spec.Template.Spec.Containers = c0 :: cs →
      c0.Image ≠ img →
      (d.2 s).1 = .ret (false, none) ∧
      newEvents s (d.2 s).2 =
        [ .getStatefulSet s.p.Namespace (d.1.workloadName s.p.Name),
          .updateConfigMap (env.SetControllerReference s.p (d.1.makeConfigMap s.p)),
          .updateStatefulSet { sts with Spec := { Template := d.1.makePodTemplate s.p } } ] ∧
      deletions (newEvents s (d.2 s).2) = [] ∧
      (∃ u, (d.2 s).2.p.Status.GetClusterCondition .ClusterConditionUpgrading = some u ∧
        u.Status = .ConditionTrue ∧ u.Reason = d.1.reason ∧ u.Message = "0") ∧
      (d.2 s).2.p =
        { s.p with Status := s.p.Status.SetUpgradingConditionTrue env d.1.reason "0" } ∧
      ∀ s2 : State, s2.p = s.p →
        (d.2 s2).1 = (d.2 s).1 ∧
        newEvents s2 (d.2 s2).2 = newEvents s (d.2 s).2 ∧
        (d.2 s2).2.p = (d.2 s).2.p) ∧
    (∀ (deploy : Deployment) (img : String) (c0 : Container) (cs : List Container),
      env.getDeployment s.p.Namespace (env.DeploymentNameForController s.p.Name)
        = .ok deploy →
      env.PravegaTargetImage s.p = .ok img →
      deploy.Spec.Template.Spec.Containers = c0 :: cs →
      c0.Image ≠ img →
      (syncControllerVersion env s).1 = .ret (false, none) ∧
      newEvents s (syncControllerVersion env s).2 =
        [ .getDeployment s.p.Namespace (env.DeploymentNameForController s.p.Name),
          .updateConfigMap (env.SetControllerReference s.p (env.MakeControllerConfigMap s.p)),
          .updateDeployment
            { deploy with Spec := { Template := env.MakeControllerPodTemplate s.p } } ] ∧
      deletions (newEvents s (syncControllerVersion env s).2) = [] ∧
      (∃ u, (syncControllerVersion env s).2.p.Status.GetClusterCondition
          .ClusterConditionUpgrading = some u ∧
        u.Status = .ConditionTrue ∧ u.Reason = env.UpgradingControllerReason ∧
        u.Message = "0") ∧
      (syncControllerVersion env s).2.p =
        { s.p with
          Status :=
            s.p.Status.SetUpgradingConditionTrue env env.UpgradingControllerReason "0" } ∧
      ∀ s2 : State, s2.p = s.p →
        (syncControllerVersion env s2).1 = (syncControllerVersion env s).1 ∧
        newEvents s2 (syncControllerVersion env s2).2 =
          newEvents s (syncControllerVersion env s).2 ∧
        (syncControllerVersion env s2).2.p = (syncControllerVersion env s).2.p) := by
  refine ⟨?_, fun deploy img c0 cs hget himg hcont hdiff =>
    syncControllerVersion_trigger_facts env s deploy img c0 cs hw hget himg hcont hdiff⟩
  intro d hd
  simp only [stsDrivers, List.mem_cons, List.mem_singleton, List.not_mem_nil, or_false] at hd
  rcases hd with rfl | rfl
  · exact fun sts img c0 cs hget himg hcont hdiff =>
      stsStep_trigger_facts env (bookieTier env) s sts img c0 cs hw hget himg hcont hdiff
  · exact fun sts img c0 cs hget himg hcont hdiff =>
      stsStep_trigger_facts env (segmentStoreTier env) s sts img c0 cs hw hget himg hcont hdiff

/-- Witness for C14: the segment-store StatefulSet still carries the 1.0 image
while the cluster is being upgraded to 2.0. -/
theorem driver_trigger_witness :
    (syncSegmentStoreVersion (rolloutEnv oldImageSts []) (startOf startedCluster)).1 =
      .ret (false, none) ∧
    newEvents (startOf startedCluster)
      (syncSegmentStoreVersion (rolloutEnv oldImageSts []) (startOf startedCluster)).2 =
      [ .getStatefulSet "default" "pravega-pravega-segmentstore",
        .updateConfigMap
          { Name := "pravega-pravega-segmentstore", Data := [], Owner := some "pravega" },
        .updateStatefulSet
          { oldImageSts with
            Spec := { Template :=
              { Labels := [("component", "pravega-segmentstore")],
                Spec := { Containers := [{ Image := "pravega/pravega:2.0" }] } } } } ] :=
  have h := (driver_trigger (rolloutEnv oldImageSts []) (startOf startedCluster)
    (fun _ _ => rfl)).1
    (segmentStoreTier (rolloutEnv oldImageSts []),
      syncSegmentStoreVersion (rolloutEnv oldImageSts []))
    (by simp [stsDrivers])
    oldImageSts "pravega/pravega:2.0" { Image := "pravega/pravega:1.0" } []
    (by decide) (by decide) (by decide) (by decide)
  ⟨h.1, h.2.1⟩

/-! ### Watchdog progress, deployment deadline, missing outdated pod -/

/-- C15 (watchdog progress). Let the status hold an `Upgrading` condition.
When the pair `(reason, decimal updatedReplicas)` differs from the stored
`(reason, message)` in either component, `checkUpgradeCondition` returns no
error whatever the clock and the stored time stamp are, and afterwards
`Upgrading` is true with exactly that reason and that message, the rest of the
cluster resource being as before. When the pair is equal, the cluster resource
is left unchanged. -/
theorem checkUpgradeCondition_progress (env : Env) (p : PravegaCluster) (reason : String)
    (updatedReplicas : Int) (c : ClusterCondition)
    (hc : p.Status.GetClusterCondition .ClusterConditionUpgrading = some c) :
    (¬ (c.Reason = reason ∧ c.Message = toString updatedReplicas) →
      (checkUpgradeCondition env p reason updatedReplicas).1 = .ret none ∧
      (∃ u, (checkUpgradeCondition env p reason updatedReplicas).2.Status.GetClusterCondition
          .ClusterConditionUpgrading = some u ∧
        u.Status = .ConditionTrue ∧ u.Reason = reason ∧
        u.Message = toString updatedReplicas) ∧
      (checkUpgradeCondition env p reason updatedReplicas).2 =
        { p with Status :=
            p.Status.SetUpgradingConditionTrue env reason (toString updatedReplicas) }) ∧
    ((c.Reason = reason ∧ c.Message = toString updatedReplicas) →
      (checkUpgradeCondition env p reason updatedReplicas).2 = p) := by
  constructor
  · intro hne
    have h : checkUpgradeCondition env p reason updatedReplicas =
        (.ret none, { p with Status :=
          p.Status.SetUpgradingConditionTrue env reason (toString updatedReplicas) }) := by
      unfold checkUpgradeCondition
      simp only [hc, if_neg hne]
    rw [h]
    exact ⟨rfl, get_SetUpgradingConditionTrue p.Status env reason _, rfl⟩
  · intro heq
    unfold checkUpgradeCondition
    simp only [hc, if_pos heq]
    split <;> rfl

/-- Witness for C15: the stall marker of `upgradingCluster` says one replica;
two updated replicas are progress, even long after the deadline, while one
updated replica leaves the status alone. -/
theorem checkUpgradeCondition_progress_witness :
    (checkUpgradeCondition lateEnv upgradingCluster "Upgrading Segmentstore" 2).1 = .ret none ∧
    (checkUpgradeCondition lateEnv upgradingCluster "Upgrading Segmentstore" 1).2 =
      upgradingCluster :=
  have h2 := checkUpgradeCondition_progress lateEnv upgradingCluster "Upgrading Segmentstore" 2
    (sampleCondition .ClusterConditionUpgrading .ConditionTrue "Upgrading Segmentstore" "1")
    (by decide)
  have h1 := checkUpgradeCondition_progress lateEnv upgradingCluster "Upgrading Segmentstore" 1
    (sampleCondition .ClusterConditionUpgrading .ConditionTrue "Upgrading Segmentstore" "1")
    (by decide)
  ⟨(h2.1 (by decide)).1, h1.2 (by decide)⟩

set_option maxHeartbeats 2000000 in
theorem syncControllerVersion_no_deletion (env : Env) (s : State) :
    deletions (newEvents s (syncControllerVersion env s).2) = [] := by
  unfold syncControllerVersion
  simp only []
  repeat' split
  all_goals simp [newEvents]

theorem syncControllerVersion_deadline (env : Env) (s : State) (deploy : Deployment)
    (img : String) (c0 : Container) (cs : List Container)
    (hget : env.getDeployment s.p.Namespace (env.DeploymentNameForController s.p.Name)
      = .ok deploy)
    (himg : env.PravegaTargetImage s.p = .ok img)
    (hcont : deploy.Spec.Template.Spec.Containers = c0 :: cs)
    (hmatch : c0.Image = img)
    (hconv : deploy.Status.UpdatedReplicas ≠ deploy.Status.Replicas ∨
      deploy.Status.UpdatedReplicas ≠ deploy.Status.ReadyReplicas)
    (hdead : ∃ v ∈ deploy.Status.Conditions, v.Type_ = .DeploymentProgressing ∧
      v.Status = .ConditionFalse ∧ v.Reason = "ProgressDeadlineExceeded") :
    syncControllerVersion env s =
      (.ret (false, some ("updating deployment (" ++ deploy.Name ++
          ") failed due to " ++ "ProgressDeadlineExceeded")),
        s.log (.getDeployment s.p.Namespace (env.DeploymentNameForController s.p.Name))) := by
  obtain ⟨v, hv, h1, h2, h3⟩ := hdead
  cases hf : deploy.Status.Conditions.find? (fun v =>
      decide (v.Type_ = .DeploymentProgressing ∧ v.Status = .ConditionFalse ∧
        v.Reason = "ProgressDeadlineExceeded")) with
  | none =>
    have := List.find?_eq_none.1 hf v hv
    simp [h1, h2, h3] at this
  | some w =>
    have hw := List.find?_some hf
    simp only [decide_eq_true_eq] at hw
    unfold syncControllerVersion
    simp only [State.log_p, hget, himg, hcont, if_neg (not_not.2 hmatch), if_pos hconv, hf,
      hw.2.2]

/-- C16 (deployment deadline). In no state does `syncControllerVersion` issue a
pod deletion. When the Deployment was read, the target image computed, the
first container image of the template equals the target image, the replica
counts are not converged and the reported conditions contain a `Progressing`
condition with status false and reason "ProgressDeadlineExceeded", the step
returns `(false, error)` and its only event is the read of the Deployment: no
pod is listed, no platform write is issued, the cluster resource is as
before. -/
theorem syncControllerVersion_progress_deadline (env : Env) (s : State) :
    deletions (newEvents s (syncControllerVersion env s).2) = [] ∧
    ∀ (deploy : Deployment) (img : String) (c0 : Container) (cs : List Container),
      env.getDeployment s.p.Namespace (env.DeploymentNameForController s.p.Name)
        = .ok deploy →
      env.PravegaTargetImage s.p = .ok img →
      deploy.Spec.Template.Spec.Containers = c0 :: cs →
      c0.Image = img →
      (deploy.Status.UpdatedReplicas ≠ deploy.Status.Replicas ∨
        deploy.Status.UpdatedReplicas ≠ deploy.Status.ReadyReplicas) →
      (∃ v ∈ deploy.Status.Conditions, v.Type_ = .DeploymentProgressing ∧
        v.Status = .ConditionFalse ∧ v.Reason = "ProgressDeadlineExceeded") →
      (syncControllerVersion env s).1 =
        .ret (false, some ("updating deployment (" ++ deploy.Name ++
          ") failed due to " ++ "ProgressDeadlineExceeded")) ∧
      newEvents s (syncControllerVersion env s).2 =
        [.getDeployment s.p.Namespace (env.DeploymentNameForController s.p.Name)] ∧
      (∀ ev ∈ newEvents s (syncControllerVersion env s).2,
        ev.isWrite = false ∧ ∀ ns sel, ev ≠ .listPods ns sel) ∧
      (syncControllerVersion env s).2.p = s.p := by
  refine ⟨syncControllerVersion_no_deletion env s, ?_⟩
  intro deploy img c0 cs hget himg hcont hmatch hconv hdead
  rw [syncControllerVersion_deadline env s deploy img c0 cs hget himg hcont hmatch hconv hdead]
  refine ⟨rfl, by simp [newEvents], ?_, rfl⟩
  simp [newEvents, Event.isWrite]

/-- Witness for C16: the controller Deployment carries the target image, has
one of two replicas updated and reports the exceeded progress deadline. -/
theorem syncControllerVersion_progress_deadline_witness :
    (syncControllerVersion (deployEnv (sampleDeployment deadlineConditions))
      (startOf upgradingCluster)).1 =
      .ret (false, some
        "updating deployment (pravega-pravega-controller) failed due to ProgressDeadlineExceeded") ∧
    newEvents (startOf upgradingCluster)
      (syncControllerVersion (deployEnv (sampleDeployment deadlineConditions))
        (startOf upgradingCluster)).2 =
      [.getDeployment "default" "pravega-pravega-controller"] :=
  have h := (syncControllerVersion_progress_deadline
    (deployEnv (sampleDeployment deadlineConditions)) (startOf upgradingCluster)).2
    (sampleDeployment deadlineConditions) "pravega/pravega:2.0"
    { Image := "pravega/pravega:2.0" } []
    (by decide) (by decide) (by decide) (by decide) (by decide) (by decide)
  ⟨h.1, h.2.1⟩

theorem stsStep_missing_outdated (env : Env) (t : StsTier) (s : State) :
    ∀ (sts : StatefulSet) (img : String) (c0 : Container) (cs : List Container)
      (sel : Selector) (items : List Pod),
      env.getStatefulSet s.p.Namespace (t.workloadName s.p.Name) = .ok sts →
      t.targetImage s.p = .ok img →
      sts.Spec.Template.Spec.Containers = c0 :: cs →
      c0.Image = img →
      ¬ (sts.Status.UpdatedReplicas = sts.Status.Replicas ∧
        sts.Status.UpdatedReplicas = sts.Status.ReadyReplicas) →
      (checkUpgradeCondition env s.p t.reason sts.Status.UpdatedReplicas).1 = .ret none →
      env.LabelSelectorAsSelector sts.Spec.Template.Labels = .ok sel →
      env.listPods sts.Namespace sel = .ok items →
      (∀ q ∈ items, env.GetPodVersion q = s.p.Status.TargetVersion) →
      (∀ q ∈ items, env.GetPodVersion q = s.p.Status.TargetVersion →
        env.IsPodReady q = true) →
      (stsStep env t s).1 = .ret (false, some "could not obtain outdated pod") ∧
      deletions (newEvents s (stsStep env t s).2) = [] := by
  intro sts img c0 cs sel items hget himg hcont hmatch hconv hw hsel hlist hall hready
  obtain ⟨hres, hdel⟩ := stsStep_gate env t s sts img c0 cs sel items hget himg hcont hmatch
    hconv hw hsel hlist
  have hc : checkUpdatedPods env
      (appendPodsWithVersion env s.p.Status.TargetVersion items [])
      s.p.Status.TargetVersion = (true, none) := by
    apply checkUpdatedPods_of_ready
    intro q hq
    rw [appendPodsWithVersion_eq_filter] at hq
    simp only [List.nil_append, List.mem_filter, decide_eq_true_eq] at hq
    exact hready q hq.1 hq.2
  have hf : firstOutdatedPod env s.p.Status.TargetVersion items = none := by
    rw [firstOutdatedPod_eq_find, List.find?_eq_none]
    intro q hq
    simp [hall q hq]
  constructor
  · rw [hres, hc, hf]
    simp
  · rw [hdel, hc, hf]
    simp

/-- C17 (missing outdated instance). For a StatefulSet-shaped driver: when the
workload was read, its template image equals the target image, the replica
counts are not converged, the watchdog reports no stall, the pods were listed,
every listed pod carries the target version (the listing may be empty) and
those pods are all ready, the step returns `(false, error)` with the message
"could not obtain outdated pod" and issues no deletion. -/
theorem sts_driver_missing_outdated_pod (env : Env) (s : State)
    (d : StsTier × (State → DriverResult × State)) (hd : d ∈ stsDrivers env) :
    ∀ (sts : StatefulSet) (img : String) (c0 : Container) (cs : List Container)
      (sel : Selector) (items : List Pod),
      env.getStatefulSet s.p.Namespace (d.1.workloadName s.p.Name) = .ok sts →
      d.1.targetImage s.p = .ok img →
      sts.Spec.Template.Spec.Containers = c0 :: cs →
      c0.Image = img →
      ¬ (sts.Status.UpdatedReplicas = sts.Status.Replicas ∧
        sts.Status.UpdatedReplicas = sts.Status.ReadyReplicas) →
      (checkUpgradeCondition env s.p d.1.reason sts.Status.UpdatedReplicas).1 = .ret none →
      env.LabelSelectorAsSelector sts.Spec.Template.Labels = .ok sel →
      env.listPods sts.Namespace sel = .ok items →
      (∀ q ∈ items, env.GetPodVersion q = s.p.Status.TargetVersion) →
      (∀ q ∈ items, env.GetPodVersion q = s.p.Status.TargetVersion →
        env.IsPodReady q = true) →
      (d.2 s).1 = .ret (false, some "could not obtain outdated pod") ∧
      deletions (newEvents s (d.2 s).2) = [] := by
  simp only [stsDrivers, List.mem_cons, List.mem_singleton, List.not_mem_nil, or_false] at hd
  rcases hd with rfl | rfl
  · exact stsStep_missing_outdated env (bookieTier env) s
  · exact stsStep_missing_outdated env (segmentStoreTier env) s

/-- Witness for C17: two of three segment-store replicas are reported updated
and both listed pods are ready at 2.0; no outdated pod is listed. -/
theorem sts_driver_missing_outdated_pod_witness :
    (syncSegmentStoreVersion (rolloutEnv (sampleSts 3 2 2) [readyPod, readyPod])
      (startOf upgradingCluster)).1 = .ret (false, some "could not obtain outdated pod") ∧
    deletions (newEvents (startOf upgradingCluster)
      (syncSegmentStoreVersion (rolloutEnv (sampleSts 3 2 2) [readyPod, readyPod])
        (startOf upgradingCluster)).2) = [] :=
  sts_driver_missing_outdated_pod (rolloutEnv (sampleSts 3 2 2) [readyPod, readyPod])
    (startOf upgradingCluster)
    (segmentStoreTier (rolloutEnv (sampleSts 3 2 2) [readyPod, readyPod]),
      syncSegmentStoreVersion (rolloutEnv (sampleSts 3 2 2) [readyPod, readyPod]))
    (by simp [stsDrivers])
    (sampleSts 3 2 2) "pravega/pravega:2.0" { Image := "pravega/pravega:2.0" } []
    { Requirements := [("component", "pravega-segmentstore")] } [readyPod, readyPod]
    (by decide) (by decide) (by decide) (by decide) (by decide) (by decide) (by decide)
    (by decide) (by decide) (by decide)

/-! ### Tie-break and partition of the observers -/

theorem firstOutdatedPod_some_iff (env : Env) (v : String) (items : List Pod) (pod : Pod) :
    firstOutdatedPod env v items = some pod ↔
      ∃ pre post, items = pre ++ pod :: post ∧ (∀ q ∈ pre, env.GetPodVersion q = v) ∧
        env.GetPodVersion pod ≠ v := by
  induction items with
  | nil => simp [firstOutdatedPod]
  | cons a items ih =>
    by_cases ha : env.GetPodVersion a = v
    · simp only [firstOutdatedPod, ha, if_true, ih]
      constructor
      · rintro ⟨pre, post, h1, h2, h3⟩
        refine ⟨a :: pre, post, by simp [h1], ?_, h3⟩
        intro q hq
        rcases List.mem_cons.1 hq with rfl | hq
        · exact ha
        · exact h2 q hq
      · rintro ⟨pre, post, h1, h2, h3⟩
        cases pre with
        | nil =>
          simp only [List.nil_append, List.cons.injEq] at h1
          exact absurd (h1.1 ▸ ha) h3
        | cons b pre =>
          simp only [List.cons_append, List.cons.injEq] at h1
          exact ⟨pre, post, h1.2, fun q hq => h2 q (List.mem_cons_of_mem _ hq), h3⟩
    · simp only [firstOutdatedPod, ha, if_false, Option.some.injEq]
      constructor
      · rintro rfl
        exact ⟨[], items, rfl, by simp, ha⟩
      · rintro ⟨pre, post, h1, h2, h3⟩
        cases pre with
        | nil =>
          simp only [List.nil_append, List.cons.injEq] at h1
          exact h1.1
        | cons b pre =>
          simp only [List.cons_append, List.cons.injEq] at h1
          exact absurd (h2 b (List.mem_cons_self _ _)) (h1.1 ▸ ha)

theorem firstOutdatedPod_none_iff (env : Env) (v : String) (items : List Pod) :
    firstOutdatedPod env v items = none ↔ ∀ q ∈ items, env.GetPodVersion q = v := by
  rw [firstOutdatedPod_eq_find, List.find?_eq_none]
  simp

/-- C18 (tie-break and partition). Let the pods of a workload be listed as
`items`. `getOneOutdatedPod` returns a pod exactly when that pod is the first
in listing order whose version differs from the requested one, and returns no
pod exactly when every listed pod carries the requested version (so for the
empty listing). `getPodsWithVersion` (and `getStsPodsWithVersion`) return the
listed pods whose version equals the requested one, in listing order. Hence
the pod returned by `getOneOutdatedPod` is never among the pods returned by
`getPodsWithVersion`. Both observers issue the list call and nothing else. -/
theorem observers_partition (env : Env) (s : State) (sts : StatefulSet) (sel : Selector)
    (items : List Pod) (version : String)
    (hsel : env.LabelSelectorAsSelector sts.Spec.Template.Labels = .ok sel)
    (hlist : env.listPods sts.Namespace sel = .ok items) :
    (∀ pod, (getOneOutdatedPod env s sts version).1 = .ok (some pod) ↔
      ∃ pre post, items = pre ++ pod :: post ∧
        (∀ q ∈ pre, env.GetPodVersion q = version) ∧ env.GetPodVersion pod ≠ version) ∧
    ((getOneOutdatedPod env s sts version).1 = .ok none ↔
      ∀ q ∈ items, env.GetPodVersion q = version) ∧
    (getPodsWithVersion env s sel sts.Namespace version).1 =
      .ok (items.filter (fun q => decide (env.GetPodVersion q = version))) ∧
    (getStsPodsWithVersion env s sts version).1 =
      .ok (items.filter (fun q => decide (env.GetPodVersion q = version))) ∧
    (∀ pod pods, (getOneOutdatedPod env s sts version).1 = .ok (some pod) →
      (getPodsWithVersion env s sel sts.Namespace version).1 = .ok pods → pod ∉ pods) ∧
    (getOneOutdatedPod env s sts version).2 = s.log (.listPods sts.Namespace sel) ∧
    (getPodsWithVersion env s sel sts.Namespace version).2 =
      s.log (.listPods sts.Namespace sel) := by
  have h1 := getOneOutdatedPod_of_ok env s sts version sel items hsel hlist
  have h2 := getStsPodsWithVersion_of_ok env s sts version sel items hsel hlist
  have h3 : getPodsWithVersion env s sel sts.Namespace version =
      (.ok (appendPodsWithVersion env version items []),
        s.log (.listPods sts.Namespace sel)) := by
    simp [getPodsWithVersion, hlist]
  rw [h1, h2, h3, appendPodsWithVersion_eq_filter]
  simp only [List.nil_append, Except.ok.injEq]
  refine ⟨fun pod => firstOutdatedPod_some_iff env version items pod,
    firstOutdatedPod_none_iff env version items, trivial, trivial, ?_, trivial, trivial⟩
  intro pod pods hpod hpods hmem
  have hv := ((firstOutdatedPod_some_iff env version items pod).1 hpod)
  obtain ⟨_, _, _, _, hne⟩ := hv
  rw [← hpods] at hmem
  simp only [List.mem_filter, decide_eq_true_eq] at hmem
  exact hne hmem.2

/-- Witness for C18: of the listing ready pod (2.0), old pod (1.0), slow pod
(2.0), the old pod is the outdated one and the two others carry version
2.0. -/
theorem observers_partition_witness :
    (getOneOutdatedPod (rolloutEnv (sampleSts 3 2 1) [readyPod, oldPod, slowPod])
      (startOf upgradingCluster) (sampleSts 3 2 1) "2.0").1 = .ok (some oldPod) ∧
    (getPodsWithVersion (rolloutEnv (sampleSts 3 2 1) [readyPod, oldPod, slowPod])
      (startOf upgradingCluster) { Requirements := [("component", "pravega-segmentstore")] }
      "default" "2.0").1 = .ok [readyPod, slowPod] :=
  have h := observers_partition (rolloutEnv (sampleSts 3 2 1) [readyPod, oldPod, slowPod])
    (startOf upgradingCluster) (sampleSts 3 2 1)
    { Requirements := [("component", "pravega-segmentstore")] }
    [readyPod, oldPod, slowPod] "2.0" (by decide) (by decide)
  ⟨(h.1 oldPod).2 ⟨[readyPod], [slowPod], rfl, by decide, by decide⟩, h.2.2.1⟩

/-! ### What the code below the synchronizer leaves alone -/

theorem find_setClusterCondition_of_some
    (tt : ClusterCondition → ClusterCondition → String → String) (now : String)
    (new c : ClusterCondition)
    (cs : List ClusterCondition)
    (h : cs.find? (fun c => decide (c.Type_ = new.Type_)) = some c) :
    (setClusterCondition tt now new cs).find? (fun c => decide (c.Type_ = new.Type_)) =
      some (mergeCondition tt now c new) := by
  induction cs with
  | nil => simp at h
  | cons a cs ih =>
    by_cases ha : a.Type_ = new.Type_
    · simp only [List.find?, ha, decide_True, Option.some.injEq] at h
      subst h
      simp [setClusterCondition, ha, mergeCondition]
    · simp only [List.find?, ha, decide_False] at h
      rw [setClusterCondition, if_neg ha]
      simp only [List.find?, ha, decide_False]
      exact ih h

theorem statusFrame_refl (ps : ClusterStatus) : StatusFrame ps ps :=
  ⟨rfl, fun _ _ => rfl, fun _ h => Or.inr h, fun u h hs => ⟨u, h, rfl, hs⟩⟩

theorem statusFrame_trans {a b c : ClusterStatus} (h1 : StatusFrame a b)
    (h2 : StatusFrame b c) : StatusFrame a c := by
  obtain ⟨a1, a2, a3, a4⟩ := h1
  obtain ⟨b1, b2, b3, b4⟩ := h2
  refine ⟨b1.trans a1, fun t ht => (b2 t ht).trans (a2 t ht), ?_, ?_⟩
  · intro u hu
    rcases b3 u hu with h | h
    · exact Or.inl h
    · exact a3 u h
  · intro u hu hs
    obtain ⟨u', h1, h2, h3⟩ := a4 u hu hs
    obtain ⟨u'', k1, k2, k3⟩ := b4 u' h1 h3
    exact ⟨u'', k1, k2.trans h2, k3⟩

theorem StatusFrame.of_set (ps : ClusterStatus) (env : Env) (r m : String) :
    StatusFrame ps (ps.SetUpgradingConditionTrue env r m) := by
  refine ⟨rfl, fun t ht => get_SetUpgradingConditionTrue_other ps env r m t ht, ?_, ?_⟩
  · intro u hu
    obtain ⟨c, hc, hs, -⟩ := get_SetUpgradingConditionTrue ps env r m
    rw [hc] at hu
    cases hu
    exact Or.inl hs
  · intro u hu hs
    have h := find_setClusterCondition_of_some env.TransitionTime (env.Format env.now)
      (newClusterCondition .ClusterConditionUpgrading .ConditionTrue r m) u ps.Conditions hu
    exact ⟨_, h, rfl, rfl⟩

theorem StatusFrame.of_currentVersion (ps : ClusterStatus) (v : String) :
    StatusFrame ps { ps with CurrentVersion := v } :=
  statusFrame_refl ps

theorem clusterFrame_refl (p : PravegaCluster) : ClusterFrame p p :=
  ⟨rfl, rfl, rfl, statusFrame_refl _⟩

theorem clusterFrame_trans {a b c : PravegaCluster} (h1 : ClusterFrame a b)
    (h2 : ClusterFrame b c) : ClusterFrame a c :=
  ⟨h2.1.trans h1.1, h2.2.1.trans h1.2.1, h2.2.2.1.trans h1.2.2.1, statusFrame_trans h1.2.2.2 h2.2.2.2⟩

theorem StatusEffect.clusterFrame {env : Env} {p p' : PravegaCluster}
    (h : StatusEffect env p p') : ClusterFrame p p' := by
  rcases h with h | ⟨r, m, h⟩ <;> subst h
  · exact clusterFrame_refl _
  · exact ⟨rfl, rfl, rfl, StatusFrame.of_set _ env r m⟩

theorem checkUpgradeCondition_statusEffect (env : Env) (p : PravegaCluster) (reason : String)
    (n : Int) : StatusEffect env p (checkUpgradeCondition env p reason n).2 := by
  rcases checkUpgradeCondition_p env p reason n with h | h
  · exact Or.inl h
  · exact Or.inr ⟨_, _, h⟩

theorem syncComponentsLoop_clusterFrame (env : Env) (cs : List componentSyncVersionFun)
    (hs : ∀ c ∈ cs, ∀ st : State, StatusEffect env st.p (c.fn st).2.p) (s : State) :
    ClusterFrame s.p (syncComponentsLoop cs s).2.p := by
  induction cs generalizing s with
  | nil =>
    simp only [syncComponentsLoop, State.setStatus_p]
    exact ⟨rfl, rfl, rfl, StatusFrame.of_currentVersion _ _⟩
  | cons c rest ih =>
    have h1 : ClusterFrame s.p (c.fn (s.log (.invoke c.name))).2.p :=
      (hs c (List.mem_cons_self _ _) (s.log (.invoke c.name))).clusterFrame
    have ih' := ih (fun c' hc' => hs c' (List.mem_cons_of_mem _ hc'))
    rw [syncComponentsLoop]
    simp only []
    cases hr : (c.fn (s.log (.invoke c.name))).1 with
    | panic => exact h1
    | ret a =>
      obtain ⟨synced, e⟩ := a
      cases e with
      | some e => exact h1
      | none =>
        cases synced with
        | false => exact h1
        | true =>
          exact clusterFrame_trans h1 (ih' ((c.fn (s.log (.invoke c.name))).2.log
            (.returned c.name true none)))

/-- C19, as stated, fails: on a cluster whose `Upgrading` condition is false,
the trigger phase of the segment-store driver, and likewise the watchdog, set
the status of the `Upgrading` condition to true, a field other than its
reason, message and time stamps. -/
theorem driver_sets_upgrading_status_true :
    idleCluster.Status.GetClusterCondition .ClusterConditionUpgrading =
      some (sampleCondition .ClusterConditionUpgrading .ConditionFalse "" "") ∧
    (syncSegmentStoreVersion (rolloutEnv oldImageSts []) (startOf idleCluster)).2.p.Status.GetClusterCondition
      .ClusterConditionUpgrading =
      some (sampleCondition .ClusterConditionUpgrading .ConditionTrue
        "Upgrading Segmentstore" "0") ∧
    (checkUpgradeCondition sampleEnv idleCluster "Upgrading Bookkeeper" 1).2.Status.GetClusterCondition
      .ClusterConditionUpgrading =
      some (sampleCondition .ClusterConditionUpgrading .ConditionTrue
        "Upgrading Bookkeeper" "1") := by
  decide

/-- C19, amended. For every cluster and platform state, the three drivers,
the watchdog and the orchestrator leave the name, the namespace and the spec
of the cluster resource (so the declared version), `targetVersion` and every
condition other than `Upgrading` (so the `Error` condition) as they were; they
never set `Upgrading` to false: an `Upgrading` condition found afterwards is
true or is the one found before; and when `Upgrading` is true at entry it
stays true, so that only its reason, message and time stamps can differ. The
drivers and the watchdog keep
`currentVersion`; the orchestrator leaves it unchanged or sets it to
`targetVersion`. -/
theorem below_synchronizer_frame (env : Env) (s : State) :
    (∀ d ∈ stsDrivers env,
      ClusterFrame s.p (d.2 s).2.p ∧
      (d.2 s).2.p.Status.CurrentVersion = s.p.Status.CurrentVersion) ∧
    (ClusterFrame s.p (syncControllerVersion env s).2.p ∧
      (syncControllerVersion env s).2.p.Status.CurrentVersion = s.p.Status.CurrentVersion) ∧
    (∀ reason updatedReplicas,
      ClusterFrame s.p (checkUpgradeCondition env s.p reason updatedReplicas).2 ∧
      (checkUpgradeCondition env s.p reason updatedReplicas).2.Status.CurrentVersion =
        s.p.Status.CurrentVersion) ∧
    (ClusterFrame s.p (syncComponentsVersion env s).2.p ∧
      ((syncComponentsVersion env s).2.p.Status.CurrentVersion = s.p.Status.CurrentVersion ∨
        (syncComponentsVersion env s).2.p.Status.CurrentVersion =
          s.p.Status.TargetVersion)) := by
  refine ⟨?_, ?_, ?_, ?_⟩
  · intro d hd
    simp only [stsDrivers, List.mem_cons, List.mem_singleton, List.not_mem_nil, or_false] at hd
    rcases hd with rfl | rfl
    · exact ⟨(stsStep_statusEffect env (bookieTier env) s).clusterFrame,
        (stsStep_statusEffect env (bookieTier env) s).versions.2.1⟩
    · exact ⟨(stsStep_statusEffect env (segmentStoreTier env) s).clusterFrame,
        (stsStep_statusEffect env (segmentStoreTier env) s).versions.2.1⟩
  · exact ⟨(syncControllerVersion_statusEffect env s).clusterFrame,
      (syncControllerVersion_statusEffect env s).versions.2.1⟩
  · intro reason n
    exact ⟨(checkUpgradeCondition_statusEffect env s.p reason n).clusterFrame,
      (checkUpgradeCondition_statusEffect env s.p reason n).versions.2.1⟩
  · refine ⟨syncComponentsLoop_clusterFrame env _ (components_statusEffect env) s, ?_⟩
    obtain ⟨_, _, _, h⟩ := syncComponentsLoop_versions env (components env)
      (components_calls env) (components_statusEffect env)
      (by rw [components_names]; decide) s
    rcases h with ⟨_, h⟩ | ⟨_, h⟩
    · exact Or.inr h
    · exact Or.inl h

/-! ### The two StatefulSet-shaped drivers -/

theorem checkUpdatedPods_swapTiers (env : Env) (pods : List Pod) (v : String) :
    checkUpdatedPods (swapTiers env) pods v = checkUpdatedPods env pods v := by
  induction pods with
  | nil => rfl
  | cons a pods ih =>
    simp only [checkUpdatedPods, ih]
    rfl

theorem appendPodsWithVersion_swapTiers (env : Env) (v : String) (items pods : List Pod) :
    appendPodsWithVersion (swapTiers env) v items pods =
      appendPodsWithVersion env v items pods := by
  induction items generalizing pods with
  | nil => rfl
  | cons a items ih =>
    simp only [appendPodsWithVersion, ih]
    rfl

theorem firstOutdatedPod_swapTiers (env : Env) (v : String) (items : List Pod) :
    firstOutdatedPod (swapTiers env) v items = firstOutdatedPod env v items := by
  induction items with
  | nil => rfl
  | cons a items ih =>
    simp only [firstOutdatedPod, ih]
    rfl

theorem getStsPodsWithVersion_swapTiers (env : Env) (s : State) (sts : StatefulSet)
    (v : String) :
    getStsPodsWithVersion (swapTiers env) s sts v = getStsPodsWithVersion env s sts v := by
  simp only [getStsPodsWithVersion, getPodsWithVersion, appendPodsWithVersion_swapTiers]
  rfl

theorem getOneOutdatedPod_swapTiers (env : Env) (s : State) (sts : StatefulSet) (v : String) :
    getOneOutdatedPod (swapTiers env) s sts v = getOneOutdatedPod env s sts v := by
  simp only [getOneOutdatedPod, firstOutdatedPod_swapTiers]
  rfl

theorem checkUpgradeCondition_swapTiers (env : Env) (p : PravegaCluster) (reason : String)
    (n : Int) :
    checkUpgradeCondition (swapTiers env) p reason n = checkUpgradeCondition env p reason n :=
  rfl

theorem stsStep_swapTiers (env : Env) (t : StsTier) (s : State) :
    stsStep (swapTiers env) t s = stsStep env t s := by
  simp only [stsStep, checkUpdatedPods_swapTiers, getStsPodsWithVersion_swapTiers,
    getOneOutdatedPod_swapTiers, checkUpgradeCondition_swapTiers]
  rfl

/-- C20 (one algorithm). Each of the two StatefulSet-shaped drivers is the
generic step `stsStep` at its tier, a tier being exactly a workload name, a
target image, a configuration builder, a template builder and an upgrading
reason; and exchanging these tier-specific items in the environment turns
either driver into the other: result and final state, so the events issued
and the status mutation, coincide. In particular the two drivers agree
wherever the two tiers have the same items. -/
theorem sts_drivers_same_algorithm (env : Env) (s : State) :
    syncBookkeeperVersion env s = stsStep env (bookieTier env) s ∧
    syncSegmentStoreVersion env s = stsStep env (segmentStoreTier env) s ∧
    syncBookkeeperVersion env s = syncSegmentStoreVersion (swapTiers env) s ∧
    syncSegmentStoreVersion env s = syncBookkeeperVersion (swapTiers env) s ∧
    (bookieTier env = segmentStoreTier env →
      syncBookkeeperVersion env s = syncSegmentStoreVersion env s) := by
  refine ⟨rfl, rfl, ?_, ?_, ?_⟩
  · show stsStep env (bookieTier env) s =
      stsStep (swapTiers env) (segmentStoreTier (swapTiers env)) s
    rw [stsStep_swapTiers]
    rfl
  · show stsStep env (segmentStoreTier env) s =
      stsStep (swapTiers env) (bookieTier (swapTiers env)) s
    rw [stsStep_swapTiers]
    rfl
  · intro h
    show stsStep env (bookieTier env) s = stsStep env (segmentStoreTier env) s
    rw [h]

/-! ### The watchdog on an unparseable time stamp -/

/-- C21 (unparseable stall time stamp). Let the pair
`(reason, decimal updatedReplicas)` equal the stored `(reason, message)` and
let parsing the stored `lastUpdateTime` fail. Then `checkUpgradeCondition`
returns, and what it returns carries no trace of the parse error: it is what
the call returns on any platform with the same clock on which the stored time
stamp parses to the zero time. It reports "progress deadline exceeded" exactly
when the clock is later than ten minutes after the zero time, so at every such
clock, and returns no error otherwise; in either case the cluster resource,
its status included, is the one it was given. -/
theorem checkUpgradeCondition_unparseable_timestamp (env : Env) (p : PravegaCluster)
    (reason : String) (updatedReplicas : Int) (c : ClusterCondition)
    (hc : p.Status.GetClusterCondition .ClusterConditionUpgrading = some c)
    (hr : c.Reason = reason) (hm : c.Message = toString updatedReplicas)
    (hp : env.Parse c.LastUpdateTime = none) :
    (∀ env0 : Env, env0.now = env.now → env0.Parse c.LastUpdateTime = some 0 →
      checkUpgradeCondition env p reason updatedReplicas =
        checkUpgradeCondition env0 p reason updatedReplicas) ∧
    (0 + 10 * Minute < env.now →
      checkUpgradeCondition env p reason updatedReplicas =
        (.ret (some "progress deadline exceeded"), p)) ∧
    (env.now ≤ 0 + 10 * Minute →
      checkUpgradeCondition env p reason updatedReplicas = (.ret none, p)) ∧
    (checkUpgradeCondition env p reason updatedReplicas).2 = p := by
  have key : checkUpgradeCondition env p reason updatedReplicas =
      if env.now > 0 + 10 * Minute then (.ret (some "progress deadline exceeded"), p)
      else (.ret none, p) := by
    simp [checkUpgradeCondition, hc, hr, hm, hp]
  refine ⟨?_, ?_, ?_, ?_⟩
  · intro env0 hnow h0
    have key0 : checkUpgradeCondition env0 p reason updatedReplicas =
        if env0.now > 0 + 10 * Minute then (.ret (some "progress deadline exceeded"), p)
        else (.ret none, p) := by
      simp [checkUpgradeCondition, hc, hr, hm, h0]
    rw [key, key0, hnow]
  · intro h
    rw [key, if_pos h]
  · intro h
    rw [key, if_neg (not_lt.2 h)]
  · rw [key]
    split <;> rfl

/-- Witness for C21: the stall marker of `unstampedCluster` carries the empty
string as its `lastUpdateTime`, which does not parse; at `sampleTime` the
watchdog reports the stall, and ten minutes after the zero time on the dot it
does not. -/
theorem checkUpgradeCondition_unparseable_timestamp_witness :
    sampleEnv.Parse "" = none ∧
    checkUpgradeCondition sampleEnv unstampedCluster "Upgrading Segmentstore" 1 =
      (.ret (some "progress deadline exceeded"), unstampedCluster) ∧
    checkUpgradeCondition zeroWindowEnv unstampedCluster "Upgrading Segmentstore" 1 =
      (.ret none, unstampedCluster) :=
  ⟨by decide,
   (checkUpgradeCondition_unparseable_timestamp sampleEnv unstampedCluster
      "Upgrading Segmentstore" 1
      { sampleCondition .ClusterConditionUpgrading .ConditionTrue "Upgrading Segmentstore" "1"
        with LastUpdateTime := "" }
      (by decide) (by decide) (by decide) (by decide)).2.1 (by decide),
   (checkUpgradeCondition_unparseable_timestamp zeroWindowEnv unstampedCluster
      "Upgrading Segmentstore" 1
      { sampleCondition .ClusterConditionUpgrading .ConditionTrue "Upgrading Segmentstore" "1"
        with LastUpdateTime := "" }
      (by decide) (by decide) (by decide) (by decide)).2.2.1 (by decide)⟩

end Pravega
